import Mathlib

/-! # Screen-off gesture drivers: doubletap2wake and scroff_volctr

A shallow embedding of `drivers/input/touchscreen/doubletap2wake.c` and
`drivers/input/touchscreen/scroff_volctr.c`.

Conventions of the embedding

* The file-scope variables of each driver are the fields of one `State`
  record; a C function becomes a function on that record.
* Calls into the rest of the kernel (input core, workqueues, the touch
  driver, the vibrator) that only signal a collaborator are recorded, in
  program order, in a list of `Call`s returned next to the new state.
* `int` and `s64` values are `Int`.  A coordinate is whatever `int` an input
  event carries, so the coordinate differences of the detectors are taken in
  `int` arithmetic (`int_of`, reduction modulo `2 ^ 32`), and the conversions
  between `int` and `unsigned int` (`unsigned_of`, `value == 0xffffffff`) are
  explicit reductions as well.  Times are millisecond clock readings and
  the tap count exceeds the threshold by at most one, so their `s64` and
  `int` arithmetic does not leave the range of its type.
* `ktime_to_ms(ktime_get_real())` / `ktime_to_ms(ktime_get())` is the
  argument `now` of the function that reads the clock: the reads of one
  evaluation return the same millisecond.
* Work items run to completion at the step that evaluates them, and the
  mutexes `switchlock` and `reg_lock` are taken and released inside one
  function, so they do not appear; `flush_workqueue` and `cancel_work_sync`
  find no work in flight.  The try-locks `pwrkeyworklock` and `keyworklock`
  decide a branch and are state.
* `pr_info` / `pr_err` logging is left out.
-/

/-! # Part I: definitions -/

/-! ## Kernel objects shared by both drivers -/

/-- Modelled from the spec: the `KEY_*` codes of the input headers, which are not
among the source files. The drivers only pass them to the action sink (section
6: power key, volume keys, media keys), so they are kept symbolic. -/
inductive Key where
  | KEY_POWER
  | KEY_VOLUMEUP
  | KEY_VOLUMEDOWN
  | KEY_NEXTSONG
  | KEY_PREVIOUSSONG
deriving DecidableEq

/-- Modelled from the spec: the `ABS_MT_*` event codes of the input headers, which
are not among the source files (section 6: slot-select, tracking-id and
axis-position events). The handlers only `switch` on them, so they are kept
symbolic; `other` is every code without a `case` label. -/
inductive EvCode where
  | ABS_MT_SLOT
  | ABS_MT_TRACKING_ID
  | ABS_MT_POSITION_X
  | ABS_MT_POSITION_Y
  | other
deriving DecidableEq

/-- Work items that the input handlers queue. -/
inductive Work where
  | dt2w_input_work
  | sovc_volume_input_work
  | sovc_track_input_work
deriving DecidableEq

/-- Calls to collaborators, recorded in program order. -/
inductive Call where
  /-- `input_event(dev, EV_KEY, key, value)` -/
  | input_key (key : Key) (value : Int)
  /-- `input_event(dev, EV_SYN, 0, 0)` -/
  | input_syn
  /-- `msleep(ms)` -/
  | msleep (ms : Int)
  /-- `qpnp_hap_td_enable(value)` -/
  | qpnp_hap_td_enable (value : Int)
  /-- `schedule_work(&doubletap2wake_presspwr_work)` -/
  | schedule_presspwr_work
  /-- `schedule_delayed_work(&scroff_volctr_key_work, msecs_to_jiffies(delay))`;
  `none` is the uninitialised `delay` of `scroff_volctr_key_delayed_trigger`. -/
  | schedule_key_work (delay : Option Int)
  /-- `queue_work(wq, &work)` -/
  | queue_work (work : Work)
  /-- `synaptics_rmi4_touch_off_trigger(delay)` -/
  | synaptics_rmi4_touch_off_trigger (delay : Int)
deriving DecidableEq

/-- Modelled from the spec: the worker context of section 4.4, which the kernel's
workqueue code (not among the source files) allocates and releases. This is what
the kernel holds for one `struct workqueue_struct *` variable of a driver. -/
structure Workqueue where
  /-- workqueues created through the variable and not destroyed since -/
  live : Nat
  /-- the variable points to a live workqueue (not NULL, not destroyed) -/
  valid : Bool
  /-- `flush_workqueue` / `destroy_workqueue` calls on a pointer that is not a
  live workqueue -/
  misuse : Nat
deriving DecidableEq

/-- No workqueue was ever created through the variable. -/
def Workqueue.none : Workqueue := { live := 0, valid := false, misuse := 0 }

/-- Modelled from the spec: `wq = create_workqueue(name)` allocates a worker
context; `ok = false` is the allocation failing, which stores NULL. -/
def create_workqueue (w : Workqueue) (ok : Bool) : Workqueue :=
  if ok then { w with live := w.live + 1, valid := true }
  else { w with valid := false }

/-- Modelled from the spec: `flush_workqueue(wq)` drains the worker context; no
work is in flight here, so it only needs a live workqueue. -/
def flush_workqueue (w : Workqueue) : Workqueue :=
  if w.valid then w else { w with misuse := w.misuse + 1 }

/-- Modelled from the spec: `destroy_workqueue(wq)` releases the worker context;
the variable keeps the stale pointer. -/
def destroy_workqueue (w : Workqueue) : Workqueue :=
  if w.valid then { w with live := w.live - 1, valid := false }
  else { w with misuse := w.misuse + 1 }

/-- Modelled from the spec: the subscription to the touch-event source of section
4.4, kept by the input core (not among the source files). This is what the input
core holds for one static `struct input_handler` of a driver. -/
structure InputHandler where
  /-- registrations of the handler that are in effect -/
  subs : Nat
  /-- `input_unregister_handler` calls on a handler that is not registered -/
  misuse : Nat
deriving DecidableEq

/-- The handler was never registered. -/
def InputHandler.none : InputHandler := { subs := 0, misuse := 0 }

/-- Modelled from the spec: `rc = input_register_handler(&h)` subscribes the
handler; the input core has registered it exactly when it returns 0. -/
def input_register_handler (h : InputHandler) (rc : Int) : InputHandler :=
  if rc = 0 then { h with subs := h.subs + 1 } else h

/-- Modelled from the spec: `input_unregister_handler(&h)` ends one subscription
of the handler. -/
def input_unregister_handler (h : InputHandler) : InputHandler :=
  if h.subs = 0 then { h with misuse := h.misuse + 1 }
  else { h with subs := h.subs - 1 }

/-- Modelled from the spec: the errno constant `EFAULT` of the kernel headers,
which are not among the source files; the spec asks only for a failure code,
and this is the value Linux gives it. -/
def EFAULT : Int := 14

/-- The value of an `int` expression whose mathematical value is `v`: `v` reduced
modulo `2 ^ 32` into `-2 ^ 31 .. 2 ^ 31 - 1`, which is what the two's-complement
subtraction and multiplication of the machine give. -/
def int_of (v : Int) : Int := (v + 2147483648) % 4294967296 - 2147483648

/-- The conversion of an `int` to `unsigned int`: reduction modulo `2 ^ 32`. -/
def unsigned_of (v : Int) : Int := v % 4294967296

/-! ## doubletap2wake.c -/

namespace Dt2w

def DT2W_DEFAULT : Int := 0

def DT2W_FEATHER : Int := 200

def DT2W_TIME_GAP : Int := 200

def DT2W_VIB_STRENGTH : Int := 20

/-- The file-scope variables of doubletap2wake.c (lines 71-84). -/
structure State where
  dt2w_switch : Int
  dt2w_switch_tmp : Int
  tap_time_pre : Int
  touch_x : Int
  touch_y : Int
  touch_nr : Int
  x_pre : Int
  y_pre : Int
  is_touching : Bool
  scr_suspended : Bool
  /-- `pwrkeyworklock` is held -/
  pwrkeyworklock : Bool
  dt2w_input_wq : Workqueue
  dt2w_input_handler : InputHandler
  registered : Bool
  /-- build option `CONFIG_QPNP_HAPTIC`; never written -/
  CONFIG_QPNP_HAPTIC : Bool
deriving DecidableEq

/-- The initialisers of lines 71-84. -/
def init (haptic : Bool) : State :=
  { dt2w_switch := DT2W_DEFAULT, dt2w_switch_tmp := 0, tap_time_pre := 0,
    touch_x := 0, touch_y := 0, touch_nr := 0, x_pre := 0, y_pre := 0,
    is_touching := false, scr_suspended := false, pwrkeyworklock := false,
    dt2w_input_wq := Workqueue.none, dt2w_input_handler := InputHandler.none,
    registered := false, CONFIG_QPNP_HAPTIC := haptic }

/-- `doubletap2wake_reset` (lines 108-114). -/
def doubletap2wake_reset (s : State) : State :=
  { s with touch_nr := 0, tap_time_pre := 0, x_pre := 0, y_pre := 0 }

/-- `doubletap2wake_presspwr` (lines 117-131): the power-key work function. -/
def doubletap2wake_presspwr (s : State) : State × List Call :=
  if s.pwrkeyworklock then (s, [])
  else
    (s, [Call.input_key Key.KEY_POWER 1, Call.input_syn,
         Call.input_key Key.KEY_POWER 0, Call.input_syn]
        ++ (if s.CONFIG_QPNP_HAPTIC then [Call.qpnp_hap_td_enable DT2W_VIB_STRENGTH] else []))

/-- `doubletap2wake_pwrtrigger` (lines 135-138). -/
def doubletap2wake_pwrtrigger : List Call := [Call.schedule_presspwr_work]

/-- `calc_feather` (lines 141-148): `int` arithmetic, returned as `unsigned int`. -/
def calc_feather (coord prev_coord : Int) : Int :=
  let calc_coord := int_of (coord - prev_coord)
  let calc_coord := if calc_coord < 0 then int_of (calc_coord * (-1)) else calc_coord
  unsigned_of calc_coord

/-- `new_touch` (lines 151-157). -/
def new_touch (s : State) (x y now : Int) : State :=
  { s with tap_time_pre := now, x_pre := x, y_pre := y, touch_nr := s.touch_nr + 1 }

/-- Lines 185-200 of `detect_doubletap2wake`: the count update, evaluated with
the value `dt2w_switch` has at that point. -/
def detect_count_step (s : State) (x y now : Int) : State :=
  if s.touch_nr = 0 then new_touch s x y now
  else if s.touch_nr ≥ 1 ∧ s.touch_nr ≤ s.dt2w_switch then
    if (calc_feather x s.x_pre < DT2W_FEATHER ∨ calc_feather y s.y_pre < DT2W_FEATHER)
        ∧ now - s.tap_time_pre < DT2W_TIME_GAP then
      { s with tap_time_pre := now, touch_nr := s.touch_nr + 1 }
    else new_touch (doubletap2wake_reset s) x y now
  else new_touch (doubletap2wake_reset s) x y now

/-- Lines 202-206 of `detect_doubletap2wake`: the fire check. -/
def detect_fire_step (s : State) : State × List Call :=
  if s.touch_nr > s.dt2w_switch then (doubletap2wake_reset s, doubletap2wake_pwrtrigger)
  else (s, [])

/-- `detect_doubletap2wake` (lines 160-212). -/
def detect_doubletap2wake (s : State) (x y now : Int) : State × List Call :=
  if !s.scr_suspended then (s, [])
  else if !s.is_touching then
    let s1 := { s with is_touching := true }
    let change_switch : Bool := s1.dt2w_switch_tmp != 0
    let tmp := s1.dt2w_switch
    let s2 := if change_switch then { s1 with dt2w_switch := 1 } else s1
    let s3 := detect_count_step s2 x y now
    let r := detect_fire_step s3
    let s5 := if change_switch then { r.1 with dt2w_switch := tmp } else r.1
    (s5, r.2)
  else (s, [])

/-- `dt2w_input_callback` (lines 214-217): the queued evaluation. -/
def dt2w_input_callback (s : State) (now : Int) : State × List Call :=
  detect_doubletap2wake s s.touch_x s.touch_y now

/-- `dt2w_input_event` (lines 219-249). `value` is an `int`; comparing it with
`0xffffffff` converts it to `unsigned int`. -/
def dt2w_input_event (s : State) (code : EvCode) (value : Int) : State × List Call :=
  if !s.scr_suspended || (s.dt2w_switch == 0 && s.dt2w_switch_tmp == 0) then (s, [])
  else
    match code with
    | EvCode.ABS_MT_SLOT => (doubletap2wake_reset s, [])
    | EvCode.ABS_MT_TRACKING_ID =>
        if value % 4294967296 = 4294967295 then ({ s with is_touching := false }, [])
        else (s, [])
    | EvCode.ABS_MT_POSITION_X =>
        ({ s with touch_x := value }, [Call.queue_work Work.dt2w_input_work])
    | EvCode.ABS_MT_POSITION_Y =>
        ({ s with touch_y := value }, [Call.queue_work Work.dt2w_input_work])
    | EvCode.other => (s, [])

/-- `register_dt2w` (lines 312-353). `wq_ok` is whether `create_workqueue`
succeeds and `rc_handler` what `input_register_handler` returns. -/
def register_dt2w (s : State) (wq_ok : Bool) (rc_handler : Int) : State × Int :=
  let rc : Int := 0
  if s.registered then (s, rc)
  else
    let s1 := { s with dt2w_input_wq := create_workqueue s.dt2w_input_wq wq_ok }
    if !s1.dt2w_input_wq.valid then (s1, -EFAULT)
    else
      let s2 := { s1 with
        dt2w_input_handler := input_register_handler s1.dt2w_input_handler rc_handler }
      let rc := rc_handler
      if rc ≠ 0 then
        ({ s2 with dt2w_input_wq := destroy_workqueue (flush_workqueue s2.dt2w_input_wq) }, rc)
      else ({ s2 with registered := true }, rc)

/-- `unregister_dt2w` (lines 355-377). -/
def unregister_dt2w (s : State) : State :=
  if !s.registered then s
  else
    let s1 := { s with dt2w_input_handler := input_unregister_handler s.dt2w_input_handler }
    let s2 := { s1 with dt2w_input_wq := destroy_workqueue (flush_workqueue s1.dt2w_input_wq) }
    { s2 with registered := false }

/-- One tap: a position sample evaluated at time `now`. -/
structure Tap where
  x : Int
  y : Int
  now : Int
deriving DecidableEq

/-- One contact delivering one evaluated sample: the evaluation of the sample,
then the tracking-id release of the lift. -/
def tap_contact (s : State) (t : Tap) : State × List Call :=
  let r := detect_doubletap2wake s t.x t.y t.now
  let r2 := dt2w_input_event r.1 EvCode.ABS_MT_TRACKING_ID (-1)
  (r2.1, r.2 ++ r2.2)

/-- A sequence of contacts; returns the calls of each contact separately. -/
def run_taps (s : State) : List Tap → State × List (List Call)
  | [] => (s, [])
  | t :: ts =>
    let r := tap_contact s t
    let rest := run_taps r.1 ts
    (rest.1, r.2 :: rest.2)

end Dt2w

/-! ## scroff_volctr.c -/

namespace Sovc

def SOVC_DEFAULT : Int := 1

def SOVC_VOL_FEATHER : Int := 350

def SOVC_TRACK_FEATHER : Int := 500

def SOVC_TIME_GAP : Int := 250

def SOVC_VOL_REEXEC_DELAY : Int := 250

def SOVC_TRACK_REEXEC_DELAY : Int := 4000

def SOVC_AUTO_OFF_DELAY : Int := 4000

def SOVC_KEY_PRESS_DUR : Int := 100

def SOVC_VIB_STRENGTH : Int := 20

/-- `enum CONTROL` (lines 118-124). -/
inductive CONTROL where
  | NO_CONTROL
  | VOL_UP
  | VOL_DOWN
  | TRACK_NEXT
  | TRACK_PREVIOUS
deriving DecidableEq

/-- The file-scope variables of scroff_volctr.c (lines 94-125). -/
structure State where
  sovc_switch : Int
  sovc_tmp_onoff : Int
  sovc_force_off : Bool
  sovc_mic_detected : Bool
  track_changed : Bool
  sovc_scr_suspended : Bool
  sovc_auto_off_delay : Int
  touch_time_pre_x : Int
  touch_time_pre_y : Int
  touch_x : Int
  touch_y : Int
  prev_x : Int
  prev_y : Int
  is_new_touch_x : Bool
  is_new_touch_y : Bool
  is_touching : Bool
  /-- `keyworklock` is held -/
  keyworklock : Bool
  sovc_volume_input_wq : Workqueue
  sovc_track_input_wq : Workqueue
  sovc_volume_input_handler : InputHandler
  sovc_track_input_handler : InputHandler
  registered : Bool
  control : CONTROL
  /-- build option `CONFIG_QPNP_HAPTIC`; never written -/
  CONFIG_QPNP_HAPTIC : Bool
deriving DecidableEq

/-- The initialisers of lines 94-125. -/
def init (haptic : Bool) : State :=
  { sovc_switch := SOVC_DEFAULT, sovc_tmp_onoff := 0, sovc_force_off := false,
    sovc_mic_detected := false, track_changed := false, sovc_scr_suspended := false,
    sovc_auto_off_delay := SOVC_AUTO_OFF_DELAY, touch_time_pre_x := 0,
    touch_time_pre_y := 0, touch_x := 0, touch_y := 0, prev_x := 0, prev_y := 0,
    is_new_touch_x := false, is_new_touch_y := false, is_touching := false,
    keyworklock := false, sovc_volume_input_wq := Workqueue.none,
    sovc_track_input_wq := Workqueue.none,
    sovc_volume_input_handler := InputHandler.none,
    sovc_track_input_handler := InputHandler.none, registered := false,
    control := CONTROL.NO_CONTROL, CONFIG_QPNP_HAPTIC := haptic }

/-- The key pulse every `case` of `scroff_volctr_key` emits (e.g. lines 164-168). -/
def key_pulse (k : Key) : List Call :=
  [Call.input_key k 1, Call.input_syn, Call.msleep SOVC_KEY_PRESS_DUR,
   Call.input_key k 0, Call.input_syn]

/-- `scroff_volctr_key_delayed_trigger` (lines 222-239); the `switch` has no
`default`, so `delay` stays uninitialised for `NO_CONTROL`. -/
def scroff_volctr_key_delayed_trigger (s : State) : List Call :=
  let delay : Option Int :=
    match s.control with
    | CONTROL.VOL_UP => some SOVC_VOL_REEXEC_DELAY
    | CONTROL.VOL_DOWN => some SOVC_VOL_REEXEC_DELAY
    | CONTROL.TRACK_NEXT => some SOVC_TRACK_REEXEC_DELAY
    | CONTROL.TRACK_PREVIOUS => some SOVC_TRACK_REEXEC_DELAY
    | CONTROL.NO_CONTROL => none
  [Call.schedule_key_work delay]

/-- `scroff_volctr_key` (lines 151-212): the key work function. -/
def scroff_volctr_key (s : State) : State × List Call :=
  if !s.sovc_scr_suspended || !s.is_touching then (s, [])
  else if s.keyworklock then (s, [])
  else
    let r : State × List Call :=
      match s.control with
      | CONTROL.VOL_UP => (s, key_pulse Key.KEY_VOLUMEUP)
      | CONTROL.VOL_DOWN => (s, key_pulse Key.KEY_VOLUMEDOWN)
      | CONTROL.TRACK_NEXT => ({ s with track_changed := true }, key_pulse Key.KEY_NEXTSONG)
      | CONTROL.TRACK_PREVIOUS =>
          ({ s with track_changed := true }, key_pulse Key.KEY_PREVIOUSSONG)
      | CONTROL.NO_CONTROL => (s, [])
    let hap := if s.CONFIG_QPNP_HAPTIC then [Call.qpnp_hap_td_enable SOVC_VIB_STRENGTH] else []
    let again := if r.1.is_touching then scroff_volctr_key_delayed_trigger r.1 else []
    (r.1, r.2 ++ hap ++ again)

/-- `scroff_volctr_key_trigger` (lines 216-219). -/
def scroff_volctr_key_trigger : List Call := [Call.schedule_key_work (some 0)]

/-- `scroff_volctr_reset` (lines 242-248). -/
def scroff_volctr_reset (s : State) : State :=
  { s with is_touching := false, is_new_touch_x := false, is_new_touch_y := false,
           control := CONTROL.NO_CONTROL }

/-- `new_touch_x` (lines 251-256). -/
def new_touch_x (s : State) (x now : Int) : State :=
  { s with touch_time_pre_x := now, is_new_touch_x := true, prev_x := x }

/-- `new_touch_y` (lines 258-263). -/
def new_touch_y (s : State) (y now : Int) : State :=
  { s with touch_time_pre_y := now, is_new_touch_y := true, prev_y := y }

/-- `exec_key` (lines 266-271). -/
def exec_key (s : State) (key : CONTROL) : State × List Call :=
  ({ s with is_touching := true, control := key }, scroff_volctr_key_trigger)

/-- `touch_off` (lines 274-286). -/
def touch_off (s : State) : State × List Call :=
  if s.sovc_force_off then (s, [])
  else
    ({ s with sovc_force_off := true },
     [Call.synaptics_rmi4_touch_off_trigger 0]
       ++ (if s.CONFIG_QPNP_HAPTIC then [Call.qpnp_hap_td_enable (SOVC_VIB_STRENGTH * 4)]
           else []))

/-- `sovc_volume_input_callback` (lines 289-307). -/
def sovc_volume_input_callback (s : State) (now : Int) : State × List Call :=
  if !s.is_touching then
    let s1 := if !s.is_new_touch_y then new_touch_y s s.touch_y now else s
    let time := now - s1.touch_time_pre_y
    if time > 0 ∧ time < SOVC_TIME_GAP then
      if int_of (s1.prev_y - s1.touch_y) > SOVC_VOL_FEATHER then exec_key s1 CONTROL.VOL_UP
      else if int_of (s1.touch_y - s1.prev_y) > SOVC_VOL_FEATHER then
        exec_key s1 CONTROL.VOL_DOWN
      else (s1, [])
    else if time > s1.sovc_auto_off_delay then touch_off s1
    else (s1, [])
  else (s, [])

/-- `sovc_track_input_callback` (lines 310-328). -/
def sovc_track_input_callback (s : State) (now : Int) : State × List Call :=
  if !s.is_touching then
    let s1 := if !s.is_new_touch_x then new_touch_x s s.touch_x now else s
    let time := now - s1.touch_time_pre_x
    if time > 0 ∧ time < SOVC_TIME_GAP then
      if int_of (s1.prev_x - s1.touch_x) > SOVC_TRACK_FEATHER then
        exec_key s1 CONTROL.TRACK_NEXT
      else if int_of (s1.touch_x - s1.prev_x) > SOVC_TRACK_FEATHER then
        exec_key s1 CONTROL.TRACK_PREVIOUS
      else (s1, [])
    else if time > s1.sovc_auto_off_delay then touch_off s1
    else (s1, [])
  else (s, [])

/-- `sovc_input_common_event` (lines 330-355); returns the new state and the
`int` result. -/
def sovc_input_common_event (s : State) (code : EvCode) (value : Int) : State × Int :=
  if s.sovc_switch == 0 then (s, 1)
  else if !s.sovc_scr_suspended || s.sovc_tmp_onoff == 0 then (s, 1)
  else
    match code with
    | EvCode.ABS_MT_SLOT => (scroff_volctr_reset s, 0)
    | EvCode.ABS_MT_TRACKING_ID =>
        if value % 4294967296 = 4294967295 then (scroff_volctr_reset s, 0) else (s, 0)
    | _ => (s, 0)

/-- `sovc_volume_input_event` (lines 357-376). -/
def sovc_volume_input_event (s : State) (code : EvCode) (value : Int) : State × List Call :=
  let r := sovc_input_common_event s code value
  if r.2 ≠ 0 then (r.1, [])
  else
    match code with
    | EvCode.ABS_MT_POSITION_Y =>
        ({ r.1 with touch_y := value }, [Call.queue_work Work.sovc_volume_input_work])
    | _ => (r.1, [])

/-- `sovc_track_input_event` (lines 378-397). -/
def sovc_track_input_event (s : State) (code : EvCode) (value : Int) : State × List Call :=
  let r := sovc_input_common_event s code value
  if r.2 ≠ 0 then (r.1, [])
  else
    match code with
    | EvCode.ABS_MT_POSITION_X =>
        ({ r.1 with touch_x := value }, [Call.queue_work Work.sovc_track_input_work])
    | _ => (r.1, [])

/-- `register_sovc` (lines 481-540). `vol_wq_ok`, `trk_wq_ok` are whether the two
`create_workqueue` calls succeed and `rc_vol`, `rc_trk` what the two
`input_register_handler` calls return. -/
def register_sovc (s : State) (vol_wq_ok trk_wq_ok : Bool) (rc_vol rc_trk : Int) :
    State × Int :=
  let rc : Int := 0
  if s.registered then (s, rc)
  else
    let s1 := { s with sovc_volume_input_wq := create_workqueue s.sovc_volume_input_wq vol_wq_ok }
    if !s1.sovc_volume_input_wq.valid then (s1, -EFAULT)
    else
      let s2 := { s1 with
        sovc_track_input_wq := create_workqueue s1.sovc_track_input_wq trk_wq_ok }
      if !s2.sovc_track_input_wq.valid then (s2, -EFAULT)
      else
        let err (e : State) (rc : Int) : State × Int :=
          let e1 := { e with sovc_volume_input_wq := flush_workqueue e.sovc_volume_input_wq }
          let e2 := { e1 with sovc_track_input_wq := flush_workqueue e1.sovc_track_input_wq }
          let e3 := { e2 with sovc_volume_input_wq := destroy_workqueue e2.sovc_volume_input_wq }
          let e4 := { e3 with sovc_track_input_wq := destroy_workqueue e3.sovc_track_input_wq }
          (e4, rc)
        let s3 := { s2 with
          sovc_volume_input_handler :=
            input_register_handler s2.sovc_volume_input_handler rc_vol }
        let rc := rc_vol
        if rc ≠ 0 then err s3 rc
        else
          let s4 := { s3 with
            sovc_track_input_handler :=
              input_register_handler s3.sovc_track_input_handler rc_trk }
          let rc := rc_trk
          if rc ≠ 0 then err s4 rc
          else ({ scroff_volctr_reset s4 with registered := true }, rc)

/-- `unregister_sovc` (lines 542-568). -/
def unregister_sovc (s : State) : State :=
  if !s.registered then s
  else
    let s1 := { s with
      sovc_volume_input_handler := input_unregister_handler s.sovc_volume_input_handler }
    let s2 := { s1 with
      sovc_track_input_handler := input_unregister_handler s1.sovc_track_input_handler }
    let s3 := { s2 with sovc_volume_input_wq := flush_workqueue s2.sovc_volume_input_wq }
    let s4 := { s3 with sovc_track_input_wq := flush_workqueue s3.sovc_track_input_wq }
    let s5 := { s4 with sovc_volume_input_wq := destroy_workqueue s4.sovc_volume_input_wq }
    let s6 := { s5 with sovc_track_input_wq := destroy_workqueue s5.sovc_track_input_wq }
    { s6 with registered := false }

end Sovc

/-! ## Definitions for: Tap detector: threshold (C1) -/

namespace Dt2w

/-- The taps `ts` continue a sequence whose first tap was at `(rx, ry)` and whose
latest tap was at time `prev`: each is within the feather of `(rx, ry)` on one
axis at least, and less than the time gap after the tap before it. -/
def Qualify (rx ry : Int) : Int → List Tap → Prop
  | _, [] => True
  | prev, t :: ts =>
    ((|t.x - rx| < DT2W_FEATHER ∨ |t.y - ry| < DT2W_FEATHER)
      ∧ t.now - prev < DT2W_TIME_GAP) ∧ Qualify rx ry t.now ts

instance Qualify.decide (rx ry : Int) : (prev : Int) → (ts : List Tap) →
    Decidable (Qualify rx ry prev ts)
  | _, [] => isTrue trivial
  | prev, t :: ts =>
    have := Qualify.decide rx ry t.now ts
    inferInstanceAs (Decidable (((|t.x - rx| < DT2W_FEATHER ∨ |t.y - ry| < DT2W_FEATHER)
      ∧ t.now - prev < DT2W_TIME_GAP) ∧ Qualify rx ry t.now ts))

/-- The detector is counting: `c` taps seen, reference `(rx, ry)`, latest tap at `pt`. -/
structure Counting (s : State) (N c rx ry pt : Int) : Prop where
  susp : s.scr_suspended = true
  tmp : s.dt2w_switch_tmp = 0
  sw : s.dt2w_switch = N
  free : s.is_touching = false
  nr : s.touch_nr = c
  refx : s.x_pre = rx
  refy : s.y_pre = ry
  time : s.tap_time_pre = pt

/-- Every tap after the first lies within the feather of the tap before it (on
both axes and in straight-line distance) and follows it by less than the time gap. -/
def NearPrevious : List Tap → Prop
  | [] => True
  | [_] => True
  | p :: t :: ts =>
    (|t.x - p.x| < DT2W_FEATHER ∧ |t.y - p.y| < DT2W_FEATHER
      ∧ (t.x - p.x) ^ 2 + (t.y - p.y) ^ 2 < DT2W_FEATHER ^ 2
      ∧ 0 ≤ t.now - p.now ∧ t.now - p.now < DT2W_TIME_GAP) ∧ NearPrevious (t :: ts)

/-- Suspended, threshold 3, tap state reset. -/
def drift_state : State := { init false with scr_suspended := true, dt2w_switch := 3 }

/-- Four taps 100 ms apart, each 70 px right of and 70 px below the one before. -/
def drift_taps : List Tap := [⟨0, 0, 1000⟩, ⟨70, 70, 1100⟩, ⟨140, 140, 1200⟩, ⟨210, 210, 1300⟩]

/-- Suspended, threshold 2, tap state reset. -/
def triple_state : State := { init false with scr_suspended := true, dt2w_switch := 2 }

end Dt2w

/-! ## Definitions for: Swipe detector: direction mapping (C2) -/

namespace Sovc

/-- Both axes hold a reference at (1000, 1000) taken at time 5000; the stored
samples are 400 px above and 600 px left of it. -/
def swipe_state : State :=
  { init false with
    sovc_scr_suspended := true, sovc_tmp_onoff := 1,
    is_new_touch_x := true, is_new_touch_y := true,
    touch_time_pre_x := 5000, touch_time_pre_y := 5000,
    prev_x := 1000, prev_y := 1000, touch_x := 400, touch_y := 600 }

end Sovc

/-! ## Definitions for: Lifecycle: convergence (C3) and redundant calls (C4) -/

/-- A lifecycle request on a group: `start` is `register_*`, `stop` is `unregister_*`. -/
inductive LifecycleCall where
  | start
  | stop
deriving DecidableEq

namespace Dt2w

/-- The tap group holds its resources exactly when it is registered, and nothing
was ever released that was not held. -/
def Consistent (s : State) : Prop :=
  s.dt2w_input_wq.misuse = 0 ∧ s.dt2w_input_handler.misuse = 0
    ∧ (if s.registered then
        s.dt2w_input_wq.live = 1 ∧ s.dt2w_input_wq.valid = true
          ∧ s.dt2w_input_handler.subs = 1
      else
        s.dt2w_input_wq.live = 0 ∧ s.dt2w_input_wq.valid = false
          ∧ s.dt2w_input_handler.subs = 0)

instance (s : State) : Decidable (Consistent s) := by
  unfold Consistent; infer_instance

/-- One lifecycle request in which allocation and subscription succeed. -/
def lifecycle (s : State) : LifecycleCall → State
  | LifecycleCall.start => (register_dt2w s true 0).1
  | LifecycleCall.stop => unregister_dt2w s

/-- A sequence of lifecycle requests, first to last. -/
def run_lifecycle (s : State) (calls : List LifecycleCall) : State :=
  calls.foldl lifecycle s

end Dt2w

namespace Sovc

/-- The swipe group holds its resources exactly when it is registered, and
nothing was ever released that was not held. -/
def Consistent (s : State) : Prop :=
  s.sovc_volume_input_wq.misuse = 0 ∧ s.sovc_track_input_wq.misuse = 0
    ∧ s.sovc_volume_input_handler.misuse = 0 ∧ s.sovc_track_input_handler.misuse = 0
    ∧ (if s.registered then
        s.sovc_volume_input_wq.live = 1 ∧ s.sovc_volume_input_wq.valid = true
          ∧ s.sovc_track_input_wq.live = 1 ∧ s.sovc_track_input_wq.valid = true
          ∧ s.sovc_volume_input_handler.subs = 1 ∧ s.sovc_track_input_handler.subs = 1
      else
        s.sovc_volume_input_wq.live = 0 ∧ s.sovc_volume_input_wq.valid = false
          ∧ s.sovc_track_input_wq.live = 0 ∧ s.sovc_track_input_wq.valid = false
          ∧ s.sovc_volume_input_handler.subs = 0 ∧ s.sovc_track_input_handler.subs = 0)

instance (s : State) : Decidable (Consistent s) := by
  unfold Consistent; infer_instance

/-- One lifecycle request in which allocation and subscription succeed. -/
def lifecycle (s : State) : LifecycleCall → State
  | LifecycleCall.start => (register_sovc s true true 0 0).1
  | LifecycleCall.stop => unregister_sovc s

/-- A sequence of lifecycle requests, first to last. -/
def run_lifecycle (s : State) (calls : List LifecycleCall) : State :=
  calls.foldl lifecycle s

end Sovc

/-! ## Definitions for: Display-off gating (C5) -/

namespace Dt2w

/-- What can be delivered to the tap detector: an input event to the handler, a
run of the queued evaluation, or a position sample to the detector itself. -/
inductive Input where
  | event (code : EvCode) (value : Int)
  | evaluate (now : Int)
  | sample (x y now : Int)

/-- Deliver one input. -/
def deliver (s : State) : Input → State × List Call
  | Input.event code value => dt2w_input_event s code value
  | Input.evaluate now => dt2w_input_callback s now
  | Input.sample x y now => detect_doubletap2wake s x y now

/-- Deliver a stream of inputs, collecting the calls made. -/
def run_inputs (s : State) : List Input → State × List Call
  | [] => (s, [])
  | i :: rest =>
    let r := deliver s i
    let r2 := run_inputs r.1 rest
    (r2.1, r.2 ++ r2.2)

end Dt2w

namespace Sovc

/-- What can be delivered to the swipe group's handlers: an input event to the
volume handler or to the track handler, or a run of the key work. -/
inductive Input where
  | volume_event (code : EvCode) (value : Int)
  | track_event (code : EvCode) (value : Int)
  | key_work

/-- Deliver one input. -/
def deliver (s : State) : Input → State × List Call
  | Input.volume_event code value => sovc_volume_input_event s code value
  | Input.track_event code value => sovc_track_input_event s code value
  | Input.key_work => scroff_volctr_key s

/-- Deliver a stream of inputs, collecting the calls made. -/
def run_inputs (s : State) : List Input → State × List Call
  | [] => (s, [])
  | i :: rest =>
    let r := deliver s i
    let r2 := run_inputs r.1 rest
    (r2.1, r.2 ++ r2.2)

end Sovc

/-- A tap delivered while awake: position event, evaluation, sample, slot event. -/
def awake_taps : List Dt2w.Input :=
  [Dt2w.Input.event EvCode.ABS_MT_POSITION_X 10, Dt2w.Input.evaluate 1000,
    Dt2w.Input.sample 10 10 1001, Dt2w.Input.event EvCode.ABS_MT_SLOT 1]

/-- A long upward swipe delivered while awake, a run of the key work and a lift. -/
def awake_swipes : List Sovc.Input :=
  [Sovc.Input.volume_event EvCode.ABS_MT_POSITION_Y 1000,
    Sovc.Input.volume_event EvCode.ABS_MT_POSITION_Y 100, Sovc.Input.key_work,
    Sovc.Input.track_event EvCode.ABS_MT_TRACKING_ID (-1)]

/-! ## Definitions for: Tap detector: the step (C6), the count invariant (C7), lift and slot (C8) -/

namespace Dt2w

/-- The tap step in the words of the specification (section 4.1): the first
sample is recorded as reference with count 1; a later one is a repeat tap when
`dx < feather` or `dy < feather`, and `dt < time_gap`, which moves the reference
timestamp and increments the count; any other restarts with this sample as
reference and count 1. -/
def tap_step_spec (s : State) (x y now : Int) : State :=
  if s.touch_nr = 0 then
    { s with x_pre := x, y_pre := y, tap_time_pre := now, touch_nr := 1 }
  else
    let dx := |x - s.x_pre|
    let dy := |y - s.y_pre|
    let dt := now - s.tap_time_pre
    if (dx < 200 ∨ dy < 200) ∧ dt < 200 then
      { s with tap_time_pre := now, touch_nr := s.touch_nr + 1 }
    else
      { s with x_pre := x, y_pre := y, tap_time_pre := now, touch_nr := 1 }

/-- The threshold an evaluation uses: 1 under the temporary switch (lines
175-182), `dt2w_switch` otherwise. -/
def threshold_in_effect (s : State) : Int :=
  if s.dt2w_switch_tmp != 0 then 1 else s.dt2w_switch

/-- The state `detect_doubletap2wake` has after its count update (line 200),
before the fire check. -/
def counted (s : State) (x y now : Int) : State :=
  detect_count_step { s with is_touching := true, dt2w_switch := threshold_in_effect s } x y now

/-- One tap counted under threshold 1: count 1, reference (100, 100) at time 1000. -/
def counting_state : State :=
  { init false with scr_suspended := true, dt2w_switch := 1, touch_nr := 1,
                    x_pre := 100, y_pre := 100, tap_time_pre := 1000 }

/-- One tap counted: suspended, threshold 1, count 1 with reference (100, 100) at
time 1000, the contact still down. -/
def lifted_state : State :=
  { init false with scr_suspended := true, dt2w_switch := 1, touch_nr := 1,
                    x_pre := 100, y_pre := 100, tap_time_pre := 1000, is_touching := true }

end Dt2w

/-! ## Definitions for: Swipe detector: auto-off (C9) -/

namespace Sovc

/-- The two swipe axes: vertical (volume) and horizontal (track). -/
inductive Axis where
  | volume
  | track
deriving DecidableEq

/-- Evaluate the stored sample of an axis at time `now`. -/
def evaluate (s : State) (a : Axis) (now : Int) : State × List Call :=
  match a with
  | Axis.volume => sovc_volume_input_callback s now
  | Axis.track => sovc_track_input_callback s now

/-- A sequence of evaluations, collecting the calls made. -/
def run_evaluations (s : State) : List (Axis × Int) → State × List Call
  | [] => (s, [])
  | e :: rest =>
    let r := evaluate s e.1 e.2
    let r2 := run_evaluations r.1 rest
    (r2.1, r.2 ++ r2.2)

/-- The touch-power-off requests among the calls. -/
def touch_off_requests (calls : List Call) : Nat :=
  calls.countP fun c =>
    match c with
    | Call.synaptics_rmi4_touch_off_trigger _ => true
    | _ => false

/-- No gesture has fired and more than the auto-off delay has elapsed at `now`
since the reference sample recorded for the axis. -/
def AutoOffDue (s : State) (a : Axis) (now : Int) : Prop :=
  s.is_touching = false ∧
    match a with
    | Axis.volume => s.is_new_touch_y = true ∧ now - s.touch_time_pre_y > s.sovc_auto_off_delay
    | Axis.track => s.is_new_touch_x = true ∧ now - s.touch_time_pre_x > s.sovc_auto_off_delay

instance (s : State) (a : Axis) (now : Int) : Decidable (AutoOffDue s a now) := by
  unfold AutoOffDue; cases a <;> infer_instance

/-- Every evaluation of the sequence is due for auto-off in the state it meets. -/
def AllDue (s : State) : List (Axis × Int) → Prop
  | [] => True
  | e :: rest => AutoOffDue s e.1 e.2 ∧ AllDue (evaluate s e.1 e.2).1 rest

instance AllDue.decide : (s : State) → (evals : List (Axis × Int)) → Decidable (AllDue s evals)
  | _, [] => isTrue trivial
  | s, e :: rest =>
    have := AllDue.decide (evaluate s e.1 e.2).1 rest
    inferInstanceAs (Decidable (AutoOffDue s e.1 e.2 ∧ AllDue (evaluate s e.1 e.2).1 rest))

/-- Both axes hold a reference taken at time 1000 and no gesture has fired; the
delay is the default 4000 ms and the panel is not forced off. -/
def idle_state : State :=
  { init false with
    sovc_scr_suspended := true, sovc_tmp_onoff := 1,
    is_new_touch_x := true, is_new_touch_y := true,
    touch_time_pre_x := 1000, touch_time_pre_y := 1000,
    prev_x := 500, prev_y := 500, touch_x := 500, touch_y := 500 }

end Sovc

/-! ## Configuration attributes and display-power handlers -/

/-- Modelled from the spec: the blank level delivered with a display-power event
(section 6: blank/unblank transitions), the `FB_BLANK_*` values of the
framebuffer headers, which are not among the source files; `other` is every
level without a `case` label. -/
inductive Blank where
  | FB_BLANK_UNBLANK
  | FB_BLANK_POWERDOWN
  | other
deriving DecidableEq

/-- Modelled from the spec: the event passed to a framebuffer notifier, the
`FB_EVENT_*` values of the framebuffer headers, which are not among the source
files; `other` is every event that is not `FB_EVENT_BLANK`. -/
inductive FbEvent where
  | FB_EVENT_BLANK (blank : Blank)
  | other
deriving DecidableEq

/-- The value of a character constant of the C source. -/
def chr (c : Char) : Int := (c.toNat : Int)

/-- The byte `buf[i]` of a sysfs write buffer holding the bytes `buf`; sysfs
ends the bytes written with a NUL, which is what an index at the end reads. -/
def buf_at (buf : List Char) (i : Nat) : Int := chr (buf.getD i (Char.ofNat 0))

/-- Modelled from the spec: `sprintf(buf, "%d\n", v)` of the kernel library,
which is not among the source files: the value in decimal followed by a newline
(section 8: the value is echoed back on read); returns the text and its length. -/
def sprintf_d (v : Int) : String × Int :=
  (toString v ++ "\n", ((toString v ++ "\n").length : Int))

/-- Modelled from the spec: the errno constant `EINVAL` of the kernel headers,
which are not among the source files; the spec asks only for a rejection, and
this is the value Linux gives it. -/
def EINVAL : Int := 22

namespace Dt2w

/-- `dt2w_doubletap2wake_show` (lines 382-390). -/
def dt2w_doubletap2wake_show (s : State) : String × Int := sprintf_d s.dt2w_switch

/-- `dt2w_doubletap2wake_dump` (lines 392-410). `buf` holds the bytes written,
`wq_ok` and `rc_handler` are the answers `register_dt2w` gets if it is called.
Returns the new state and `count`. -/
def dt2w_doubletap2wake_dump (s : State) (buf : List Char) (wq_ok : Bool) (rc_handler : Int) :
    State × Int :=
  let s1 :=
    if buf_at buf 0 ≥ chr '0' ∧ buf_at buf 0 ≤ chr '9' ∧ buf_at buf 1 = chr '\n' then
      if s.dt2w_switch ≠ buf_at buf 0 - chr '0' then
        { s with dt2w_switch := buf_at buf 0 - chr '0' }
      else s
    else s
  let s2 :=
    if s1.dt2w_switch ≠ 0 then (register_dt2w s1 wq_ok rc_handler).1 else unregister_dt2w s1
  (s2, (buf.length : Int))

/-- `dt2w_doubletap2wake_tmp_show` (lines 415-423). -/
def dt2w_doubletap2wake_tmp_show (s : State) : String × Int := sprintf_d s.dt2w_switch_tmp

/-- `dt2w_doubletap2wake_tmp_dump` (lines 425-439). -/
def dt2w_doubletap2wake_tmp_dump (s : State) (buf : List Char) (wq_ok : Bool)
    (rc_handler : Int) : State × Int :=
  let s1 :=
    if (buf_at buf 0 = chr '0' ∨ buf_at buf 0 = chr '1') ∧ buf_at buf 1 = chr '\n' then
      if s.dt2w_switch_tmp ≠ buf_at buf 0 - chr '0' then
        { s with dt2w_switch_tmp := buf_at buf 0 - chr '0' }
      else s
    else s
  let s2 :=
    if s1.dt2w_switch_tmp ≠ 0 then (register_dt2w s1 wq_ok rc_handler).1
    else unregister_dt2w s1
  (s2, (buf.length : Int))

/-- `dt2w_fb_notifier_callback` (lines 463-493). `sovc_force_off` is the variable
of scroff_volctr.c that the handler reads when built with
`CONFIG_TOUCHSCREEN_SCROFF_VOLCTR`, and `none` when built without. -/
def dt2w_fb_notifier_callback (s : State) (event : FbEvent) (sovc_force_off : Option Bool)
    (wq_ok : Bool) (rc_handler : Int) : State × Int :=
  if s.dt2w_switch = 0 ∧ s.dt2w_switch_tmp = 0 then (s, 0)
  else
    match event with
    | FbEvent.FB_EVENT_BLANK Blank.FB_BLANK_UNBLANK =>
        (unregister_dt2w { s with scr_suspended := false }, 0)
    | FbEvent.FB_EVENT_BLANK Blank.FB_BLANK_POWERDOWN =>
        let s1 := { s with scr_suspended := true }
        if s1.dt2w_switch ≠ 0 ∨ s1.dt2w_switch_tmp ≠ 0 then
          ((register_dt2w s1 wq_ok rc_handler).1, 0)
        else
          match sovc_force_off with
          | some true => if s1.dt2w_switch = 0 then (unregister_dt2w s1, 0) else (s1, 0)
          | _ => (s1, 0)
    | _ => (s, 0)

end Dt2w

namespace Sovc

/-- `sovc_scroff_volctr_show` (lines 573-581). -/
def sovc_scroff_volctr_show (s : State) : String × Int := sprintf_d s.sovc_switch

/-- `sovc_scroff_volctr_dump` (lines 583-596). `buf` holds the bytes written, the
other arguments are the answers `register_sovc` gets if it is called. Returns
the new state and `count`. -/
def sovc_scroff_volctr_dump (s : State) (buf : List Char) (vol_wq_ok trk_wq_ok : Bool)
    (rc_vol rc_trk : Int) : State × Int :=
  let s1 :=
    if (buf_at buf 0 = chr '0' ∨ buf_at buf 0 = chr '1') ∧ buf_at buf 1 = chr '\n' then
      if s.sovc_switch ≠ buf_at buf 0 - chr '0' then
        { s with sovc_switch := buf_at buf 0 - chr '0' }
      else s
    else s
  let s2 :=
    if s1.sovc_switch ≠ 0 then (register_sovc s1 vol_wq_ok trk_wq_ok rc_vol rc_trk).1
    else unregister_sovc s1
  (s2, (buf.length : Int))

/-- `sovc_scroff_volctr_temp_show` (lines 601-609). -/
def sovc_scroff_volctr_temp_show (s : State) : String × Int := sprintf_d s.sovc_tmp_onoff

/-- `sovc_scroff_volctr_temp_dump` (lines 611-627); the local `value_changed` is
set and never read. -/
def sovc_scroff_volctr_temp_dump (s : State) (buf : List Char) : State × Int :=
  let s1 :=
    if (buf_at buf 0 = chr '0' ∨ buf_at buf 0 = chr '1') ∧ buf_at buf 1 = chr '\n' then
      if s.sovc_tmp_onoff ≠ buf_at buf 0 - chr '0' then
        { s with sovc_tmp_onoff := buf_at buf 0 - chr '0' }
      else s
    else s
  let s2 := if s1.sovc_tmp_onoff ≠ 0 then { s1 with track_changed := false } else s1
  (s2, (buf.length : Int))

/-- `sovc_auto_off_delay_show` (lines 632-640). -/
def sovc_auto_off_delay_show (s : State) : String × Int := sprintf_d s.sovc_auto_off_delay

/-- `sovc_auto_off_delay_dump` (lines 642-656). `sscanf_d buf` stands for
`sscanf(buf, "%d", &val)` of the kernel library, which is not among the source
files: `none` when it does not return 1, `some val` when it does. -/
def sovc_auto_off_delay_dump (sscanf_d : List Char → Option Int) (s : State)
    (buf : List Char) : State × Int :=
  match sscanf_d buf with
  | none => (s, -EINVAL)
  | some val =>
    (if val ≥ 1000 ∧ val ≤ 60000 then { s with sovc_auto_off_delay := val } else s,
     (buf.length : Int))

/-- `sovc_fb_notifier_callback` (lines 680-714). The last four arguments are the
answers `register_sovc` gets if it is called. -/
def sovc_fb_notifier_callback (s : State) (event : FbEvent) (vol_wq_ok trk_wq_ok : Bool)
    (rc_vol rc_trk : Int) : State × Int :=
  if s.sovc_switch = 0 then (s, 0)
  else
    match event with
    | FbEvent.FB_EVENT_BLANK Blank.FB_BLANK_UNBLANK =>
        (unregister_sovc { s with sovc_scr_suspended := false }, 0)
    | FbEvent.FB_EVENT_BLANK Blank.FB_BLANK_POWERDOWN =>
        let s1 := { s with sovc_scr_suspended := true }
        let s2 := if s1.sovc_force_off then unregister_sovc s1 else s1
        if s2.sovc_switch ≠ 0 ∧ (s2.track_changed ∨ s2.sovc_tmp_onoff ≠ 0) then
          if s2.sovc_mic_detected then (unregister_sovc s2, 0)
          else ((register_sovc s2 vol_wq_ok trk_wq_ok rc_vol rc_trk).1, 0)
        else (s2, 0)
    | _ => (s, 0)

end Sovc

/-! ## Definitions for: Display-power handlers: display off (C12) -/

/-- The tap group enabled with threshold 1 and started while the display is off. -/
def enabled_tap : Dt2w.State :=
  (Dt2w.register_dt2w { Dt2w.init false with dt2w_switch := 1, scr_suspended := true } true 0).1

/-- The swipe group (enabled by default) started while the display is off. -/
def enabled_swipe : Sovc.State :=
  (Sovc.register_sovc { Sovc.init false with sovc_scr_suspended := true, sovc_tmp_onoff := 1 }
    true true 0 0).1

/-- The tap group with threshold 2 set, display on, not started. -/
def armed_tap : Dt2w.State := { Dt2w.init false with dt2w_switch := 2 }

/-- The swipe group with the temporary switch set, display on, not started. -/
def armed_swipe : Sovc.State := { Sovc.init false with sovc_tmp_onoff := 1 }

/-! ## Definitions for: Configuration writes: enable flags (C13) -/

/-- The bytes written are well formed for the value `n`: the digit of `n`, then a
newline (anything may follow). -/
def Written (buf : List Char) (n : Int) : Prop :=
  buf_at buf 0 = chr '0' + n ∧ buf_at buf 1 = chr '\n'

instance (buf : List Char) (n : Int) : Decidable (Written buf n) := by
  unfold Written; infer_instance

/-! ## Definitions for: Configuration writes: auto-off delay (C14) -/

namespace Sovc

/-- Everything that can happen to the swipe driver: an input event to one of its
handlers, a run of one of its work functions, a write to one of its attributes (with
the answers a start would get), a display-power event, and a write by another
driver to one of the exported flags `sovc_mic_detected` and `sovc_force_off`. -/
inductive Op where
  | volume_event (code : EvCode) (value : Int)
  | track_event (code : EvCode) (value : Int)
  | volume_work (now : Int)
  | track_work (now : Int)
  | key_work
  | write_scroff_volctr (buf : List Char) (vol_wq_ok trk_wq_ok : Bool) (rc_vol rc_trk : Int)
  | write_scroff_volctr_temp (buf : List Char)
  | write_auto_off_delay (buf : List Char)
  | fb_event (event : FbEvent) (vol_wq_ok trk_wq_ok : Bool) (rc_vol rc_trk : Int)
  | set_mic_detected (b : Bool)
  | set_force_off (b : Bool)

/-- The state after one operation; `sscanf_d` is the kernel's scanner. -/
def step (sscanf_d : List Char → Option Int) (s : State) : Op → State
  | Op.volume_event code value => (sovc_volume_input_event s code value).1
  | Op.track_event code value => (sovc_track_input_event s code value).1
  | Op.volume_work now => (sovc_volume_input_callback s now).1
  | Op.track_work now => (sovc_track_input_callback s now).1
  | Op.key_work => (scroff_volctr_key s).1
  | Op.write_scroff_volctr buf vol_wq_ok trk_wq_ok rc_vol rc_trk =>
      (sovc_scroff_volctr_dump s buf vol_wq_ok trk_wq_ok rc_vol rc_trk).1
  | Op.write_scroff_volctr_temp buf => (sovc_scroff_volctr_temp_dump s buf).1
  | Op.write_auto_off_delay buf => (sovc_auto_off_delay_dump sscanf_d s buf).1
  | Op.fb_event event vol_wq_ok trk_wq_ok rc_vol rc_trk =>
      (sovc_fb_notifier_callback s event vol_wq_ok trk_wq_ok rc_vol rc_trk).1
  | Op.set_mic_detected b => { s with sovc_mic_detected := b }
  | Op.set_force_off b => { s with sovc_force_off := b }

/-- The state after a sequence of operations, first to last. -/
def run (sscanf_d : List Char → Option Int) (s : State) (ops : List Op) : State :=
  ops.foldl (step sscanf_d) s

/-- A scanner that reads the text "35000" as 35000, the text "500" as 500, and
nothing else. -/
def scan_sample (buf : List Char) : Option Int :=
  if buf = ['3', '5', '0', '0', '0', '\n'] then some 35000
  else if buf = ['5', '0', '0', '\n'] then some 500
  else none

end Sovc

/-! ## Definitions for: Configuration writes: rejected writes (C15) -/

/-- The bytes written pass the test of `dt2w_doubletap2wake_dump`: a digit, then a
newline. -/
def DigitLine (buf : List Char) : Prop :=
  buf_at buf 0 ≥ chr '0' ∧ buf_at buf 0 ≤ chr '9' ∧ buf_at buf 1 = chr '\n'

instance (buf : List Char) : Decidable (DigitLine buf) := by
  unfold DigitLine; infer_instance

/-- The bytes written pass the test of the three on/off attributes: `0` or `1`,
then a newline. -/
def BitLine (buf : List Char) : Prop :=
  (buf_at buf 0 = chr '0' ∨ buf_at buf 0 = chr '1') ∧ buf_at buf 1 = chr '\n'

instance (buf : List Char) : Decidable (BitLine buf) := by
  unfold BitLine; infer_instance

/-- The tap group started by a write of 1 to `doubletap2wake_tmp` on the initial
state: registered, `dt2w_switch_tmp = 1`, `dt2w_switch = 0`. -/
def tmp_started_tap : Dt2w.State :=
  (Dt2w.dt2w_doubletap2wake_tmp_dump (Dt2w.init false) ['1', '\n'] true 0).1

/-- The swipe driver with the temporary switch on after a track change. -/
def track_changed_swipe : Sovc.State :=
  { Sovc.init false with sovc_tmp_onoff := 1, track_changed := true }

/-! ## Definitions for: Key dispatch: cadence (C16), guard (C17), stop (C18), pulse (C19) -/

namespace Sovc

/-- Modelled from the spec: the clock of section 2 in its ideal form, which the
kernel (not among the source files) only approximates: a call takes no time,
except `msleep(ms)`, which takes exactly `ms`. Stamps every call with the time
at which it is made, the first at `t`, and returns the time after the last. -/
def stamp (t : Int) : List Call → List (Int × Call) × Int
  | [] => ([], t)
  | Call.msleep ms :: rest =>
    let r := stamp (t + ms) rest
    ((t, Call.msleep ms) :: r.1, r.2)
  | c :: rest =>
    let r := stamp t rest
    ((t, c) :: r.1, r.2)

/-- Modelled from the spec: the timer of section 2 in its ideal form: the key
work is run again exactly `delay` after the `schedule_delayed_work` call that
armed it. Returns that time for the last such call among the stamped calls. -/
def next_due (stamped : List (Int × Call)) : Option Int :=
  stamped.foldl
    (fun acc tc =>
      match tc.2 with
      | Call.schedule_key_work (some delay) => some (tc.1 + delay)
      | _ => acc)
    none

/-- Up to `n` successive runs of the key work while the contact stays down, the
first at time `t` and each later one when the run before it armed the timer.
Returns the calls of all runs with their times. -/
def key_runs : Nat → State → Int → List (Int × Call)
  | 0, _, _ => []
  | n + 1, s, t =>
    let r := scroff_volctr_key s
    let st := stamp t r.2
    st.1 ++
      match next_due st.1 with
      | some due => key_runs n r.1 due
      | none => []

/-- The times at which a key-down is emitted. -/
def pulse_starts (stamped : List (Int × Call)) : List Int :=
  stamped.filterMap fun tc =>
    match tc.2 with
    | Call.input_key _ value => if value = 1 then some tc.1 else none
    | _ => none

/-- The pulses that start after the initial one at `t0` and no later than
`t0 + held`, among up to `n` runs of the key work. -/
def additional_pulses (n : Nat) (s : State) (t0 held : Int) : Nat :=
  (pulse_starts (key_runs n s t0)).countP fun start => decide (t0 < start ∧ start ≤ t0 + held)

/-- The key events among the calls, in order. -/
def key_events (calls : List Call) : List (Key × Int) :=
  calls.filterMap fun c =>
    match c with
    | Call.input_key key value => some (key, value)
    | _ => none

/-- A swipe has fired and the contact is held: screen suspended, `is_touching`
set, dispatch lock free, the control `c` stored. -/
def Held (s : State) (c : CONTROL) : Prop :=
  s.sovc_scr_suspended = true ∧ s.is_touching = true ∧ s.keyworklock = false ∧ s.control = c

instance (s : State) (c : CONTROL) : Decidable (Held s c) := by
  unfold Held; infer_instance

/-- The period of the repeat: press duration plus re-exec delay. -/
def repeat_period (c : CONTROL) : Int :=
  match c with
  | CONTROL.VOL_UP => SOVC_KEY_PRESS_DUR + SOVC_VOL_REEXEC_DELAY
  | CONTROL.VOL_DOWN => SOVC_KEY_PRESS_DUR + SOVC_VOL_REEXEC_DELAY
  | CONTROL.TRACK_NEXT => SOVC_KEY_PRESS_DUR + SOVC_TRACK_REEXEC_DELAY
  | CONTROL.TRACK_PREVIOUS => SOVC_KEY_PRESS_DUR + SOVC_TRACK_REEXEC_DELAY
  | CONTROL.NO_CONTROL => 0

/-- A volume-up swipe has just fired on the started swipe group, display off. -/
def volume_held : State := (exec_key enabled_swipe CONTROL.VOL_UP).1

end Sovc

/-- A volume-up swipe that fired, after the contact was lifted. -/
def volume_lifted : Sovc.State := Sovc.scroff_volctr_reset Sovc.volume_held

/-- The tap driver while a power-key pulse is in progress. -/
def pulse_in_progress : Dt2w.State := { Dt2w.init false with pwrkeyworklock := true }

/-- The swipe driver after: temporary switch written 1, display off (group
started), a sample at y = 1000 evaluated at 1000 ms, a sample at y = 600
evaluated at 1100 ms (volume-up fires), one run of the key work, and then
`scroff_volctr` written 0 (group stopped) with the finger still down. -/
def stopped_while_held : Sovc.State :=
  Sovc.run Sovc.scan_sample (Sovc.init false)
    [Sovc.Op.write_scroff_volctr_temp ['1', '\n'],
      Sovc.Op.fb_event (FbEvent.FB_EVENT_BLANK Blank.FB_BLANK_POWERDOWN) true true 0 0,
      Sovc.Op.volume_event EvCode.ABS_MT_POSITION_Y 1000,
      Sovc.Op.volume_work 1000,
      Sovc.Op.volume_event EvCode.ABS_MT_POSITION_Y 600,
      Sovc.Op.volume_work 1100,
      Sovc.Op.key_work,
      Sovc.Op.write_scroff_volctr ['0', '\n'] true true 0 0]

/-! ## Definitions for: Display-power handlers: forced-off (C20) -/

/-- The started swipe group (temporary switch on, mic clear) after the touch
panel was forced off. -/
def forced_off_swipe : Sovc.State := { enabled_swipe with sovc_force_off := true }

/-- The started swipe group forced off with the mic detected. -/
def forced_off_mic_swipe : Sovc.State := { forced_off_swipe with sovc_mic_detected := true }

/-! ## Definitions for: Reachable states of the tap driver -/

namespace Dt2w

/-- `read_dt2w_cmdline` (lines 92-104): the `dt2w=` boot parameter. -/
def read_dt2w_cmdline (s : State) (dt2w : List Char) : State :=
  if dt2w = ['1'] then { s with dt2w_switch := 1 }
  else if dt2w = ['0'] then { s with dt2w_switch := 0 }
  else s

/-- The state when the driver is loaded: the initialisers, then the boot
parameter if one was given. -/
def boot (haptic : Bool) (cmdline : Option (List Char)) : State :=
  match cmdline with
  | none => init haptic
  | some dt2w => read_dt2w_cmdline (init haptic) dt2w

/-- Everything that can happen to the tap driver: an input event to its handler,
a run of one of its work functions, a write to one of its attributes and a
display-power event (each with the answers a start would get, and the value of
`sovc_force_off` the display-power handler would read). -/
inductive Op where
  | event (code : EvCode) (value : Int)
  | input_work (now : Int)
  | presspwr_work
  | write_doubletap2wake (buf : List Char) (wq_ok : Bool) (rc_handler : Int)
  | write_doubletap2wake_tmp (buf : List Char) (wq_ok : Bool) (rc_handler : Int)
  | fb_event (event : FbEvent) (sovc_force_off : Option Bool) (wq_ok : Bool) (rc_handler : Int)

/-- The state after one operation. -/
def step (s : State) : Op → State
  | Op.event code value => (dt2w_input_event s code value).1
  | Op.input_work now => (dt2w_input_callback s now).1
  | Op.presspwr_work => (doubletap2wake_presspwr s).1
  | Op.write_doubletap2wake buf wq_ok rc_handler =>
      (dt2w_doubletap2wake_dump s buf wq_ok rc_handler).1
  | Op.write_doubletap2wake_tmp buf wq_ok rc_handler =>
      (dt2w_doubletap2wake_tmp_dump s buf wq_ok rc_handler).1
  | Op.fb_event event sovc_force_off wq_ok rc_handler =>
      (dt2w_fb_notifier_callback s event sovc_force_off wq_ok rc_handler).1

/-- The state after a sequence of operations, first to last. -/
def run (s : State) (ops : List Op) : State :=
  ops.foldl step s

end Dt2w

namespace Sovc

/-- `read_sovc_cmdline` (lines 135-147): the `sovc=` boot parameter. -/
def read_sovc_cmdline (s : State) (sovc : List Char) : State :=
  if sovc = ['1'] then { s with sovc_switch := 1 }
  else if sovc = ['0'] then { s with sovc_switch := 0 }
  else s

/-- The state when the driver is loaded: the initialisers, then the boot
parameter if one was given. -/
def boot (haptic : Bool) (cmdline : Option (List Char)) : State :=
  match cmdline with
  | none => init haptic
  | some sovc => read_sovc_cmdline (init haptic) sovc

end Sovc

/-! ## Definitions for: Lifecycle: start and the detector state (C21) -/

/-- The tap driver after: threshold 1 written, display off (group started), one
tap at (100, 100) evaluated at 1000 ms and lifted, display on (group stopped). -/
def tapped_then_stopped : Dt2w.State :=
  Dt2w.run (Dt2w.boot false none)
    [Dt2w.Op.write_doubletap2wake ['1', '\n'] true 0,
      Dt2w.Op.fb_event (FbEvent.FB_EVENT_BLANK Blank.FB_BLANK_POWERDOWN) none true 0,
      Dt2w.Op.event EvCode.ABS_MT_POSITION_X 100,
      Dt2w.Op.event EvCode.ABS_MT_POSITION_Y 100,
      Dt2w.Op.input_work 1000,
      Dt2w.Op.event EvCode.ABS_MT_TRACKING_ID (-1),
      Dt2w.Op.fb_event (FbEvent.FB_EVENT_BLANK Blank.FB_BLANK_UNBLANK) none true 0]

/-- `tapped_then_stopped` after the next display off, which starts the group
again. -/
def tapped_then_restarted : Dt2w.State :=
  Dt2w.step tapped_then_stopped
    (Dt2w.Op.fb_event (FbEvent.FB_EVENT_BLANK Blank.FB_BLANK_POWERDOWN) none true 0)

/-! ## Definitions for: Swipe detector: first sample (C22), shared actuation (C25), event gate (C26) -/

namespace Sovc

/-- The calls of `exec_key` among the calls: the key work scheduled with delay 0. -/
def key_triggers (calls : List Call) : Nat :=
  calls.countP fun c => decide (c = Call.schedule_key_work (some 0))

/-- No gesture has fired since the last reset. -/
def Idle (s : State) : Prop := s.is_touching = false ∧ s.control = CONTROL.NO_CONTROL

/-- A gesture has fired: the detector is actuating and one of the four controls
is stored. -/
def Fired (s : State) : Prop :=
  s.is_touching = true
    ∧ (s.control = CONTROL.VOL_UP ∨ s.control = CONTROL.VOL_DOWN
        ∨ s.control = CONTROL.TRACK_NEXT ∨ s.control = CONTROL.TRACK_PREVIOUS)

/-- What reaches the swipe detector: an input to its handlers or a run of the key
work (`Input`), or a run of the evaluation of an axis. -/
inductive Feed where
  | input (i : Input)
  | evaluation (a : Axis) (now : Int)

/-- Deliver one item of a feed. -/
def feed (s : State) : Feed → State × List Call
  | Feed.input i => deliver s i
  | Feed.evaluation a now => evaluate s a now

/-- Deliver a feed, collecting the calls made. -/
def run_feed (s : State) : List Feed → State × List Call
  | [] => (s, [])
  | f :: rest =>
    let r := feed s f
    let r2 := run_feed r.1 rest
    (r2.1, r.2 ++ r2.2)

/-- The item cannot run `scroff_volctr_reset`: it is not a slot event and not a
tracking-id release. -/
def NoReset : Feed → Prop
  | Feed.input (Input.volume_event code value) =>
      code ≠ EvCode.ABS_MT_SLOT
        ∧ ¬ (code = EvCode.ABS_MT_TRACKING_ID ∧ value % 4294967296 = 4294967295)
  | Feed.input (Input.track_event code value) =>
      code ≠ EvCode.ABS_MT_SLOT
        ∧ ¬ (code = EvCode.ABS_MT_TRACKING_ID ∧ value % 4294967296 = 4294967295)
  | _ => True

instance NoReset.decide : (f : Feed) → Decidable (NoReset f)
  | Feed.input (Input.volume_event code value) =>
      inferInstanceAs (Decidable (code ≠ EvCode.ABS_MT_SLOT
        ∧ ¬ (code = EvCode.ABS_MT_TRACKING_ID ∧ value % 4294967296 = 4294967295)))
  | Feed.input (Input.track_event code value) =>
      inferInstanceAs (Decidable (code ≠ EvCode.ABS_MT_SLOT
        ∧ ¬ (code = EvCode.ABS_MT_TRACKING_ID ∧ value % 4294967296 = 4294967295)))
  | Feed.input Input.key_work => isTrue trivial
  | Feed.evaluation _ _ => isTrue trivial

/-- With the swipe group started and no reference recorded: a first sample on the
volume axis, an upward swipe of 400 px within 100 ms, a run of the key work, then
a first sample and a leftward swipe of 600 px on the track axis. -/
def two_axis_feed : List Feed :=
  [Feed.input (Input.volume_event EvCode.ABS_MT_POSITION_Y 1000),
    Feed.evaluation Axis.volume 5000,
    Feed.input (Input.volume_event EvCode.ABS_MT_POSITION_Y 600),
    Feed.evaluation Axis.volume 5100,
    Feed.input Input.key_work,
    Feed.input (Input.track_event EvCode.ABS_MT_POSITION_X 1000),
    Feed.evaluation Axis.track 5150,
    Feed.input (Input.track_event EvCode.ABS_MT_POSITION_X 400),
    Feed.evaluation Axis.track 5200]

/-- The started swipe group with a first sample stored at x = 300, y = 1200. -/
def first_sample_state : State := { enabled_swipe with touch_x := 300, touch_y := 1200 }

/-- The swipe group started at display off because `track_changed` was set, the
temporary switch being 0. -/
def track_started_swipe : State :=
  (sovc_fb_notifier_callback { init false with track_changed := true }
    (FbEvent.FB_EVENT_BLANK Blank.FB_BLANK_POWERDOWN) true true 0 0).1

end Sovc

/-! ## Definitions for: Tap detector: one tap per contact (C23), temporary switch (C24) -/

namespace Dt2w

/-- A suspended detector with the permanent switch off and the temporary one on. -/
def tmp_only_state : State :=
  { init false with scr_suspended := true, dt2w_switch := 0, dt2w_switch_tmp := 1 }

end Dt2w

/-! ## Definitions for: Display-power events while disabled (C27), Active implies enabled (C28) -/

/-- The tap driver is enabled, the display goes off, the driver is disabled, the
display comes on, the driver is enabled again. -/
def tap_disabled_while_off : List Dt2w.Op :=
  [Dt2w.Op.write_doubletap2wake ['1', '\n'] true 0,
   Dt2w.Op.fb_event (FbEvent.FB_EVENT_BLANK Blank.FB_BLANK_POWERDOWN) none true 0,
   Dt2w.Op.write_doubletap2wake ['0', '\n'] true 0,
   Dt2w.Op.fb_event (FbEvent.FB_EVENT_BLANK Blank.FB_BLANK_UNBLANK) none true 0,
   Dt2w.Op.write_doubletap2wake ['1', '\n'] true 0]

/-- The display goes off, the swipe driver is disabled, the display comes on, the
driver is enabled again. -/
def swipe_disabled_while_off : List Sovc.Op :=
  [Sovc.Op.fb_event (FbEvent.FB_EVENT_BLANK Blank.FB_BLANK_POWERDOWN) true true 0 0,
   Sovc.Op.write_scroff_volctr ['0', '\n'] true true 0 0,
   Sovc.Op.fb_event (FbEvent.FB_EVENT_BLANK Blank.FB_BLANK_UNBLANK) true true 0 0,
   Sovc.Op.write_scroff_volctr ['1', '\n'] true true 0 0]

/-- The swipe driver after: 1 written to `scroff_volctr_temp`, display off (group
started), a first sample at y = -2147483648 and at x = 2147483647 evaluated at
5000 ms (recorded as the references), then the samples y = 1 and x = -1 stored. -/
def far_swipe_state : Sovc.State :=
  Sovc.run Sovc.scan_sample (Sovc.boot false none)
    [Sovc.Op.write_scroff_volctr_temp ['1', '\n'],
      Sovc.Op.fb_event (FbEvent.FB_EVENT_BLANK Blank.FB_BLANK_POWERDOWN) true true 0 0,
      Sovc.Op.volume_event EvCode.ABS_MT_POSITION_Y (-2147483648),
      Sovc.Op.volume_work 5000,
      Sovc.Op.track_event EvCode.ABS_MT_POSITION_X 2147483647,
      Sovc.Op.track_work 5000,
      Sovc.Op.volume_event EvCode.ABS_MT_POSITION_Y 1,
      Sovc.Op.track_event EvCode.ABS_MT_POSITION_X (-1)]

/-- The tap driver after: threshold 1 written, display off (group started), one
tap at (-2147483648, -2147483648) evaluated at 1000 ms and lifted, then a contact
at (2147483647, 2147483647) stored. -/
def far_tap_state : Dt2w.State :=
  Dt2w.run (Dt2w.boot false none)
    [Dt2w.Op.write_doubletap2wake ['1', '\n'] true 0,
      Dt2w.Op.fb_event (FbEvent.FB_EVENT_BLANK Blank.FB_BLANK_POWERDOWN) none true 0,
      Dt2w.Op.event EvCode.ABS_MT_POSITION_X (-2147483648),
      Dt2w.Op.event EvCode.ABS_MT_POSITION_Y (-2147483648),
      Dt2w.Op.input_work 1000,
      Dt2w.Op.event EvCode.ABS_MT_TRACKING_ID (-1),
      Dt2w.Op.event EvCode.ABS_MT_POSITION_X 2147483647,
      Dt2w.Op.event EvCode.ABS_MT_POSITION_Y 2147483647]

/-! ## Definitions for: Display-power handlers: display on (C11) -/

namespace Dt2w

theorem int_of_eq (v : Int) (h1 : -2147483648 ≤ v) (h2 : v < 2147483648) : int_of v = v := by
  unfold int_of
  omega

theorem calc_feather_eq_abs (a b : Int) (h : |a - b| ≤ 2147483648) :
    calc_feather a b = |a - b| := by
  unfold calc_feather int_of unsigned_of
  rcases abs_cases (a - b) with ⟨h1, h2⟩ | ⟨h1, h2⟩
  · rw [h1] at h ⊢
    simp only []
    split_ifs <;> omega
  · rw [h1] at h ⊢
    simp only []
    split_ifs <;> omega

theorem calc_feather_near (a b : Int) (h : |a - b| < DT2W_FEATHER) :
    calc_feather a b < DT2W_FEATHER := by
  have hb : |a - b| ≤ 2147483648 := by
    simp only [DT2W_FEATHER] at h
    omega
  rw [calc_feather_eq_abs a b hb]
  exact h

theorem tap_contact_first (s : State) (t : Tap) (N : Int) (hN : 1 ≤ N)
    (hs : s.scr_suspended = true) (ht : s.dt2w_switch_tmp = 0) (hsw : s.dt2w_switch = N)
    (hf : s.is_touching = false) (hc : s.touch_nr = 0) :
    (tap_contact s t).2 = [] ∧ Counting (tap_contact s t).1 N 1 t.x t.y t.now := by
  have hN0 : ¬ N = 0 := by omega
  have hN1 : ¬ 1 > N := by omega
  refine ⟨?_, ?_⟩
  · simp [tap_contact, detect_doubletap2wake, detect_count_step, detect_fire_step,
      dt2w_input_event, new_touch, hs, ht, hsw, hf, hc, hN0, hN1]
  · constructor <;>
    simp [tap_contact, detect_doubletap2wake, detect_count_step, detect_fire_step,
      dt2w_input_event, new_touch, hs, ht, hsw, hf, hc, hN0, hN1]

theorem tap_contact_repeat (s : State) (t : Tap) (N c rx ry pt : Int)
    (h : Counting s N c rx ry pt) (hc1 : 1 ≤ c) (hcN : c < N)
    (hq : (|t.x - rx| < DT2W_FEATHER ∨ |t.y - ry| < DT2W_FEATHER)
      ∧ t.now - pt < DT2W_TIME_GAP) :
    (tap_contact s t).2 = [] ∧ Counting (tap_contact s t).1 N (c + 1) rx ry t.now := by
  obtain ⟨hs, ht, hsw, hf, hnr, hx, hy, htm⟩ := h
  have h0 : ¬ c = 0 := by omega
  have h1 : c ≤ N := by omega
  have h2 : ¬ c + 1 > N := by omega
  have hN0 : ¬ N = 0 := by omega
  have hq2 : (calc_feather t.x rx < DT2W_FEATHER ∨ calc_feather t.y ry < DT2W_FEATHER)
      ∧ t.now - pt < DT2W_TIME_GAP :=
    ⟨hq.1.imp (calc_feather_near _ _) (calc_feather_near _ _), hq.2⟩
  refine ⟨?_, ?_⟩
  · simp [tap_contact, detect_doubletap2wake, detect_count_step, detect_fire_step,
      dt2w_input_event, hs, ht, hsw, hf, hnr, hx, hy, htm, h0, hc1, h1, h2, hN0, hq2]
  · constructor <;>
    simp [tap_contact, detect_doubletap2wake, detect_count_step, detect_fire_step,
      dt2w_input_event, hs, ht, hsw, hf, hnr, hx, hy, htm, h0, hc1, h1, h2, hN0, hq2]

theorem tap_contact_fire (s : State) (t : Tap) (N rx ry pt : Int)
    (h : Counting s N N rx ry pt) (hN : 1 ≤ N)
    (hq : (|t.x - rx| < DT2W_FEATHER ∨ |t.y - ry| < DT2W_FEATHER)
      ∧ t.now - pt < DT2W_TIME_GAP) :
    (tap_contact s t).2 = [Call.schedule_presspwr_work] ∧ (tap_contact s t).1.touch_nr = 0 := by
  obtain ⟨hs, ht, hsw, hf, hnr, hx, hy, htm⟩ := h
  have h0 : ¬ N = 0 := by omega
  have hq2 : (calc_feather t.x rx < DT2W_FEATHER ∨ calc_feather t.y ry < DT2W_FEATHER)
      ∧ t.now - pt < DT2W_TIME_GAP :=
    ⟨hq.1.imp (calc_feather_near _ _) (calc_feather_near _ _), hq.2⟩
  refine ⟨?_, ?_⟩ <;>
  simp [tap_contact, detect_doubletap2wake, detect_count_step, detect_fire_step,
    dt2w_input_event, doubletap2wake_reset, doubletap2wake_pwrtrigger,
    hs, ht, hsw, hf, hnr, hx, hy, htm, h0, hN, hq2]

theorem tap_contact_zero (s : State) (t : Tap)
    (hs : s.scr_suspended = true) (ht : s.dt2w_switch_tmp = 0) (hsw : s.dt2w_switch = 0)
    (hf : s.is_touching = false) (hc : s.touch_nr = 0) :
    (tap_contact s t).2 = [Call.schedule_presspwr_work] ∧ (tap_contact s t).1.touch_nr = 0 := by
  refine ⟨?_, ?_⟩ <;>
  simp [tap_contact, detect_doubletap2wake, detect_count_step, detect_fire_step,
    dt2w_input_event, doubletap2wake_reset, doubletap2wake_pwrtrigger, new_touch,
    hs, ht, hsw, hf, hc]

/-- From a counting state with `c` taps seen, `N + 1 - c` further qualifying taps
fire on the last of them only. -/
theorem run_taps_counting (N rx ry : Int) :
    ∀ (ts : List Tap) (s : State) (c pt : Int), Counting s N c rx ry pt → 1 ≤ c → c ≤ N →
      c + ts.length = N + 1 → Qualify rx ry pt ts →
      (run_taps s ts).2 = List.replicate (ts.length - 1) [] ++ [[Call.schedule_presspwr_work]]
        ∧ (run_taps s ts).1.touch_nr = 0
  | [], _, c, _, _, _, hcN, hlen, _ => by
    simp at hlen
    omega
  | t :: ts, s, c, pt, h, hc, hcN, hlen, hq => by
    obtain ⟨hq1, hq2⟩ := hq
    have hl : (((t :: ts).length : Nat) : Int) = (ts.length : Int) + 1 := by simp
    rw [hl] at hlen
    by_cases hlast : c = N
    · have hts : ts = [] := by
        have : (ts.length : Int) = 0 := by omega
        exact List.length_eq_zero.mp (by exact_mod_cast this)
      subst hlast
      subst hts
      obtain ⟨ho, hn⟩ := tap_contact_fire s t c rx ry pt h hc hq1
      simp [run_taps, ho, hn]
    · have hlt : c < N := by omega
      obtain ⟨ho, hcnt⟩ := tap_contact_repeat s t N c rx ry pt h hc hlt hq1
      have hlen2 : c + 1 + (ts.length : Int) = N + 1 := by omega
      obtain ⟨io, inr⟩ := run_taps_counting N rx ry ts (tap_contact s t).1 (c + 1) t.now hcnt
        (by omega) (by omega) hlen2 hq2
      have hpos : 1 ≤ ts.length := by
        have : (1 : Int) ≤ ts.length := by omega
        exact_mod_cast this
      refine ⟨?_, ?_⟩
      · simp only [run_taps, ho, io, List.length_cons, Nat.add_sub_cancel]
        obtain ⟨k, hk⟩ : ∃ k, ts.length = k + 1 := ⟨ts.length - 1, by omega⟩
        simp [hk, List.replicate_succ]
      · simpa [run_taps] using inr

theorem run_taps_append (ts us : List Tap) :
    ∀ s : State, run_taps s (ts ++ us)
      = ((run_taps (run_taps s ts).1 us).1, (run_taps s ts).2 ++ (run_taps (run_taps s ts).1 us).2) := by
  induction ts with
  | nil => intro s; simp [run_taps]
  | cons t ts ih => intro s; simp [run_taps, ih]

theorem run_taps_length (ts : List Tap) : ∀ s : State, (run_taps s ts).2.length = ts.length := by
  induction ts with
  | nil => intro s; simp [run_taps]
  | cons t ts ih => intro s; simp [run_taps, ih]

/-- C1, as stated, fails: with threshold 3, four taps that are each within 200 px
of the previous tap and 100 ms after it fire nothing and leave the counter at 1,
because the fourth tap is compared with the coordinates of the first. -/
theorem tap_threshold_previous_tap_fails :
    drift_state.dt2w_switch = 3 ∧ drift_state.dt2w_switch_tmp = 0
      ∧ drift_state.scr_suspended = true ∧ drift_state = doubletap2wake_reset drift_state
      ∧ drift_state.is_touching = false
      ∧ drift_taps.length = 3 + 1 ∧ NearPrevious drift_taps
      ∧ (run_taps drift_state drift_taps).2 = [[], [], [], []]
      ∧ (run_taps drift_state drift_taps).1.touch_nr = 1 := by
  refine ⟨by decide, by decide, by decide, by decide, by decide, by decide, ?_, by decide,
    by decide⟩
  norm_num [NearPrevious, drift_taps, DT2W_FEATHER, DT2W_TIME_GAP]

/-- C1 (amended): with threshold `N` in `dt2w_switch`, the temporary switch off,
the screen suspended and the tap count at 0, a sequence of `N + 1` taps (one
evaluated sample per contact) in which every tap after the first is within
`DT2W_FEATHER` of the FIRST tap on at least one axis and less than
`DT2W_TIME_GAP` after the tap before it schedules the power-key work exactly
once, on tap `N + 1`, and leaves the counter at 0; the first `N` taps fire
nothing. -/
theorem tap_threshold (N : Nat) (s : State) (first : Tap) (rest : List Tap)
    (hsw : s.dt2w_switch = N) (htmp : s.dt2w_switch_tmp = 0)
    (hs : s.scr_suspended = true) (hf : s.is_touching = false) (hc : s.touch_nr = 0)
    (hlen : rest.length = N) (hq : Qualify first.x first.y first.now rest) :
    (run_taps s (first :: rest)).2 = List.replicate N [] ++ [[Call.schedule_presspwr_work]]
      ∧ (run_taps s (first :: rest)).1.touch_nr = 0
      ∧ (run_taps s ((first :: rest).take N)).2 = List.replicate N [] := by
  have main : (run_taps s (first :: rest)).2
        = List.replicate N [] ++ [[Call.schedule_presspwr_work]]
      ∧ (run_taps s (first :: rest)).1.touch_nr = 0 := by
    rcases Nat.eq_zero_or_pos N with h0 | hpos
    · subst h0
      have hr : rest = [] := List.length_eq_zero.mp hlen
      subst hr
      obtain ⟨ho, hn⟩ := tap_contact_zero s first hs htmp (by simpa using hsw) hf hc
      simp [run_taps, ho, hn]
    · have hN1 : (1 : Int) ≤ N := by exact_mod_cast hpos
      obtain ⟨ho, hcnt⟩ := tap_contact_first s first N hN1 hs htmp hsw hf hc
      obtain ⟨io, inr⟩ := run_taps_counting N first.x first.y rest (tap_contact s first).1 1
        first.now hcnt le_rfl hN1 (by rw [hlen]; ring) hq
      refine ⟨?_, ?_⟩
      · simp only [run_taps, ho, io, hlen]
        obtain ⟨k, hk⟩ : ∃ k, N = k + 1 := ⟨N - 1, by omega⟩
        simp [hk, List.replicate_succ]
      · simpa [run_taps] using inr
  refine ⟨main.1, main.2, ?_⟩
  have happ := run_taps_append ((first :: rest).take N) ((first :: rest).drop N) s
  rw [List.take_append_drop] at happ
  have hl := run_taps_length ((first :: rest).take N) s
  have hl2 : ((first :: rest).take N).length = N := by simp [hlen]
  have h2 := congrArg Prod.snd happ
  simp only [main.1] at h2
  have h3 := congrArg (List.take N) h2
  rw [List.take_left' (by simp), List.take_left' (by rw [hl, hl2])] at h3
  exact h3.symm

theorem tap_threshold_witness :
    (run_taps triple_state [⟨0, 0, 1000⟩, ⟨150, 900, 1100⟩, ⟨900, 100, 1250⟩]).2
        = List.replicate 2 [] ++ [[Call.schedule_presspwr_work]]
      ∧ (run_taps triple_state [⟨0, 0, 1000⟩, ⟨150, 900, 1100⟩, ⟨900, 100, 1250⟩]).1.touch_nr = 0
      ∧ (run_taps triple_state
          (([⟨0, 0, 1000⟩, ⟨150, 900, 1100⟩, ⟨900, 100, 1250⟩] : List Tap).take 2)).2
        = List.replicate 2 [] :=
  tap_threshold 2 triple_state ⟨0, 0, 1000⟩ [⟨150, 900, 1100⟩, ⟨900, 100, 1250⟩]
    (by decide) (by decide) (by decide) (by decide) (by decide) (by decide)
    (by norm_num [Qualify, DT2W_FEATHER, DT2W_TIME_GAP])

end Dt2w

/-! ## Theorems for: Swipe detector: direction mapping (C2) -/

namespace Sovc

theorem int_of_gt (d n : Int) (hn : 0 ≤ n) (hd : d > n) (hr : d ≤ 2147483647) :
    int_of d > n ∧ ¬ int_of (-d) > n := by
  unfold int_of
  omega

/-- C2, as stated, fails where a difference leaves the range of `int`. In
`far_swipe_state` both references are recorded and nothing has fired; at 5100 ms,
100 ms after the references: `touch_y - prev_y` is 2147483649 > 350, and the
volume callback fires `VOL_UP`, not `VOL_DOWN`; `prev_x - touch_x` is
2147483648 > 500, and the track callback fires nothing. -/
theorem swipe_direction_wraps :
    far_swipe_state.is_touching = false
      ∧ far_swipe_state.is_new_touch_y = true ∧ far_swipe_state.is_new_touch_x = true
      ∧ far_swipe_state.touch_time_pre_y = 5000 ∧ far_swipe_state.touch_time_pre_x = 5000
      ∧ far_swipe_state.touch_y - far_swipe_state.prev_y = 2147483649
      ∧ far_swipe_state.prev_x - far_swipe_state.touch_x = 2147483648
      ∧ sovc_volume_input_callback far_swipe_state 5100
          = ({ far_swipe_state with is_touching := true, control := CONTROL.VOL_UP },
             [Call.schedule_key_work (some 0)])
      ∧ sovc_volume_input_callback far_swipe_state 5100
          ≠ ({ far_swipe_state with is_touching := true, control := CONTROL.VOL_DOWN },
             [Call.schedule_key_work (some 0)])
      ∧ sovc_track_input_callback far_swipe_state 5100 = (far_swipe_state, [])
      ∧ sovc_track_input_callback far_swipe_state 5100
          ≠ ({ far_swipe_state with is_touching := true, control := CONTROL.TRACK_NEXT },
             [Call.schedule_key_work (some 0)]) := by
  decide

/-- C2 (amended): swipe direction mapping. On an axis whose reference sample is
recorded (coordinate `prev`, time `touch_time_pre`) and which is not actuating, a
sample evaluated at `now` with `0 < now - touch_time_pre < SOVC_TIME_GAP`
schedules the key work exactly once, with delay 0, stores the control and sets
`is_touching`: `VOL_UP` when `prev_y - touch_y > 350`, `VOL_DOWN` when
`touch_y - prev_y > 350`, `TRACK_NEXT` when `prev_x - touch_x > 500`,
`TRACK_PREVIOUS` when `touch_x - prev_x > 500`, the differences being those of
`int` arithmetic (`int_of`). They are the mathematical differences, and the
mapping is then the one of the mathematical differences, whenever the difference
that exceeds the feather is at most 2147483647. -/
theorem swipe_direction_mapping (s : State) (now : Int) (hfree : s.is_touching = false) :
    (s.is_new_touch_y = true → 0 < now - s.touch_time_pre_y →
        now - s.touch_time_pre_y < SOVC_TIME_GAP →
      (int_of (s.prev_y - s.touch_y) > 350 →
        sovc_volume_input_callback s now
          = ({ s with is_touching := true, control := CONTROL.VOL_UP },
             [Call.schedule_key_work (some 0)]))
      ∧ (int_of (s.touch_y - s.prev_y) > 350 →
        sovc_volume_input_callback s now
          = ({ s with is_touching := true, control := CONTROL.VOL_DOWN },
             [Call.schedule_key_work (some 0)]))
      ∧ (s.prev_y - s.touch_y > 350 → s.prev_y - s.touch_y ≤ 2147483647 →
        sovc_volume_input_callback s now
          = ({ s with is_touching := true, control := CONTROL.VOL_UP },
             [Call.schedule_key_work (some 0)]))
      ∧ (s.touch_y - s.prev_y > 350 → s.touch_y - s.prev_y ≤ 2147483647 →
        sovc_volume_input_callback s now
          = ({ s with is_touching := true, control := CONTROL.VOL_DOWN },
             [Call.schedule_key_work (some 0)])))
    ∧ (s.is_new_touch_x = true → 0 < now - s.touch_time_pre_x →
        now - s.touch_time_pre_x < SOVC_TIME_GAP →
      (int_of (s.prev_x - s.touch_x) > 500 →
        sovc_track_input_callback s now
          = ({ s with is_touching := true, control := CONTROL.TRACK_NEXT },
             [Call.schedule_key_work (some 0)]))
      ∧ (int_of (s.touch_x - s.prev_x) > 500 →
        sovc_track_input_callback s now
          = ({ s with is_touching := true, control := CONTROL.TRACK_PREVIOUS },
             [Call.schedule_key_work (some 0)]))
      ∧ (s.prev_x - s.touch_x > 500 → s.prev_x - s.touch_x ≤ 2147483647 →
        sovc_track_input_callback s now
          = ({ s with is_touching := true, control := CONTROL.TRACK_NEXT },
             [Call.schedule_key_work (some 0)]))
      ∧ (s.touch_x - s.prev_x > 500 → s.touch_x - s.prev_x ≤ 2147483647 →
        sovc_track_input_callback s now
          = ({ s with is_touching := true, control := CONTROL.TRACK_PREVIOUS },
             [Call.schedule_key_work (some 0)]))) := by
  refine ⟨?_, ?_⟩
  · intro hnew h0 h1
    have hup : int_of (s.prev_y - s.touch_y) > 350 →
        sovc_volume_input_callback s now
          = ({ s with is_touching := true, control := CONTROL.VOL_UP },
             [Call.schedule_key_work (some 0)]) := by
      intro hup
      have hup2 : int_of (s.prev_y - s.touch_y) > SOVC_VOL_FEATHER := hup
      simp [sovc_volume_input_callback, exec_key, scroff_volctr_key_trigger, hfree, hnew,
        h0, h1, hup2]
    have hdown : int_of (s.touch_y - s.prev_y) > 350 →
        sovc_volume_input_callback s now
          = ({ s with is_touching := true, control := CONTROL.VOL_DOWN },
             [Call.schedule_key_work (some 0)]) := by
      intro hdown
      have hdown2 : int_of (s.touch_y - s.prev_y) > SOVC_VOL_FEATHER := hdown
      have hnot : ¬ int_of (s.prev_y - s.touch_y) > SOVC_VOL_FEATHER := by
        simp only [SOVC_VOL_FEATHER]
        unfold int_of at hdown ⊢
        omega
      simp [sovc_volume_input_callback, exec_key, scroff_volctr_key_trigger, hfree, hnew,
        h0, h1, hdown2, hnot]
    refine ⟨hup, hdown, ?_, ?_⟩
    · intro hd hr
      exact hup (int_of_gt _ 350 (by decide) hd hr).1
    · intro hd hr
      exact hdown (int_of_gt _ 350 (by decide) hd hr).1
  · intro hnew h0 h1
    have hup : int_of (s.prev_x - s.touch_x) > 500 →
        sovc_track_input_callback s now
          = ({ s with is_touching := true, control := CONTROL.TRACK_NEXT },
             [Call.schedule_key_work (some 0)]) := by
      intro hup
      have hup2 : int_of (s.prev_x - s.touch_x) > SOVC_TRACK_FEATHER := hup
      simp [sovc_track_input_callback, exec_key, scroff_volctr_key_trigger, hfree, hnew,
        h0, h1, hup2]
    have hdown : int_of (s.touch_x - s.prev_x) > 500 →
        sovc_track_input_callback s now
          = ({ s with is_touching := true, control := CONTROL.TRACK_PREVIOUS },
             [Call.schedule_key_work (some 0)]) := by
      intro hdown
      have hdown2 : int_of (s.touch_x - s.prev_x) > SOVC_TRACK_FEATHER := hdown
      have hnot : ¬ int_of (s.prev_x - s.touch_x) > SOVC_TRACK_FEATHER := by
        simp only [SOVC_TRACK_FEATHER]
        unfold int_of at hdown ⊢
        omega
      simp [sovc_track_input_callback, exec_key, scroff_volctr_key_trigger, hfree, hnew,
        h0, h1, hdown2, hnot]
    refine ⟨hup, hdown, ?_, ?_⟩
    · intro hd hr
      exact hup (int_of_gt _ 500 (by decide) hd hr).1
    · intro hd hr
      exact hdown (int_of_gt _ 500 (by decide) hd hr).1

/-- The direction mapping at `swipe_state`, 100 ms after the reference. -/
theorem swipe_direction_mapping_witness :
    sovc_volume_input_callback swipe_state 5100
        = ({ swipe_state with is_touching := true, control := CONTROL.VOL_UP },
           [Call.schedule_key_work (some 0)])
      ∧ sovc_track_input_callback swipe_state 5100
        = ({ swipe_state with is_touching := true, control := CONTROL.TRACK_NEXT },
           [Call.schedule_key_work (some 0)]) :=
  ⟨((swipe_direction_mapping swipe_state 5100 (by decide)).1 (by decide) (by decide)
      (by decide)).2.2.1 (by decide) (by decide),
   ((swipe_direction_mapping swipe_state 5100 (by decide)).2 (by decide) (by decide)
      (by decide)).2.2.1 (by decide) (by decide)⟩

end Sovc

/-! ## Theorems for: Lifecycle: convergence (C3) and redundant calls (C4) -/

namespace Dt2w

theorem lifecycle_consistent (s : State) (c : LifecycleCall) (h : Consistent s) :
    Consistent (lifecycle s c) ∧ ((lifecycle s c).registered = true ↔ c = LifecycleCall.start) := by
  obtain ⟨h1, h2, h3⟩ := h
  cases hr : s.registered <;> cases c <;>
    simp_all [Consistent, lifecycle, register_dt2w, unregister_dt2w, create_workqueue,
      flush_workqueue, destroy_workqueue, input_register_handler, input_unregister_handler]

theorem run_lifecycle_consistent (calls : List LifecycleCall) :
    ∀ s : State, Consistent s → Consistent (run_lifecycle s calls) := by
  induction calls with
  | nil => intro s h; exact h
  | cons c cs ih =>
    intro s h
    exact ih (lifecycle s c) (lifecycle_consistent s c h).1

theorem run_lifecycle_snoc (s : State) (calls : List LifecycleCall) (c : LifecycleCall) :
    run_lifecycle s (calls ++ [c]) = lifecycle (run_lifecycle s calls) c := by
  simp [run_lifecycle, List.foldl_append]

end Dt2w

namespace Sovc

theorem lifecycle_consistent_sovc (s : State) (c : LifecycleCall) (h : Consistent s) :
    Consistent (lifecycle s c) ∧ ((lifecycle s c).registered = true ↔ c = LifecycleCall.start) := by
  obtain ⟨h1, h2, h3, h4, h5⟩ := h
  cases hr : s.registered <;> cases c <;>
    simp_all [Consistent, lifecycle, register_sovc, unregister_sovc, create_workqueue,
      flush_workqueue, destroy_workqueue, input_register_handler, input_unregister_handler,
      scroff_volctr_reset]

theorem run_lifecycle_consistent_sovc (calls : List LifecycleCall) :
    ∀ s : State, Consistent s → Consistent (run_lifecycle s calls) := by
  induction calls with
  | nil => intro s h; exact h
  | cons c cs ih =>
    intro s h
    exact ih (lifecycle s c) (lifecycle_consistent_sovc s c h).1

theorem run_lifecycle_snoc_sovc (s : State) (calls : List LifecycleCall) (c : LifecycleCall) :
    run_lifecycle s (calls ++ [c]) = lifecycle (run_lifecycle s calls) c := by
  simp [run_lifecycle, List.foldl_append]

end Sovc

/-- C3: lifecycle convergence. From a state in which each group holds its
resources exactly when registered, after every prefix of every sequence of
start/stop requests whose allocations and subscriptions succeed, the tap group
and the swipe group are again so (every handler subscribed once and every
workqueue live once when registered, none when not, and no release of anything
not held), and each group is registered if and only if the last request of the
prefix was a start. -/
theorem lifecycle_convergence (d : Dt2w.State) (v : Sovc.State)
    (hd : Dt2w.Consistent d) (hv : Sovc.Consistent v)
    (calls : List LifecycleCall) (n : Nat) :
    Dt2w.Consistent (Dt2w.run_lifecycle d (calls.take n))
      ∧ Sovc.Consistent (Sovc.run_lifecycle v (calls.take n))
      ∧ (∀ c, (calls.take n).getLast? = some c →
          (((Dt2w.run_lifecycle d (calls.take n)).registered = true ↔ c = LifecycleCall.start)
            ∧ ((Sovc.run_lifecycle v (calls.take n)).registered = true
                ↔ c = LifecycleCall.start))) := by
  refine ⟨Dt2w.run_lifecycle_consistent _ d hd, Sovc.run_lifecycle_consistent_sovc _ v hv, ?_⟩
  intro c hc
  obtain ⟨pre, hpre⟩ : ∃ pre, calls.take n = pre ++ [c] := by
    rcases List.eq_nil_or_concat (calls.take n) with hnil | ⟨pre, b, hb⟩
    · rw [hnil] at hc; simp at hc
    · rw [hb] at hc
      simp at hc
      exact ⟨pre, by rw [hb, hc]; simp⟩
  rw [hpre, Dt2w.run_lifecycle_snoc, Sovc.run_lifecycle_snoc_sovc]
  exact ⟨(Dt2w.lifecycle_consistent _ c (Dt2w.run_lifecycle_consistent pre d hd)).2,
    (Sovc.lifecycle_consistent_sovc _ c (Sovc.run_lifecycle_consistent_sovc pre v hv)).2⟩

/-- Lifecycle convergence from the initial states, after all of
start, start, stop, stop, start. -/
theorem lifecycle_convergence_witness :
    Dt2w.Consistent (Dt2w.run_lifecycle (Dt2w.init false)
        (([LifecycleCall.start, LifecycleCall.start, LifecycleCall.stop, LifecycleCall.stop,
          LifecycleCall.start] : List LifecycleCall).take 5))
      ∧ Sovc.Consistent (Sovc.run_lifecycle (Sovc.init false)
        (([LifecycleCall.start, LifecycleCall.start, LifecycleCall.stop, LifecycleCall.stop,
          LifecycleCall.start] : List LifecycleCall).take 5))
      ∧ (∀ c, (([LifecycleCall.start, LifecycleCall.start, LifecycleCall.stop,
            LifecycleCall.stop, LifecycleCall.start] : List LifecycleCall).take 5).getLast?
            = some c →
          (((Dt2w.run_lifecycle (Dt2w.init false)
              (([LifecycleCall.start, LifecycleCall.start, LifecycleCall.stop,
                LifecycleCall.stop, LifecycleCall.start] : List LifecycleCall).take 5)).registered
              = true ↔ c = LifecycleCall.start)
            ∧ ((Sovc.run_lifecycle (Sovc.init false)
              (([LifecycleCall.start, LifecycleCall.start, LifecycleCall.stop,
                LifecycleCall.stop, LifecycleCall.start] : List LifecycleCall).take 5)).registered
              = true ↔ c = LifecycleCall.start))) :=
  lifecycle_convergence (Dt2w.init false) (Sovc.init false) (by decide) (by decide)
    [LifecycleCall.start, LifecycleCall.start, LifecycleCall.stop, LifecycleCall.stop,
      LifecycleCall.start] 5

/-- C4: redundant lifecycle calls are no-ops. For both groups, `register_*` on a
registered group returns 0 and leaves the whole state as it was, whatever the
allocations would have answered; `unregister_*` on an unregistered group leaves
the whole state as it was; hence a second successful start after a successful
start, and a second stop after a stop, change nothing. -/
theorem redundant_lifecycle_noop (d : Dt2w.State) (v : Sovc.State) :
    (∀ (ok : Bool) (rc : Int), d.registered = true → Dt2w.register_dt2w d ok rc = (d, 0))
      ∧ (d.registered = false → Dt2w.unregister_dt2w d = d)
      ∧ (∀ (ok : Bool) (rc : Int),
          Dt2w.register_dt2w (Dt2w.register_dt2w d true 0).1 ok rc
            = ((Dt2w.register_dt2w d true 0).1, 0))
      ∧ Dt2w.unregister_dt2w (Dt2w.unregister_dt2w d) = Dt2w.unregister_dt2w d
      ∧ (∀ (ok1 ok2 : Bool) (rc1 rc2 : Int), v.registered = true →
          Sovc.register_sovc v ok1 ok2 rc1 rc2 = (v, 0))
      ∧ (v.registered = false → Sovc.unregister_sovc v = v)
      ∧ (∀ (ok1 ok2 : Bool) (rc1 rc2 : Int),
          Sovc.register_sovc (Sovc.register_sovc v true true 0 0).1 ok1 ok2 rc1 rc2
            = ((Sovc.register_sovc v true true 0 0).1, 0))
      ∧ Sovc.unregister_sovc (Sovc.unregister_sovc v) = Sovc.unregister_sovc v := by
  have dreg : ∀ (s : Dt2w.State) (ok : Bool) (rc : Int), s.registered = true →
      Dt2w.register_dt2w s ok rc = (s, 0) := by
    intro s ok rc h
    simp [Dt2w.register_dt2w, h]
  have dunreg : ∀ s : Dt2w.State, s.registered = false → Dt2w.unregister_dt2w s = s := by
    intro s h
    simp [Dt2w.unregister_dt2w, h]
  have vreg : ∀ (s : Sovc.State) (ok1 ok2 : Bool) (rc1 rc2 : Int), s.registered = true →
      Sovc.register_sovc s ok1 ok2 rc1 rc2 = (s, 0) := by
    intro s ok1 ok2 rc1 rc2 h
    simp [Sovc.register_sovc, h]
  have vunreg : ∀ s : Sovc.State, s.registered = false → Sovc.unregister_sovc s = s := by
    intro s h
    simp [Sovc.unregister_sovc, h]
  refine ⟨fun ok rc h => dreg d ok rc h, dunreg d, ?_, ?_, fun ok1 ok2 rc1 rc2 h =>
    vreg v ok1 ok2 rc1 rc2 h, vunreg v, ?_, ?_⟩
  · intro ok rc
    apply dreg
    cases h : d.registered <;> simp [Dt2w.register_dt2w, h, create_workqueue]
  · apply dunreg
    cases h : d.registered <;> simp [Dt2w.unregister_dt2w, h]
  · intro ok1 ok2 rc1 rc2
    apply vreg
    cases h : v.registered <;>
      simp [Sovc.register_sovc, h, create_workqueue, Sovc.scroff_volctr_reset]
  · apply vunreg
    cases h : v.registered <;> simp [Sovc.unregister_sovc, h]

/-- Redundant calls at concrete states: the registered states reached by one start
from the initial states, and the initial (unregistered) states. -/
theorem redundant_lifecycle_noop_witness :
    Dt2w.register_dt2w (Dt2w.register_dt2w (Dt2w.init false) true 0).1 false (-12)
        = ((Dt2w.register_dt2w (Dt2w.init false) true 0).1, 0)
      ∧ Dt2w.unregister_dt2w (Dt2w.init false) = Dt2w.init false
      ∧ Sovc.register_sovc (Sovc.register_sovc (Sovc.init false) true true 0 0).1 true false 0 0
        = ((Sovc.register_sovc (Sovc.init false) true true 0 0).1, 0)
      ∧ Sovc.unregister_sovc (Sovc.init false) = Sovc.init false :=
  ⟨(redundant_lifecycle_noop (Dt2w.register_dt2w (Dt2w.init false) true 0).1
      (Sovc.init false)).1 false (-12) (by decide),
   (redundant_lifecycle_noop (Dt2w.init false) (Sovc.init false)).2.1 (by decide),
   (redundant_lifecycle_noop (Dt2w.init false)
      (Sovc.register_sovc (Sovc.init false) true true 0 0).1).2.2.2.2.1 true false 0 0
      (by decide),
   (redundant_lifecycle_noop (Dt2w.init false) (Sovc.init false)).2.2.2.2.2.1 (by decide)⟩

/-! ## Theorems for: Display-off gating (C5) -/

namespace Dt2w

theorem deliver_awake (s : State) (i : Input) (h : s.scr_suspended = false) :
    deliver s i = (s, []) := by
  cases i <;> simp [deliver, dt2w_input_event, dt2w_input_callback, detect_doubletap2wake, h]

theorem run_inputs_awake (inputs : List Input) :
    ∀ s : State, s.scr_suspended = false → run_inputs s inputs = (s, []) := by
  induction inputs with
  | nil => intro s _; rfl
  | cons i rest ih =>
    intro s h
    simp [run_inputs, deliver_awake s i h, ih s h]

end Dt2w

namespace Sovc

theorem deliver_awake_sovc (s : State) (i : Input) (h : s.sovc_scr_suspended = false) :
    deliver s i = (s, []) := by
  cases i <;>
    by_cases hsw : s.sovc_switch = 0 <;>
    simp [deliver, sovc_volume_input_event, sovc_track_input_event, sovc_input_common_event,
      scroff_volctr_key, h, hsw]

theorem run_inputs_awake_sovc (inputs : List Input) :
    ∀ s : State, s.sovc_scr_suspended = false → run_inputs s inputs = (s, []) := by
  induction inputs with
  | nil => intro s _; rfl
  | cons i rest ih =>
    intro s h
    simp [run_inputs, deliver_awake_sovc s i h, ih s h]

end Sovc

/-- C5: display-off gating. While the suspended flag of a driver is false, every
stream of inputs (handler events of any code and value, evaluations and position
samples at any time for the tap detector; volume and track handler events and
runs of the key work for the swipe group) makes no call at all (no wake trigger,
no key event, no touch-power-off request, no work queued) and leaves the whole
state, detector state included, as it was. -/
theorem display_off_gating (d : Dt2w.State) (v : Sovc.State)
    (taps : List Dt2w.Input) (swipes : List Sovc.Input) :
    (d.scr_suspended = false → Dt2w.run_inputs d taps = (d, []))
      ∧ (v.sovc_scr_suspended = false → Sovc.run_inputs v swipes = (v, [])) :=
  ⟨Dt2w.run_inputs_awake taps d, Sovc.run_inputs_awake_sovc swipes v⟩

/-- Gating at the initial (awake) states, for a tap and a long upward swipe. -/
theorem display_off_gating_witness :
    Dt2w.run_inputs (Dt2w.init false) awake_taps = (Dt2w.init false, [])
      ∧ Sovc.run_inputs (Sovc.init false) awake_swipes = (Sovc.init false, []) :=
  ⟨(display_off_gating (Dt2w.init false) (Sovc.init false) awake_taps awake_swipes).1
      (by decide),
   (display_off_gating (Dt2w.init false) (Sovc.init false) awake_taps awake_swipes).2
      (by decide)⟩

/-! ## Theorems for: Tap detector: the step (C6), the count invariant (C7), lift and slot (C8) -/

namespace Dt2w

/-- C6, as stated, fails where a coordinate difference leaves the range of
`int`. In `far_tap_state` the count is 1 under threshold 1 with reference
(-2147483648, -2147483648) of 1000 ms; the stored contact (2147483647,
2147483647), evaluated at 1100 ms, is 4294967295 px from the reference on both
axes, so by the claim it is no repeat tap and restarts the count at 1. The code
computes `calc_feather` as 1 on both axes, counts it as a repeat tap (count 2,
reference coordinates kept) and schedules the power-key work. -/
theorem tap_step_wraps :
    far_tap_state.touch_nr = 1 ∧ far_tap_state.dt2w_switch = 1
      ∧ far_tap_state.x_pre = -2147483648 ∧ far_tap_state.y_pre = -2147483648
      ∧ far_tap_state.tap_time_pre = 1000
      ∧ far_tap_state.touch_x = 2147483647 ∧ far_tap_state.touch_y = 2147483647
      ∧ ¬ ((|far_tap_state.touch_x - far_tap_state.x_pre| < 200
            ∨ |far_tap_state.touch_y - far_tap_state.y_pre| < 200)
          ∧ 1100 - far_tap_state.tap_time_pre < 200)
      ∧ calc_feather far_tap_state.touch_x far_tap_state.x_pre = 1
      ∧ detect_count_step far_tap_state far_tap_state.touch_x far_tap_state.touch_y 1100
          = { far_tap_state with tap_time_pre := 1100, touch_nr := 2 }
      ∧ detect_count_step far_tap_state far_tap_state.touch_x far_tap_state.touch_y 1100
          ≠ tap_step_spec far_tap_state far_tap_state.touch_x far_tap_state.touch_y 1100
      ∧ (dt2w_input_callback far_tap_state 1100).2 = [Call.schedule_presspwr_work] := by
  have hx : far_tap_state.x_pre = -2147483648 := by decide
  have hy : far_tap_state.y_pre = -2147483648 := by decide
  have htx : far_tap_state.touch_x = 2147483647 := by decide
  have hty : far_tap_state.touch_y = 2147483647 := by decide
  have hnr : far_tap_state.touch_nr = 1 := by decide
  have hstep : detect_count_step far_tap_state far_tap_state.touch_x far_tap_state.touch_y 1100
      = { far_tap_state with tap_time_pre := 1100, touch_nr := 2 } := by decide
  have hspec : (tap_step_spec far_tap_state far_tap_state.touch_x far_tap_state.touch_y
      1100).touch_nr = 1 := by
    simp only [tap_step_spec, hx, hy, htx, hty, hnr]
    norm_num
  refine ⟨hnr, by decide, hx, hy, by decide, htx, hty, ?_, by decide, hstep, ?_, by decide⟩
  · rw [hx, hy, htx, hty]
    norm_num
  · intro h
    rw [hstep] at h
    rw [← h] at hspec
    exact absurd hspec (by decide)

/-- C6 (amended): the tap step equals its reference definition when neither
coordinate differs from its reference by more than 2147483648. With stored count
`c`, `0 ≤ c ≤ threshold`, the count update of `detect_doubletap2wake` is then the
step the specification words: for `c ≥ 1` the tap is a repeat tap exactly when
(`|x - x_pre| < 200` or `|y - y_pre| < 200`) and `now - tap_time_pre < 200`; a
repeat tap gives count `c + 1` and reference timestamp `now` and keeps `x_pre`,
`y_pre`; any other gives count 1 with reference `(x, y, now)`; with `c = 0` the
tap is recorded as reference with count 1, whatever the coordinates. The fire
check is applied to the result. -/
theorem tap_step_reference (s : State) (x y now : Int)
    (h0 : 0 ≤ s.touch_nr) (hT : s.touch_nr ≤ s.dt2w_switch)
    (hx : |x - s.x_pre| ≤ 2147483648) (hy : |y - s.y_pre| ≤ 2147483648) :
    detect_count_step s x y now = tap_step_spec s x y now
      ∧ (1 ≤ s.touch_nr →
          (((|x - s.x_pre| < 200 ∨ |y - s.y_pre| < 200) ∧ now - s.tap_time_pre < 200) →
            detect_count_step s x y now
              = { s with tap_time_pre := now, touch_nr := s.touch_nr + 1 })
          ∧ (¬ ((|x - s.x_pre| < 200 ∨ |y - s.y_pre| < 200) ∧ now - s.tap_time_pre < 200) →
            detect_count_step s x y now
              = { s with tap_time_pre := now, x_pre := x, y_pre := y, touch_nr := 1 })
          ∧ ((detect_count_step s x y now).touch_nr = s.touch_nr + 1
              ↔ ((|x - s.x_pre| < 200 ∨ |y - s.y_pre| < 200) ∧ now - s.tap_time_pre < 200)))
      ∧ (s.touch_nr = 0 →
          detect_count_step s x y now
            = { s with tap_time_pre := now, x_pre := x, y_pre := y, touch_nr := 1 })
      ∧ (s.scr_suspended = true → s.is_touching = false → s.dt2w_switch_tmp = 0 →
          detect_doubletap2wake s x y now
            = detect_fire_step (detect_count_step { s with is_touching := true } x y now)) := by
  have hzero : s.touch_nr = 0 →
      detect_count_step s x y now
        = { s with tap_time_pre := now, x_pre := x, y_pre := y, touch_nr := 1 } := by
    intro hc
    simp [detect_count_step, new_touch, hc]
  have hrep : 1 ≤ s.touch_nr →
      ((|x - s.x_pre| < 200 ∨ |y - s.y_pre| < 200) ∧ now - s.tap_time_pre < 200) →
      detect_count_step s x y now
        = { s with tap_time_pre := now, touch_nr := s.touch_nr + 1 } := by
    intro h1 hq
    have hne : ¬ s.touch_nr = 0 := by omega
    simp [detect_count_step, calc_feather_eq_abs _ _ hx, calc_feather_eq_abs _ _ hy,
      DT2W_FEATHER, DT2W_TIME_GAP, hne, h1, hT, hq]
  have hnew : 1 ≤ s.touch_nr →
      ¬ ((|x - s.x_pre| < 200 ∨ |y - s.y_pre| < 200) ∧ now - s.tap_time_pre < 200) →
      detect_count_step s x y now
        = { s with tap_time_pre := now, x_pre := x, y_pre := y, touch_nr := 1 } := by
    intro h1 hq
    have hne : ¬ s.touch_nr = 0 := by omega
    simp only [detect_count_step, calc_feather_eq_abs _ _ hx, calc_feather_eq_abs _ _ hy,
      DT2W_FEATHER, DT2W_TIME_GAP, hne, h1, hT, hq, if_false, if_true, and_self, ge_iff_le]
    simp [new_touch, doubletap2wake_reset]
  refine ⟨?_, ?_, hzero, ?_⟩
  · by_cases hc : s.touch_nr = 0
    · rw [hzero hc]; simp [tap_step_spec, hc]
    · have h1 : 1 ≤ s.touch_nr := by omega
      by_cases hq : (|x - s.x_pre| < 200 ∨ |y - s.y_pre| < 200) ∧ now - s.tap_time_pre < 200
      · rw [hrep h1 hq]; simp [tap_step_spec, hc, hq]
      · rw [hnew h1 hq]; simp only [tap_step_spec, hc, hq, if_false]
  · intro h1
    refine ⟨hrep h1, hnew h1, ?_⟩
    by_cases hq : (|x - s.x_pre| < 200 ∨ |y - s.y_pre| < 200) ∧ now - s.tap_time_pre < 200
    · rw [hrep h1 hq]; simp [hq]
    · rw [hnew h1 hq]
      simp only [hq, iff_false]
      show ¬ ((1 : Int) = s.touch_nr + 1)
      omega
  · intro hs hf htmp
    simp [detect_doubletap2wake, hs, hf, htmp]

/-- The step at `counting_state` for a tap 50 px right and 400 px below the
reference, 100 ms later: a repeat tap. -/
theorem tap_step_reference_witness :
    detect_count_step counting_state 150 500 1100 = tap_step_spec counting_state 150 500 1100
      ∧ detect_count_step counting_state 150 500 1100
        = { counting_state with tap_time_pre := 1100, touch_nr := 2 } :=
  ⟨(tap_step_reference counting_state 150 500 1100 (by decide) (by decide)
      (by norm_num [counting_state, init]) (by norm_num [counting_state, init])).1,
   ((tap_step_reference counting_state 150 500 1100 (by decide) (by decide)
      (by norm_num [counting_state, init]) (by norm_num [counting_state, init])).2.1
      (by decide)).1 (by norm_num [counting_state, init])⟩

theorem counted_touch_nr_pos (s : State) (x y now : Int) :
    1 ≤ (counted s x y now).touch_nr
      ∧ (counted s x y now).touch_nr ≤ max 1 (threshold_in_effect s + 1) := by
  unfold counted detect_count_step
  by_cases hc : s.touch_nr = 0
  · simp [hc, new_touch]
  · by_cases hr : s.touch_nr ≥ 1 ∧ s.touch_nr ≤ threshold_in_effect s
    · by_cases hq : (calc_feather x s.x_pre < DT2W_FEATHER ∨ calc_feather y s.y_pre < DT2W_FEATHER)
          ∧ now - s.tap_time_pre < DT2W_TIME_GAP
      · simp only [hc, hr, hq, if_false, if_true, and_self]
        constructor
        · show 1 ≤ s.touch_nr + 1
          omega
        · show s.touch_nr + 1 ≤ max 1 (threshold_in_effect s + 1)
          have := hr.2
          exact le_max_of_le_right (by omega)
      · simp [hc, hr, hq, new_touch, doubletap2wake_reset]
    · simp [hc, hr, new_touch, doubletap2wake_reset]

theorem detect_eq_fire_counted (s : State) (x y now : Int)
    (hs : s.scr_suspended = true) (hf : s.is_touching = false) :
    (detect_doubletap2wake s x y now).2 = (detect_fire_step (counted s x y now)).2
      ∧ (detect_doubletap2wake s x y now).1
        = { (detect_fire_step (counted s x y now)).1 with dt2w_switch := s.dt2w_switch } := by
  by_cases ht : s.dt2w_switch_tmp = 0
  · have hth : threshold_in_effect s = s.dt2w_switch := by simp [threshold_in_effect, ht]
    have hst : ({ s with is_touching := true, dt2w_switch := s.dt2w_switch } : State)
        = { s with is_touching := true } := rfl
    have hsw : (counted s x y now).dt2w_switch = s.dt2w_switch := by
      simp only [counted, hth, hst]
      unfold detect_count_step new_touch doubletap2wake_reset
      split_ifs <;> rfl
    have hsw2 : (detect_fire_step (counted s x y now)).1.dt2w_switch = s.dt2w_switch := by
      unfold detect_fire_step doubletap2wake_reset
      split_ifs <;> simp [hsw]
    refine ⟨?_, ?_⟩
    · simp [detect_doubletap2wake, counted, hs, hf, ht, hth, hst]
    · rw [← hsw2]
      simp [detect_doubletap2wake, counted, hs, hf, ht, hth, hst]
  · have hth : threshold_in_effect s = 1 := by simp [threshold_in_effect, ht]
    refine ⟨?_, ?_⟩ <;> simp [detect_doubletap2wake, counted, hs, hf, ht, hth]

theorem counted_dt2w_switch (s : State) (x y now : Int) :
    (counted s x y now).dt2w_switch = threshold_in_effect s := by
  unfold counted detect_count_step new_touch doubletap2wake_reset
  split_ifs <;> rfl

/-- C7: tap count invariant. In every evaluation (screen suspended, no contact
being tracked) under a non-negative threshold `T` in effect, the power-key work is
scheduled exactly when the updated count exceeds `T`, and then the state is
reset in the same step (`touch_nr`, `tap_time_pre`, `x_pre`, `y_pre` all 0);
otherwise nothing is scheduled; at the end of the step `0 ≤ touch_nr ≤ T`. -/
theorem tap_count_invariant (s : State) (x y now : Int)
    (hs : s.scr_suspended = true) (hf : s.is_touching = false)
    (hT : 0 ≤ threshold_in_effect s) :
    ((detect_doubletap2wake s x y now).2 = [Call.schedule_presspwr_work]
        ↔ (counted s x y now).touch_nr > threshold_in_effect s)
      ∧ ((detect_doubletap2wake s x y now).2 = []
        ↔ (counted s x y now).touch_nr ≤ threshold_in_effect s)
      ∧ ((counted s x y now).touch_nr > threshold_in_effect s →
          (detect_doubletap2wake s x y now).1.touch_nr = 0
            ∧ (detect_doubletap2wake s x y now).1.tap_time_pre = 0
            ∧ (detect_doubletap2wake s x y now).1.x_pre = 0
            ∧ (detect_doubletap2wake s x y now).1.y_pre = 0)
      ∧ 0 ≤ (detect_doubletap2wake s x y now).1.touch_nr
      ∧ (detect_doubletap2wake s x y now).1.touch_nr ≤ threshold_in_effect s := by
  obtain ⟨ho, hst⟩ := detect_eq_fire_counted s x y now hs hf
  have hsw := counted_dt2w_switch s x y now
  have hpos := (counted_touch_nr_pos s x y now).1
  rw [ho, hst]
  by_cases hfire : (counted s x y now).touch_nr > threshold_in_effect s
  · have hfire2 : (counted s x y now).touch_nr > (counted s x y now).dt2w_switch := by
      rw [hsw]; exact hfire
    have hnle : ¬ (counted s x y now).touch_nr ≤ threshold_in_effect s := by omega
    simp [detect_fire_step, hfire2, hfire, hnle, doubletap2wake_reset,
      doubletap2wake_pwrtrigger, hT]
  · have hfire2 : ¬ (counted s x y now).touch_nr > (counted s x y now).dt2w_switch := by
      rw [hsw]; exact hfire
    have hle : (counted s x y now).touch_nr ≤ threshold_in_effect s := by omega
    simp only [detect_fire_step, hfire2, if_false]
    refine ⟨?_, ?_, ?_, ?_, ?_⟩
    · simp [hfire]
    · simp [hle]
    · intro h; exact absurd h hfire
    · show 0 ≤ (counted s x y now).touch_nr
      omega
    · exact hle

/-- The invariant at `counting_state` for a qualifying second tap: the count
reaches 2, exceeds the threshold 1, the trigger fires and the count ends at 0. -/
theorem tap_count_invariant_witness :
    (detect_doubletap2wake counting_state 150 500 1100).2 = [Call.schedule_presspwr_work]
      ∧ 0 ≤ (detect_doubletap2wake counting_state 150 500 1100).1.touch_nr
      ∧ (detect_doubletap2wake counting_state 150 500 1100).1.touch_nr
          ≤ threshold_in_effect counting_state :=
  ⟨(tap_count_invariant counting_state 150 500 1100 (by decide) (by decide) (by decide)).1.mpr
      (by decide),
   (tap_count_invariant counting_state 150 500 1100 (by decide) (by decide)
      (by decide)).2.2.2.1,
   (tap_count_invariant counting_state 150 500 1100 (by decide) (by decide)
      (by decide)).2.2.2.2⟩

/-- C8, as stated, fails: a tracking-id release handled while suspended and
enabled leaves the count at 1 and the reference as it was. -/
theorem tap_lift_keeps_count :
    lifted_state.scr_suspended = true ∧ lifted_state.dt2w_switch = 1
      ∧ (dt2w_input_event lifted_state EvCode.ABS_MT_TRACKING_ID (-1)).1.touch_nr = 1
      ∧ (dt2w_input_event lifted_state EvCode.ABS_MT_TRACKING_ID (-1)).1.x_pre = 100
      ∧ (dt2w_input_event lifted_state EvCode.ABS_MT_TRACKING_ID (-1)).1.y_pre = 100
      ∧ (dt2w_input_event lifted_state EvCode.ABS_MT_TRACKING_ID (-1)).1.tap_time_pre = 1000
      ∧ (dt2w_input_event lifted_state EvCode.ABS_MT_TRACKING_ID (-1)).1
          ≠ doubletap2wake_reset lifted_state := by
  decide

/-- C8 (amended): while the screen is suspended and the tap gesture is enabled
(`dt2w_switch` or `dt2w_switch_tmp` non-zero), a slot-select event (`ABS_MT_SLOT`)
handled by `dt2w_input_event` resets the tap state (count 0, reference timestamp
and coordinates 0), and a tracking-id release (`ABS_MT_TRACKING_ID` with the
all-ones value) clears `is_touching` only, leaving count and reference as they
were; neither makes any call, so neither fires the wake trigger. -/
theorem tap_reset_on_slot_lift_clears_touching (s : State) (value : Int)
    (hs : s.scr_suspended = true) (hen : s.dt2w_switch ≠ 0 ∨ s.dt2w_switch_tmp ≠ 0) :
    dt2w_input_event s EvCode.ABS_MT_SLOT value
        = ({ s with touch_nr := 0, tap_time_pre := 0, x_pre := 0, y_pre := 0 }, [])
      ∧ dt2w_input_event s EvCode.ABS_MT_TRACKING_ID (-1)
        = ({ s with is_touching := false }, []) := by
  have hguard : ¬ (s.dt2w_switch = 0 ∧ s.dt2w_switch_tmp = 0) := by
    rintro ⟨h1, h2⟩
    rcases hen with h | h
    · exact h h1
    · exact h h2
  refine ⟨?_, ?_⟩
  · simp [dt2w_input_event, hs, hguard, doubletap2wake_reset]
  · simp [dt2w_input_event, hs, hguard]

/-- Slot selection and lift at `lifted_state`. -/
theorem tap_reset_on_slot_lift_clears_touching_witness :
    dt2w_input_event lifted_state EvCode.ABS_MT_SLOT 1
        = ({ lifted_state with touch_nr := 0, tap_time_pre := 0, x_pre := 0, y_pre := 0 }, [])
      ∧ dt2w_input_event lifted_state EvCode.ABS_MT_TRACKING_ID (-1)
        = ({ lifted_state with is_touching := false }, []) :=
  tap_reset_on_slot_lift_clears_touching lifted_state 1 (by decide) (Or.inl (by decide))

end Dt2w

/-! ## Theorems for: Swipe detector: auto-off (C9) -/

namespace Sovc

theorem evaluate_due (s : State) (a : Axis) (now : Int)
    (hlo : 1000 ≤ s.sovc_auto_off_delay) (hdue : AutoOffDue s a now) :
    evaluate s a now = touch_off s := by
  obtain ⟨hfree, haxis⟩ := hdue
  cases a
  · obtain ⟨hnew, hlate⟩ : s.is_new_touch_y = true
        ∧ now - s.touch_time_pre_y > s.sovc_auto_off_delay := haxis
    have hgap : ¬ now - s.touch_time_pre_y < SOVC_TIME_GAP := by
      simp only [SOVC_TIME_GAP]; omega
    simp [evaluate, sovc_volume_input_callback, hfree, hnew, hgap, hlate]
  · obtain ⟨hnew, hlate⟩ : s.is_new_touch_x = true
        ∧ now - s.touch_time_pre_x > s.sovc_auto_off_delay := haxis
    have hgap : ¬ now - s.touch_time_pre_x < SOVC_TIME_GAP := by
      simp only [SOVC_TIME_GAP]; omega
    simp [evaluate, sovc_track_input_callback, hfree, hnew, hgap, hlate]

theorem touch_off_forced (s : State) (h : s.sovc_force_off = true) : touch_off s = (s, []) := by
  simp [touch_off, h]

theorem touch_off_fresh (s : State) (h : s.sovc_force_off = false) :
    (touch_off s).1 = { s with sovc_force_off := true }
      ∧ touch_off_requests (touch_off s).2 = 1 := by
  cases hh : s.CONFIG_QPNP_HAPTIC <;> simp [touch_off, h, hh, touch_off_requests]

theorem run_evaluations_forced (evals : List (Axis × Int)) :
    ∀ s : State, 1000 ≤ s.sovc_auto_off_delay → s.sovc_force_off = true → AllDue s evals →
      run_evaluations s evals = (s, []) := by
  induction evals with
  | nil => intro s _ _ _; rfl
  | cons e rest ih =>
    intro s hlo hforced hall
    obtain ⟨hdue, hrest⟩ := hall
    have he : evaluate s e.1 e.2 = (s, []) := by
      rw [evaluate_due s e.1 e.2 hlo hdue, touch_off_forced s hforced]
    rw [he] at hrest
    simp [run_evaluations, he, ih s hlo hforced hrest]

/-- C9: auto-off. With the auto-off delay in its range (at least 1000 ms), an
evaluation on either axis with no gesture fired and more than the delay elapsed
since the axis reference issues a touch-power-off request iff `sovc_force_off`
was false (exactly one then, none otherwise) and leaves the flag true, changing
nothing else; over any non-empty sequence of such evaluations starting with the
flag false exactly one request is issued; and with the flag already true
`touch_off`, and every such sequence, makes no call and changes no state. -/
theorem auto_off_once (s : State) (hlo : 1000 ≤ s.sovc_auto_off_delay) :
    (∀ (a : Axis) (now : Int), AutoOffDue s a now →
        (touch_off_requests (evaluate s a now).2 = 1 ↔ s.sovc_force_off = false)
          ∧ (touch_off_requests (evaluate s a now).2 = 0 ↔ s.sovc_force_off = true)
          ∧ (evaluate s a now).1 = { s with sovc_force_off := true })
      ∧ (∀ (e : Axis × Int) (rest : List (Axis × Int)), s.sovc_force_off = false →
          AllDue s (e :: rest) →
          touch_off_requests (run_evaluations s (e :: rest)).2 = 1
            ∧ (run_evaluations s (e :: rest)).1 = { s with sovc_force_off := true })
      ∧ (s.sovc_force_off = true →
          touch_off s = (s, [])
            ∧ ∀ evals : List (Axis × Int), AllDue s evals → run_evaluations s evals = (s, [])) := by
  refine ⟨?_, ?_, ?_⟩
  · intro a now hdue
    rw [evaluate_due s a now hlo hdue]
    cases hf : s.sovc_force_off
    · obtain ⟨h1, h2⟩ := touch_off_fresh s hf
      simp [h1, h2]
    · rw [touch_off_forced s hf]
      refine ⟨by simp [touch_off_requests], by simp [touch_off_requests], ?_⟩
      cases s
      simp_all
  · intro e rest hf hall
    obtain ⟨hdue, hrest⟩ := hall
    obtain ⟨h1, h2⟩ := touch_off_fresh s hf
    have he := evaluate_due s e.1 e.2 hlo hdue
    rw [he] at hrest
    have hrun := run_evaluations_forced rest (touch_off s).1 (by rw [h1]; exact hlo)
      (by rw [h1]) hrest
    simp only [run_evaluations, he, hrun, List.append_nil]
    exact ⟨h2, h1⟩
  · intro hf
    exact ⟨touch_off_forced s hf, fun evals hall => run_evaluations_forced evals s hlo hf hall⟩

/-- Three late evaluations at `idle_state` issue one request in all. -/
theorem auto_off_once_witness :
    touch_off_requests (run_evaluations idle_state
        [(Axis.volume, 6000), (Axis.track, 6001), (Axis.volume, 7000)]).2 = 1
      ∧ (run_evaluations idle_state
        [(Axis.volume, 6000), (Axis.track, 6001), (Axis.volume, 7000)]).1
          = { idle_state with sovc_force_off := true } :=
  (auto_off_once idle_state (by decide)).2.1 (Axis.volume, 6000)
    [(Axis.track, 6001), (Axis.volume, 7000)] (by decide) (by decide)

end Sovc

/-! ## Theorems for: Lifecycle: failing start (C10) -/

theorem create_workqueue_fail_idle (w : Workqueue) (hv : w.valid = false) :
    create_workqueue w false = w := by
  cases w
  simp_all [create_workqueue]

theorem create_workqueue_ok_valid (w : Workqueue) : (create_workqueue w true).valid = true := by
  simp [create_workqueue]

theorem create_then_destroy (w : Workqueue) (hv : w.valid = false) :
    destroy_workqueue (flush_workqueue (create_workqueue w true)) = w := by
  cases w
  simp_all [create_workqueue, flush_workqueue, destroy_workqueue]

/-- A failing `register_dt2w` on an unregistered, consistent tap group returns a
non-zero code and leaves the whole state as it was: the workqueue created before
a failing handler registration is destroyed again. -/
theorem register_dt2w_failure_restores (d : Dt2w.State) (ok : Bool) (rc : Int)
    (hun : d.registered = false) (hd : Dt2w.Consistent d) (hfail : ok = false ∨ rc ≠ 0) :
    (Dt2w.register_dt2w d ok rc).2 ≠ 0 ∧ (Dt2w.register_dt2w d ok rc).1 = d := by
  obtain ⟨_, _, h3⟩ := hd
  simp only [hun, Bool.false_eq_true, if_false] at h3
  obtain ⟨_, hvalid, _⟩ := h3
  have h1 := create_workqueue_fail_idle d.dt2w_input_wq hvalid
  have h2 := create_workqueue_ok_valid d.dt2w_input_wq
  have h3 := create_then_destroy d.dt2w_input_wq hvalid
  cases ok
  · refine ⟨by simp [Dt2w.register_dt2w, hun, h1, hvalid, EFAULT], ?_⟩
    simp only [Dt2w.register_dt2w, hun, h1, hvalid]
    cases d
    simp_all
  · have hrc : rc ≠ 0 := by
      rcases hfail with h | h
      · exact absurd h (by decide)
      · exact h
    refine ⟨by simp [Dt2w.register_dt2w, hun, h2, hrc], ?_⟩
    simp only [Dt2w.register_dt2w, hun, h2, h3, hrc, input_register_handler]
    cases d
    simp_all

/-- A failing `register_sovc` whose first step (the volume workqueue) or third
step (the volume handler) fails leaves an unregistered, consistent swipe group as
it was. -/
theorem register_sovc_early_failure_restores (v : Sovc.State) (ok2 : Bool) (rc1 rc2 : Int)
    (hun : v.registered = false) (hv : Sovc.Consistent v) (hrc : rc1 ≠ 0) :
    (Sovc.register_sovc v false ok2 rc1 rc2).2 ≠ 0
      ∧ (Sovc.register_sovc v false ok2 rc1 rc2).1 = v
      ∧ (Sovc.register_sovc v true true rc1 rc2).2 ≠ 0
      ∧ (Sovc.register_sovc v true true rc1 rc2).1 = v := by
  obtain ⟨_, _, _, _, h5⟩ := hv
  simp only [hun, Bool.false_eq_true, if_false] at h5
  obtain ⟨_, hv1, _, hv2, _, _⟩ := h5
  have a1 := create_workqueue_fail_idle v.sovc_volume_input_wq hv1
  have a2 := create_workqueue_ok_valid v.sovc_volume_input_wq
  have a3 := create_workqueue_ok_valid v.sovc_track_input_wq
  have a4 := create_then_destroy v.sovc_volume_input_wq hv1
  have a5 := create_then_destroy v.sovc_track_input_wq hv2
  refine ⟨?_, ?_, ?_, ?_⟩
  · simp [Sovc.register_sovc, hun, a1, hv1, EFAULT]
  · simp only [Sovc.register_sovc, hun, a1, hv1]
    cases v
    simp_all
  · simp [Sovc.register_sovc, hun, a2, a3, hrc]
  · simp only [Sovc.register_sovc, hun, a2, a3, a4, a5, hrc, input_register_handler]
    cases v
    simp_all

/-- C10 (defect in `register_sovc`): from the initial, unregistered swipe group,
(1) when the volume workqueue is created and the creation of the track workqueue
fails, `register_sovc` returns `-EFAULT`, the group stays unregistered, and the
volume workqueue is still allocated, so a later successful start holds two; (2)
when both workqueues are created, the volume handler is registered and the
registration of the track handler fails with `-4`, `register_sovc` returns `-4`,
the group stays unregistered, both workqueues are destroyed, and the volume
handler is still subscribed, so a later successful start subscribes it twice. -/
theorem register_sovc_failure_leaves_resources :
    (Sovc.register_sovc (Sovc.init false) true false 0 0).2 = -EFAULT
      ∧ (Sovc.register_sovc (Sovc.init false) true false 0 0).1.registered = false
      ∧ (Sovc.register_sovc (Sovc.init false) true false 0 0).1.sovc_volume_input_wq.live = 1
      ∧ (Sovc.register_sovc (Sovc.init false) true false 0 0).1 ≠ Sovc.init false
      ∧ (Sovc.register_sovc (Sovc.register_sovc (Sovc.init false) true false 0 0).1
            true true 0 0).1.sovc_volume_input_wq.live = 2
      ∧ (Sovc.register_sovc (Sovc.init false) true true 0 (-4)).2 = -4
      ∧ (Sovc.register_sovc (Sovc.init false) true true 0 (-4)).1.registered = false
      ∧ (Sovc.register_sovc (Sovc.init false) true true 0 (-4)).1.sovc_volume_input_wq.live = 0
      ∧ (Sovc.register_sovc (Sovc.init false) true true 0 (-4)).1.sovc_track_input_wq.live = 0
      ∧ (Sovc.register_sovc (Sovc.init false) true true 0 (-4)).1.sovc_volume_input_handler.subs
          = 1
      ∧ (Sovc.register_sovc (Sovc.init false) true true 0 (-4)).1 ≠ Sovc.init false
      ∧ (Sovc.register_sovc (Sovc.register_sovc (Sovc.init false) true true 0 (-4)).1
            true true 0 0).1.sovc_volume_input_handler.subs = 2 := by
  decide

/-! ## Theorems for: Display-power handlers: display off (C12) -/

theorem chr_zero : chr '0' = 48 := by decide

theorem chr_one : chr '1' = 49 := by decide

theorem chr_nine : chr '9' = 57 := by decide

theorem chr_newline : chr '\n' = 10 := by decide

theorem unregister_dt2w_registered (d : Dt2w.State) : (Dt2w.unregister_dt2w d).registered = false := by
  cases h : d.registered <;> simp [Dt2w.unregister_dt2w, h]

theorem unregister_sovc_registered (v : Sovc.State) : (Sovc.unregister_sovc v).registered = false := by
  cases h : v.registered <;> simp [Sovc.unregister_sovc, h]

theorem register_dt2w_ok_registered (d : Dt2w.State) :
    (Dt2w.register_dt2w d true 0).1.registered = true := by
  cases h : d.registered <;> simp [Dt2w.register_dt2w, h, create_workqueue]

theorem register_sovc_ok_registered (v : Sovc.State) :
    (Sovc.register_sovc v true true 0 0).1.registered = true := by
  cases h : v.registered <;>
    simp [Sovc.register_sovc, h, create_workqueue, Sovc.scroff_volctr_reset]

theorem register_dt2w_scr_suspended (d : Dt2w.State) (ok : Bool) (rc : Int) :
    (Dt2w.register_dt2w d ok rc).1.scr_suspended = d.scr_suspended := by
  unfold Dt2w.register_dt2w
  simp only []
  split_ifs <;> rfl

theorem unregister_sovc_frame (v : Sovc.State) :
    (Sovc.unregister_sovc v).sovc_scr_suspended = v.sovc_scr_suspended
      ∧ (Sovc.unregister_sovc v).sovc_switch = v.sovc_switch
      ∧ (Sovc.unregister_sovc v).track_changed = v.track_changed
      ∧ (Sovc.unregister_sovc v).sovc_tmp_onoff = v.sovc_tmp_onoff
      ∧ (Sovc.unregister_sovc v).sovc_mic_detected = v.sovc_mic_detected
      ∧ (Sovc.unregister_sovc v).sovc_force_off = v.sovc_force_off
      ∧ (Sovc.unregister_sovc v).is_touching = v.is_touching
      ∧ (Sovc.unregister_sovc v).control = v.control
      ∧ (Sovc.unregister_sovc v).keyworklock = v.keyworklock
      ∧ (Sovc.unregister_sovc v).sovc_auto_off_delay = v.sovc_auto_off_delay := by
  unfold Sovc.unregister_sovc
  split_ifs <;> simp

theorem register_sovc_frame (v : Sovc.State) (ok1 ok2 : Bool) (rc1 rc2 : Int) :
    (Sovc.register_sovc v ok1 ok2 rc1 rc2).1.sovc_scr_suspended = v.sovc_scr_suspended
      ∧ (Sovc.register_sovc v ok1 ok2 rc1 rc2).1.sovc_switch = v.sovc_switch
      ∧ (Sovc.register_sovc v ok1 ok2 rc1 rc2).1.track_changed = v.track_changed
      ∧ (Sovc.register_sovc v ok1 ok2 rc1 rc2).1.sovc_tmp_onoff = v.sovc_tmp_onoff
      ∧ (Sovc.register_sovc v ok1 ok2 rc1 rc2).1.sovc_mic_detected = v.sovc_mic_detected
      ∧ (Sovc.register_sovc v ok1 ok2 rc1 rc2).1.sovc_force_off = v.sovc_force_off
      ∧ (Sovc.register_sovc v ok1 ok2 rc1 rc2).1.keyworklock = v.keyworklock
      ∧ (Sovc.register_sovc v ok1 ok2 rc1 rc2).1.sovc_auto_off_delay = v.sovc_auto_off_delay := by
  unfold Sovc.register_sovc
  simp only []
  split_ifs <;> simp [Sovc.scroff_volctr_reset]

/-- C12, as stated, fails for the suspended flag: with every enable switch of a
group at 0 its display-power handler returns at its guard, so after a transition
to "off" the flag is still false. The tap driver is in that state at load, the
swipe driver when loaded with `sovc=0`. -/
theorem display_off_ignored_when_disabled :
    (Dt2w.boot false none).dt2w_switch = 0 ∧ (Dt2w.boot false none).dt2w_switch_tmp = 0
      ∧ (Dt2w.dt2w_fb_notifier_callback (Dt2w.boot false none)
          (FbEvent.FB_EVENT_BLANK Blank.FB_BLANK_POWERDOWN) none true 0).1.scr_suspended = false
      ∧ (Sovc.boot false (some ['0'])).sovc_switch = 0
      ∧ (Sovc.sovc_fb_notifier_callback (Sovc.boot false (some ['0']))
          (FbEvent.FB_EVENT_BLANK Blank.FB_BLANK_POWERDOWN) true true 0 0).1.sovc_scr_suspended
          = false := by
  decide

/-- C12 (amended): display off triggers. With allocation and subscription succeeding,
after `FB_EVENT_BLANK` with `FB_BLANK_POWERDOWN` is handled: the tap group is
registered and `scr_suspended` is true whenever `dt2w_switch` or
`dt2w_switch_tmp` is set; whenever `sovc_switch` is set `sovc_scr_suspended` is
true, and if moreover `track_changed` or `sovc_tmp_onoff` holds, the swipe group
is not registered when `sovc_mic_detected` is set and registered otherwise. -/
theorem display_off_triggers (d : Dt2w.State) (v : Sovc.State) (force_off : Option Bool) :
    (d.dt2w_switch ≠ 0 ∨ d.dt2w_switch_tmp ≠ 0 →
        (Dt2w.dt2w_fb_notifier_callback d (FbEvent.FB_EVENT_BLANK Blank.FB_BLANK_POWERDOWN)
            force_off true 0).1.registered = true
          ∧ (Dt2w.dt2w_fb_notifier_callback d (FbEvent.FB_EVENT_BLANK Blank.FB_BLANK_POWERDOWN)
            force_off true 0).1.scr_suspended = true)
      ∧ (v.sovc_switch ≠ 0 →
        (Sovc.sovc_fb_notifier_callback v (FbEvent.FB_EVENT_BLANK Blank.FB_BLANK_POWERDOWN)
            true true 0 0).1.sovc_scr_suspended = true
          ∧ (v.track_changed = true ∨ v.sovc_tmp_onoff ≠ 0 →
            (v.sovc_mic_detected = true →
              (Sovc.sovc_fb_notifier_callback v
                (FbEvent.FB_EVENT_BLANK Blank.FB_BLANK_POWERDOWN) true true 0 0).1.registered
                = false)
            ∧ (v.sovc_mic_detected = false →
              (Sovc.sovc_fb_notifier_callback v
                (FbEvent.FB_EVENT_BLANK Blank.FB_BLANK_POWERDOWN) true true 0 0).1.registered
                = true))) := by
  refine ⟨?_, ?_⟩
  · intro hen
    have hg : ¬ (d.dt2w_switch = 0 ∧ d.dt2w_switch_tmp = 0) := by
      rintro ⟨h1, h2⟩
      rcases hen with h | h
      · exact h h1
      · exact h h2
    simp only [Dt2w.dt2w_fb_notifier_callback, hg, hen, if_false, if_true]
    exact ⟨register_dt2w_ok_registered _, by rw [register_dt2w_scr_suspended]⟩
  · intro hsw
    refine ⟨?_, ?_⟩
    · cases hfo : v.sovc_force_off <;> cases hr : v.registered <;>
        cases hmic : v.sovc_mic_detected <;>
        by_cases hc : v.track_changed = true ∨ ¬ v.sovc_tmp_onoff = 0 <;>
        simp [Sovc.sovc_fb_notifier_callback, Sovc.unregister_sovc, Sovc.register_sovc,
          create_workqueue, Sovc.scroff_volctr_reset, hsw, hfo, hr, hmic, hc]
    · intro hcond
      have hc : v.track_changed = true ∨ ¬ v.sovc_tmp_onoff = 0 := hcond
      refine ⟨?_, ?_⟩
      · intro hmic
        cases hfo : v.sovc_force_off <;> cases hr : v.registered <;>
          simp [Sovc.sovc_fb_notifier_callback, Sovc.unregister_sovc, Sovc.register_sovc,
            create_workqueue, Sovc.scroff_volctr_reset, hsw, hfo, hr, hmic, hc]
      · intro hmic
        cases hfo : v.sovc_force_off <;> cases hr : v.registered <;>
          simp [Sovc.sovc_fb_notifier_callback, Sovc.unregister_sovc, Sovc.register_sovc,
            create_workqueue, Sovc.scroff_volctr_reset, hsw, hfo, hr, hmic, hc]

/-- Display off at the armed groups: both are started and both flags are set. -/
theorem display_off_triggers_witness :
    (Dt2w.dt2w_fb_notifier_callback armed_tap (FbEvent.FB_EVENT_BLANK Blank.FB_BLANK_POWERDOWN)
        none true 0).1.registered = true
      ∧ (Dt2w.dt2w_fb_notifier_callback armed_tap
        (FbEvent.FB_EVENT_BLANK Blank.FB_BLANK_POWERDOWN) none true 0).1.scr_suspended = true
      ∧ (Sovc.sovc_fb_notifier_callback armed_swipe
        (FbEvent.FB_EVENT_BLANK Blank.FB_BLANK_POWERDOWN) true true 0 0).1.sovc_scr_suspended
          = true
      ∧ (Sovc.sovc_fb_notifier_callback armed_swipe
        (FbEvent.FB_EVENT_BLANK Blank.FB_BLANK_POWERDOWN) true true 0 0).1.registered = true :=
  ⟨((display_off_triggers armed_tap armed_swipe none).1 (Or.inl (by decide))).1,
   ((display_off_triggers armed_tap armed_swipe none).1 (Or.inl (by decide))).2,
   ((display_off_triggers armed_tap armed_swipe none).2 (by decide)).1,
   (((display_off_triggers armed_tap armed_swipe none).2 (by decide)).2
      (Or.inr (by decide))).2 (by decide)⟩

/-! ## Theorems for: Configuration writes: enable flags (C13) -/

theorem set_dt2w_switch (d : Dt2w.State) (n : Int) :
    (if d.dt2w_switch ≠ n then { d with dt2w_switch := n } else d)
      = { d with dt2w_switch := n } := by
  by_cases h : d.dt2w_switch = n
  · cases d; simp_all
  · simp [h]

theorem set_dt2w_switch_tmp (d : Dt2w.State) (n : Int) :
    (if d.dt2w_switch_tmp ≠ n then { d with dt2w_switch_tmp := n } else d)
      = { d with dt2w_switch_tmp := n } := by
  by_cases h : d.dt2w_switch_tmp = n
  · cases d; simp_all
  · simp [h]

theorem set_sovc_switch (v : Sovc.State) (n : Int) :
    (if v.sovc_switch ≠ n then { v with sovc_switch := n } else v)
      = { v with sovc_switch := n } := by
  by_cases h : v.sovc_switch = n
  · cases v; simp_all
  · simp [h]

theorem set_sovc_tmp_onoff (v : Sovc.State) (n : Int) :
    (if v.sovc_tmp_onoff ≠ n then { v with sovc_tmp_onoff := n } else v)
      = { v with sovc_tmp_onoff := n } := by
  by_cases h : v.sovc_tmp_onoff = n
  · cases v; simp_all
  · simp [h]

/-- A well-formed write of a digit stores it and re-evaluates the tap lifecycle. -/
theorem dt2w_doubletap2wake_dump_written (d : Dt2w.State) (buf : List Char) (n : Int)
    (ok : Bool) (rc : Int) (h0 : 0 ≤ n) (h9 : n ≤ 9) (hw : Written buf n) :
    (Dt2w.dt2w_doubletap2wake_dump d buf ok rc).1
      = if n ≠ 0 then (Dt2w.register_dt2w { d with dt2w_switch := n } ok rc).1
        else Dt2w.unregister_dt2w { d with dt2w_switch := n } := by
  obtain ⟨hb0, hb1⟩ := hw
  have hc : buf_at buf 0 ≥ chr '0' ∧ buf_at buf 0 ≤ chr '9' ∧ buf_at buf 1 = chr '\n' := by
    rw [hb0, hb1, chr_zero, chr_nine]
    exact ⟨by omega, by omega, rfl⟩
  have hv : buf_at buf 0 - chr '0' = n := by rw [hb0]; ring
  simp only [Dt2w.dt2w_doubletap2wake_dump, hc, and_self, if_true, hv, set_dt2w_switch]

/-- A well-formed write of 0 or 1 stores it and re-evaluates the tap lifecycle. -/
theorem dt2w_doubletap2wake_tmp_dump_written (d : Dt2w.State) (buf : List Char) (n : Int)
    (ok : Bool) (rc : Int) (hn : n = 0 ∨ n = 1) (hw : Written buf n) :
    (Dt2w.dt2w_doubletap2wake_tmp_dump d buf ok rc).1
      = if n ≠ 0 then (Dt2w.register_dt2w { d with dt2w_switch_tmp := n } ok rc).1
        else Dt2w.unregister_dt2w { d with dt2w_switch_tmp := n } := by
  obtain ⟨hb0, hb1⟩ := hw
  have hc : (buf_at buf 0 = chr '0' ∨ buf_at buf 0 = chr '1') ∧ buf_at buf 1 = chr '\n' := by
    rw [hb0, hb1, chr_zero, chr_one]
    rcases hn with h | h <;> simp [h]
  have hv : buf_at buf 0 - chr '0' = n := by rw [hb0]; ring
  simp only [Dt2w.dt2w_doubletap2wake_tmp_dump, hc, and_self, if_true, hv, set_dt2w_switch_tmp]

/-- A well-formed write of 0 or 1 stores it and re-evaluates the swipe lifecycle. -/
theorem sovc_scroff_volctr_dump_written (v : Sovc.State) (buf : List Char) (n : Int)
    (ok1 ok2 : Bool) (rc1 rc2 : Int) (hn : n = 0 ∨ n = 1) (hw : Written buf n) :
    (Sovc.sovc_scroff_volctr_dump v buf ok1 ok2 rc1 rc2).1
      = if n ≠ 0 then (Sovc.register_sovc { v with sovc_switch := n } ok1 ok2 rc1 rc2).1
        else Sovc.unregister_sovc { v with sovc_switch := n } := by
  obtain ⟨hb0, hb1⟩ := hw
  have hc : (buf_at buf 0 = chr '0' ∨ buf_at buf 0 = chr '1') ∧ buf_at buf 1 = chr '\n' := by
    rw [hb0, hb1, chr_zero, chr_one]
    rcases hn with h | h <;> simp [h]
  have hv : buf_at buf 0 - chr '0' = n := by rw [hb0]; ring
  simp only [Sovc.sovc_scroff_volctr_dump, hc, and_self, if_true, hv, set_sovc_switch]

/-- A well-formed write of 0 or 1 to `scroff_volctr_temp` stores it and clears
`track_changed` when it is 1; nothing else changes. -/
theorem sovc_scroff_volctr_temp_dump_written (v : Sovc.State) (buf : List Char) (n : Int)
    (hn : n = 0 ∨ n = 1) (hw : Written buf n) :
    (Sovc.sovc_scroff_volctr_temp_dump v buf).1
      = if n ≠ 0 then { v with sovc_tmp_onoff := n, track_changed := false }
        else { v with sovc_tmp_onoff := n } := by
  obtain ⟨hb0, hb1⟩ := hw
  have hc : (buf_at buf 0 = chr '0' ∨ buf_at buf 0 = chr '1') ∧ buf_at buf 1 = chr '\n' := by
    rw [hb0, hb1, chr_zero, chr_one]
    rcases hn with h | h <;> simp [h]
  have hv : buf_at buf 0 - chr '0' = n := by rw [hb0]; ring
  simp only [Sovc.sovc_scroff_volctr_temp_dump, hc, and_self, if_true, hv, set_sovc_tmp_onoff]

theorem register_dt2w_frame (d : Dt2w.State) (ok : Bool) (rc : Int) :
    (Dt2w.register_dt2w d ok rc).1.dt2w_switch = d.dt2w_switch
      ∧ (Dt2w.register_dt2w d ok rc).1.dt2w_switch_tmp = d.dt2w_switch_tmp := by
  unfold Dt2w.register_dt2w
  simp only []
  split_ifs <;> simp

theorem unregister_dt2w_frame (d : Dt2w.State) :
    (Dt2w.unregister_dt2w d).dt2w_switch = d.dt2w_switch
      ∧ (Dt2w.unregister_dt2w d).dt2w_switch_tmp = d.dt2w_switch_tmp
      ∧ (Dt2w.unregister_dt2w d).scr_suspended = d.scr_suspended := by
  unfold Dt2w.unregister_dt2w
  split_ifs <;> simp

/-- C13, as stated, fails for `scroff_volctr_temp`: a well-formed write of 1 on
the initial state stores the flag and leaves the swipe group unregistered, and a
well-formed write of 0 on a registered group stores the flag and leaves the group
registered. -/
theorem temp_write_keeps_registration :
    Written ['1', '\n'] 1
      ∧ (Sovc.sovc_scroff_volctr_temp_dump (Sovc.init false) ['1', '\n']).1.sovc_tmp_onoff = 1
      ∧ (Sovc.sovc_scroff_volctr_temp_dump (Sovc.init false) ['1', '\n']).1.registered = false
      ∧ Written ['0', '\n'] 0
      ∧ enabled_swipe.registered = true
      ∧ (Sovc.sovc_scroff_volctr_temp_dump enabled_swipe ['0', '\n']).1.sovc_tmp_onoff = 0
      ∧ (Sovc.sovc_scroff_volctr_temp_dump enabled_swipe ['0', '\n']).1.registered = true := by
  decide

/-- C13 (amended): enable-flag writes. A well-formed write (a digit, then a
newline) to `doubletap2wake` (digit 0..9), `doubletap2wake_tmp` or `scroff_volctr`
(digit 0 or 1) stores the value and leaves the corresponding group registered
when the value is non-zero and the start succeeds, and not registered when the
value is 0, whatever the allocations would answer. A well-formed write to
`scroff_volctr_temp` stores the flag, clears `track_changed` when the flag is 1,
and changes nothing else: the registration of the swipe group stays as it was. -/
theorem enable_writes_drive_lifecycle (d : Dt2w.State) (v : Sovc.State) (buf : List Char)
    (n : Int) (hw : Written buf n) :
    (0 ≤ n → n ≤ 9 →
        (Dt2w.dt2w_doubletap2wake_dump d buf true 0).1.dt2w_switch = n
          ∧ (n ≠ 0 → (Dt2w.dt2w_doubletap2wake_dump d buf true 0).1.registered = true)
          ∧ (n = 0 → ∀ (ok : Bool) (rc : Int),
              (Dt2w.dt2w_doubletap2wake_dump d buf ok rc).1.registered = false))
      ∧ (n = 0 ∨ n = 1 →
        (Dt2w.dt2w_doubletap2wake_tmp_dump d buf true 0).1.dt2w_switch_tmp = n
          ∧ (n = 1 → (Dt2w.dt2w_doubletap2wake_tmp_dump d buf true 0).1.registered = true)
          ∧ (n = 0 → ∀ (ok : Bool) (rc : Int),
              (Dt2w.dt2w_doubletap2wake_tmp_dump d buf ok rc).1.registered = false))
      ∧ (n = 0 ∨ n = 1 →
        (Sovc.sovc_scroff_volctr_dump v buf true true 0 0).1.sovc_switch = n
          ∧ (n = 1 → (Sovc.sovc_scroff_volctr_dump v buf true true 0 0).1.registered = true)
          ∧ (n = 0 → ∀ (ok1 ok2 : Bool) (rc1 rc2 : Int),
              (Sovc.sovc_scroff_volctr_dump v buf ok1 ok2 rc1 rc2).1.registered = false))
      ∧ (n = 0 ∨ n = 1 →
        (Sovc.sovc_scroff_volctr_temp_dump v buf).1
          = if n ≠ 0 then { v with sovc_tmp_onoff := n, track_changed := false }
            else { v with sovc_tmp_onoff := n }) := by
  refine ⟨?_, ?_, ?_, ?_⟩
  · intro h0 h9
    refine ⟨?_, ?_, ?_⟩
    · rw [dt2w_doubletap2wake_dump_written d buf n true 0 h0 h9 hw]
      split_ifs
      · rw [(register_dt2w_frame _ _ _).1]
      · rw [(unregister_dt2w_frame _).1]
    · intro hn
      rw [dt2w_doubletap2wake_dump_written d buf n true 0 h0 h9 hw, if_pos hn]
      exact register_dt2w_ok_registered _
    · intro hn ok rc
      rw [dt2w_doubletap2wake_dump_written d buf n ok rc h0 h9 hw, if_neg (not_not.mpr hn)]
      exact unregister_dt2w_registered _
  · intro hn
    refine ⟨?_, ?_, ?_⟩
    · rw [dt2w_doubletap2wake_tmp_dump_written d buf n true 0 hn hw]
      split_ifs
      · rw [(register_dt2w_frame _ _ _).2]
      · rw [(unregister_dt2w_frame _).2.1]
    · intro h1
      have hne : n ≠ 0 := by omega
      rw [dt2w_doubletap2wake_tmp_dump_written d buf n true 0 hn hw, if_pos hne]
      exact register_dt2w_ok_registered _
    · intro h0 ok rc
      rw [dt2w_doubletap2wake_tmp_dump_written d buf n ok rc hn hw, if_neg (not_not.mpr h0)]
      exact unregister_dt2w_registered _
  · intro hn
    refine ⟨?_, ?_, ?_⟩
    · rw [sovc_scroff_volctr_dump_written v buf n true true 0 0 hn hw]
      split_ifs
      · rw [(register_sovc_frame _ _ _ _ _).2.1]
      · rw [(unregister_sovc_frame _).2.1]
    · intro h1
      have hne : n ≠ 0 := by omega
      rw [sovc_scroff_volctr_dump_written v buf n true true 0 0 hn hw, if_pos hne]
      exact register_sovc_ok_registered _
    · intro h0 ok1 ok2 rc1 rc2
      rw [sovc_scroff_volctr_dump_written v buf n ok1 ok2 rc1 rc2 hn hw,
        if_neg (not_not.mpr h0)]
      exact unregister_sovc_registered _
  · intro hn
    exact sovc_scroff_volctr_temp_dump_written v buf n hn hw

/-- Well-formed writes of 1 at the initial states: the tap group and the swipe
group are started by their persistent attribute. -/
theorem enable_writes_drive_lifecycle_witness :
    (Dt2w.dt2w_doubletap2wake_dump (Dt2w.init false) ['1', '\n'] true 0).1.dt2w_switch = 1
      ∧ (Dt2w.dt2w_doubletap2wake_dump (Dt2w.init false) ['1', '\n'] true 0).1.registered = true
      ∧ (Sovc.sovc_scroff_volctr_dump (Sovc.init false) ['1', '\n'] true true 0 0).1.registered
          = true :=
  ⟨((enable_writes_drive_lifecycle (Dt2w.init false) (Sovc.init false) ['1', '\n'] 1
      (by decide)).1 (by decide) (by decide)).1,
   ((enable_writes_drive_lifecycle (Dt2w.init false) (Sovc.init false) ['1', '\n'] 1
      (by decide)).1 (by decide) (by decide)).2.1 (by decide),
   ((enable_writes_drive_lifecycle (Dt2w.init false) (Sovc.init false) ['1', '\n'] 1
      (by decide)).2.2.1 (Or.inr rfl)).2.1 rfl⟩

/-! ## Theorems for: Configuration writes: auto-off delay (C14) -/

namespace Sovc

theorem scroff_volctr_reset_delay (s : State) :
    (scroff_volctr_reset s).sovc_auto_off_delay = s.sovc_auto_off_delay := rfl

theorem sovc_input_common_event_delay (s : State) (code : EvCode) (value : Int) :
    (sovc_input_common_event s code value).1.sovc_auto_off_delay = s.sovc_auto_off_delay := by
  unfold sovc_input_common_event
  cases code <;> simp only [] <;> split_ifs <;> rfl

theorem register_sovc_delay (v : State) (ok1 ok2 : Bool) (rc1 rc2 : Int) :
    (register_sovc v ok1 ok2 rc1 rc2).1.sovc_auto_off_delay = v.sovc_auto_off_delay :=
  (register_sovc_frame v ok1 ok2 rc1 rc2).2.2.2.2.2.2.2

theorem unregister_sovc_delay (v : State) :
    (unregister_sovc v).sovc_auto_off_delay = v.sovc_auto_off_delay :=
  (unregister_sovc_frame v).2.2.2.2.2.2.2.2.2

theorem step_delay (f : List Char → Option Int) (s : State) (op : Op) :
    (step f s op).sovc_auto_off_delay = s.sovc_auto_off_delay
      ∨ (1000 ≤ (step f s op).sovc_auto_off_delay
          ∧ (step f s op).sovc_auto_off_delay ≤ 60000) := by
  cases op with
  | volume_event code value =>
    left
    simp only [step, sovc_volume_input_event]
    split_ifs
    · exact sovc_input_common_event_delay s code value
    · cases code <;> simp only [] <;> exact sovc_input_common_event_delay s _ value
  | track_event code value =>
    left
    simp only [step, sovc_track_input_event]
    split_ifs
    · exact sovc_input_common_event_delay s code value
    · cases code <;> simp only [] <;> exact sovc_input_common_event_delay s _ value
  | volume_work now =>
    left
    simp only [step, sovc_volume_input_callback, exec_key, touch_off, new_touch_y]
    split_ifs <;> rfl
  | track_work now =>
    left
    simp only [step, sovc_track_input_callback, exec_key, touch_off, new_touch_x]
    split_ifs <;> rfl
  | key_work =>
    left
    cases hc : s.control <;> simp only [step, scroff_volctr_key, hc] <;> split_ifs <;> rfl
  | write_scroff_volctr buf ok1 ok2 rc1 rc2 =>
    left
    simp only [step, sovc_scroff_volctr_dump]
    (repeat' split_ifs) <;> simp [register_sovc_delay, unregister_sovc_delay]
  | write_scroff_volctr_temp buf =>
    left
    simp only [step, sovc_scroff_volctr_temp_dump]
    split_ifs <;> rfl
  | write_auto_off_delay buf =>
    simp only [step, sovc_auto_off_delay_dump]
    cases f buf with
    | none => left; rfl
    | some val =>
      by_cases h : val ≥ 1000 ∧ val ≤ 60000
      · right; simp only [h, and_self, if_true]
      · left; simp only [h, if_false]
  | fb_event event ok1 ok2 rc1 rc2 =>
    left
    rcases event with (_ | _ | _) | _ <;>
      simp only [step, sovc_fb_notifier_callback] <;>
      (repeat' split_ifs) <;>
      simp [register_sovc_delay, unregister_sovc_delay]
  | set_mic_detected b => left; rfl
  | set_force_off b => left; rfl

theorem run_delay (f : List Char → Option Int) (ops : List Op) :
    ∀ s : State, 1000 ≤ s.sovc_auto_off_delay ∧ s.sovc_auto_off_delay ≤ 60000 →
      1000 ≤ (run f s ops).sovc_auto_off_delay ∧ (run f s ops).sovc_auto_off_delay ≤ 60000 := by
  induction ops with
  | nil => intro s h; exact h
  | cons op rest ih =>
    intro s h
    apply ih (step f s op)
    rcases step_delay f s op with heq | hin
    · rw [heq]; exact h
    · exact hin

/-- C14: auto-off delay range check. For every integer `v` that the scanner reads
from the bytes written to `sovc_auto_off_delay`, the write returns `count`, and
the stored delay afterwards is `v` if `1000 ≤ v ≤ 60000` and the prior value
otherwise, nothing else changing; a read returns the stored value in decimal
followed by a newline (writing 500 leaves the initial 4000, writing 35000 reads
back as "35000\n"); and in every state reached from the initial state by any
operations the stored delay is within 1000..60000. -/
theorem auto_off_delay_range (sscanf_d : List Char → Option Int) (s : State)
    (buf : List Char) (v : Int) (haptic : Bool) (ops : List Op) :
    (sscanf_d buf = some v →
        (sovc_auto_off_delay_dump sscanf_d s buf).2 = (buf.length : Int)
          ∧ (1000 ≤ v ∧ v ≤ 60000 →
              (sovc_auto_off_delay_dump sscanf_d s buf).1 = { s with sovc_auto_off_delay := v })
          ∧ (¬ (1000 ≤ v ∧ v ≤ 60000) → (sovc_auto_off_delay_dump sscanf_d s buf).1 = s))
      ∧ (sovc_auto_off_delay_show s).1 = toString s.sovc_auto_off_delay ++ "\n"
      ∧ (sovc_auto_off_delay_show
          (sovc_auto_off_delay_dump scan_sample (init haptic) ['5', '0', '0', '\n']).1).1
          = "4000\n"
      ∧ (sovc_auto_off_delay_show
          (sovc_auto_off_delay_dump scan_sample (init haptic)
            ['3', '5', '0', '0', '0', '\n']).1).1 = "35000\n"
      ∧ (init haptic).sovc_auto_off_delay = 4000
      ∧ 1000 ≤ (run sscanf_d (init haptic) ops).sovc_auto_off_delay
      ∧ (run sscanf_d (init haptic) ops).sovc_auto_off_delay ≤ 60000 := by
  refine ⟨?_, rfl, ?_, ?_, rfl, ?_⟩
  · intro hscan
    refine ⟨?_, ?_, ?_⟩
    · simp [sovc_auto_off_delay_dump, hscan]
    · intro hin
      have hin2 : v ≥ 1000 ∧ v ≤ 60000 := hin
      simp [sovc_auto_off_delay_dump, hscan, hin2]
    · intro hout
      have hout2 : ¬ (v ≥ 1000 ∧ v ≤ 60000) := hout
      simp only [sovc_auto_off_delay_dump, hscan, hout2, if_false]
  · cases haptic <;> decide
  · cases haptic <;> decide
  · exact run_delay sscanf_d ops (init haptic) (by simp [init, SOVC_AUTO_OFF_DELAY])

/-- The range check at the initial state with the sample scanner: 35000 is
stored, and after two more writes and a display-off event the delay is in range. -/
theorem auto_off_delay_range_witness :
    (sovc_auto_off_delay_dump scan_sample (init false) ['3', '5', '0', '0', '0', '\n']).1
        = { init false with sovc_auto_off_delay := 35000 }
      ∧ 1000 ≤ (run scan_sample (init false)
          [Op.write_auto_off_delay ['3', '5', '0', '0', '0', '\n'],
            Op.write_auto_off_delay ['5', '0', '0', '\n'],
            Op.fb_event (FbEvent.FB_EVENT_BLANK Blank.FB_BLANK_POWERDOWN) true true 0 0]
          ).sovc_auto_off_delay :=
  ⟨((auto_off_delay_range scan_sample (init false) ['3', '5', '0', '0', '0', '\n'] 35000 false
      []).1 (by decide)).2.1 (by decide),
   (auto_off_delay_range scan_sample (init false) [] 0 false
      [Op.write_auto_off_delay ['3', '5', '0', '0', '0', '\n'],
        Op.write_auto_off_delay ['5', '0', '0', '\n'],
        Op.fb_event (FbEvent.FB_EVENT_BLANK Blank.FB_BLANK_POWERDOWN) true true 0 0]).2.2.2.2.2.1⟩

end Sovc

/-! ## Theorems for: Configuration writes: rejected writes (C15) -/

/-- C15, as stated, fails: the malformed write `x` to `doubletap2wake` keeps
`dt2w_switch = 0` and then stops the tap group that the temporary switch had
started; the malformed write `x` to `scroff_volctr_temp` keeps the flag and
clears `track_changed`. -/
theorem rejected_write_changes_state :
    ¬ DigitLine ['x'] ∧ ¬ BitLine ['x']
      ∧ tmp_started_tap.registered = true ∧ tmp_started_tap.dt2w_switch = 0
      ∧ (Dt2w.dt2w_doubletap2wake_dump tmp_started_tap ['x'] true 0).1.dt2w_switch = 0
      ∧ (Dt2w.dt2w_doubletap2wake_dump tmp_started_tap ['x'] true 0).1.registered = false
      ∧ (Dt2w.dt2w_doubletap2wake_dump tmp_started_tap ['x'] true 0).1 ≠ tmp_started_tap
      ∧ track_changed_swipe.track_changed = true
      ∧ (Sovc.sovc_scroff_volctr_temp_dump track_changed_swipe ['x']).1.sovc_tmp_onoff = 1
      ∧ (Sovc.sovc_scroff_volctr_temp_dump track_changed_swipe ['x']).1.track_changed = false := by
  decide

/-- C15 (amended): a rejected write keeps the stored value, and the attribute's
follow-up action is applied from the value kept. For bytes that fail the test of
the attribute: `doubletap2wake`, `doubletap2wake_tmp` and `scroff_volctr` keep
their value and then call `register_*` when the value kept is non-zero and
`unregister_*` when it is 0, so the whole state is unchanged exactly when the
registration already agrees with the value kept; `scroff_volctr_temp` keeps its
value and clears `track_changed` when the value kept is non-zero;
`sovc_auto_off_delay` changes nothing, returning `-EINVAL` when nothing is
scanned and `count` when the value scanned is outside 1000..60000. -/
theorem rejected_write_keeps_value (d : Dt2w.State) (v : Sovc.State) (buf : List Char)
    (sscanf_d : List Char → Option Int) (ok ok1 ok2 : Bool) (rc rc1 rc2 : Int) :
    (¬ DigitLine buf →
        (Dt2w.dt2w_doubletap2wake_dump d buf ok rc).1
            = (if d.dt2w_switch ≠ 0 then (Dt2w.register_dt2w d ok rc).1
               else Dt2w.unregister_dt2w d)
          ∧ (Dt2w.dt2w_doubletap2wake_dump d buf ok rc).1.dt2w_switch = d.dt2w_switch
          ∧ ((d.registered = true ↔ d.dt2w_switch ≠ 0) →
              (Dt2w.dt2w_doubletap2wake_dump d buf ok rc).1 = d))
      ∧ (¬ BitLine buf →
        (Dt2w.dt2w_doubletap2wake_tmp_dump d buf ok rc).1
            = (if d.dt2w_switch_tmp ≠ 0 then (Dt2w.register_dt2w d ok rc).1
               else Dt2w.unregister_dt2w d)
          ∧ (Dt2w.dt2w_doubletap2wake_tmp_dump d buf ok rc).1.dt2w_switch_tmp
              = d.dt2w_switch_tmp
          ∧ ((d.registered = true ↔ d.dt2w_switch_tmp ≠ 0) →
              (Dt2w.dt2w_doubletap2wake_tmp_dump d buf ok rc).1 = d))
      ∧ (¬ BitLine buf →
        (Sovc.sovc_scroff_volctr_dump v buf ok1 ok2 rc1 rc2).1
            = (if v.sovc_switch ≠ 0 then (Sovc.register_sovc v ok1 ok2 rc1 rc2).1
               else Sovc.unregister_sovc v)
          ∧ (Sovc.sovc_scroff_volctr_dump v buf ok1 ok2 rc1 rc2).1.sovc_switch = v.sovc_switch
          ∧ ((v.registered = true ↔ v.sovc_switch ≠ 0) →
              (Sovc.sovc_scroff_volctr_dump v buf ok1 ok2 rc1 rc2).1 = v))
      ∧ (¬ BitLine buf →
        (Sovc.sovc_scroff_volctr_temp_dump v buf).1
            = (if v.sovc_tmp_onoff ≠ 0 then { v with track_changed := false } else v))
      ∧ (sscanf_d buf = none →
        Sovc.sovc_auto_off_delay_dump sscanf_d v buf = (v, -EINVAL))
      ∧ (∀ x : Int, sscanf_d buf = some x → ¬ (1000 ≤ x ∧ x ≤ 60000) →
        Sovc.sovc_auto_off_delay_dump sscanf_d v buf = (v, (buf.length : Int))) := by
  have dreg : ∀ (s : Dt2w.State), s.registered = true → Dt2w.register_dt2w s ok rc = (s, 0) := by
    intro s h; simp [Dt2w.register_dt2w, h]
  have dunreg : ∀ s : Dt2w.State, s.registered = false → Dt2w.unregister_dt2w s = s := by
    intro s h; simp [Dt2w.unregister_dt2w, h]
  have vreg : ∀ (s : Sovc.State), s.registered = true →
      Sovc.register_sovc s ok1 ok2 rc1 rc2 = (s, 0) := by
    intro s h; simp [Sovc.register_sovc, h]
  have vunreg : ∀ s : Sovc.State, s.registered = false → Sovc.unregister_sovc s = s := by
    intro s h; simp [Sovc.unregister_sovc, h]
  refine ⟨?_, ?_, ?_, ?_, ?_, ?_⟩
  · intro hbad
    have hbad2 : ¬ (buf_at buf 0 ≥ chr '0' ∧ buf_at buf 0 ≤ chr '9' ∧ buf_at buf 1 = chr '\n') :=
      hbad
    have hmain : (Dt2w.dt2w_doubletap2wake_dump d buf ok rc).1
        = (if d.dt2w_switch ≠ 0 then (Dt2w.register_dt2w d ok rc).1
           else Dt2w.unregister_dt2w d) := by
      simp only [Dt2w.dt2w_doubletap2wake_dump, hbad2, if_false]
    refine ⟨hmain, ?_, ?_⟩
    · rw [hmain]
      split_ifs
      · exact (register_dt2w_frame _ _ _).1
      · exact (unregister_dt2w_frame _).1
    · intro hagree
      rw [hmain]
      split_ifs with hsw
      · rw [dreg d (hagree.mpr hsw)]
      · apply dunreg
        cases hr : d.registered
        · rfl
        · exact absurd (hagree.mp hr) hsw
  · intro hbad
    have hbad2 : ¬ ((buf_at buf 0 = chr '0' ∨ buf_at buf 0 = chr '1')
        ∧ buf_at buf 1 = chr '\n') := hbad
    have hmain : (Dt2w.dt2w_doubletap2wake_tmp_dump d buf ok rc).1
        = (if d.dt2w_switch_tmp ≠ 0 then (Dt2w.register_dt2w d ok rc).1
           else Dt2w.unregister_dt2w d) := by
      simp only [Dt2w.dt2w_doubletap2wake_tmp_dump, hbad2, if_false]
    refine ⟨hmain, ?_, ?_⟩
    · rw [hmain]
      split_ifs
      · exact (register_dt2w_frame _ _ _).2
      · exact (unregister_dt2w_frame _).2.1
    · intro hagree
      rw [hmain]
      split_ifs with hsw
      · rw [dreg d (hagree.mpr hsw)]
      · apply dunreg
        cases hr : d.registered
        · rfl
        · exact absurd (hagree.mp hr) hsw
  · intro hbad
    have hbad2 : ¬ ((buf_at buf 0 = chr '0' ∨ buf_at buf 0 = chr '1')
        ∧ buf_at buf 1 = chr '\n') := hbad
    have hmain : (Sovc.sovc_scroff_volctr_dump v buf ok1 ok2 rc1 rc2).1
        = (if v.sovc_switch ≠ 0 then (Sovc.register_sovc v ok1 ok2 rc1 rc2).1
           else Sovc.unregister_sovc v) := by
      simp only [Sovc.sovc_scroff_volctr_dump, hbad2, if_false]
    refine ⟨hmain, ?_, ?_⟩
    · rw [hmain]
      split_ifs
      · exact (register_sovc_frame _ _ _ _ _).2.1
      · exact (unregister_sovc_frame _).2.1
    · intro hagree
      rw [hmain]
      split_ifs with hsw
      · rw [vreg v (hagree.mpr hsw)]
      · apply vunreg
        cases hr : v.registered
        · rfl
        · exact absurd (hagree.mp hr) hsw
  · intro hbad
    have hbad2 : ¬ ((buf_at buf 0 = chr '0' ∨ buf_at buf 0 = chr '1')
        ∧ buf_at buf 1 = chr '\n') := hbad
    simp only [Sovc.sovc_scroff_volctr_temp_dump, hbad2, if_false]
  · intro hnone
    simp [Sovc.sovc_auto_off_delay_dump, hnone]
  · intro x hsome hout
    have hout2 : ¬ (x ≥ 1000 ∧ x ≤ 60000) := hout
    simp only [Sovc.sovc_auto_off_delay_dump, hsome, hout2, if_false]

/-- Rejected writes at the initial states, where the registration agrees with
the values kept for the tap group: nothing changes; and a scanned 500 is refused. -/
theorem rejected_write_keeps_value_witness :
    (Dt2w.dt2w_doubletap2wake_dump (Dt2w.init false) ['1', '0', '\n'] true 0).1
        = Dt2w.init false
      ∧ (Dt2w.dt2w_doubletap2wake_tmp_dump (Dt2w.init false) ['1', '0', '\n'] true 0).1
        = Dt2w.init false
      ∧ Sovc.sovc_auto_off_delay_dump Sovc.scan_sample (Sovc.init false) ['5', '0', '0', '\n']
        = (Sovc.init false, 4) :=
  ⟨((rejected_write_keeps_value (Dt2w.init false) (Sovc.init false) ['1', '0', '\n']
      Sovc.scan_sample true true true 0 0 0).1 (by decide)).2.2 (by decide),
   ((rejected_write_keeps_value (Dt2w.init false) (Sovc.init false) ['1', '0', '\n']
      Sovc.scan_sample true true true 0 0 0).2.1 (by decide)).2.2 (by decide),
   (rejected_write_keeps_value (Dt2w.init false) (Sovc.init false) ['5', '0', '0', '\n']
      Sovc.scan_sample true true true 0 0 0).2.2.2.2.2 500 (by decide) (by decide)⟩

/-! ## Theorems for: Key dispatch: cadence (C16), guard (C17), stop (C18), pulse (C19) -/

namespace Sovc

theorem pulse_starts_append (a b : List (Int × Call)) :
    pulse_starts (a ++ b) = pulse_starts a ++ pulse_starts b := by
  simp [pulse_starts, List.filterMap_append]

/-- One run of the key work while a swipe is held: one key-down at the time of
the run, the timer armed one period later, and the swipe is still held. -/
theorem key_run_held (s : State) (c : CONTROL) (t : Int) (h : Held s c)
    (hc : c ≠ CONTROL.NO_CONTROL) :
    pulse_starts (stamp t (scroff_volctr_key s).2).1 = [t]
      ∧ next_due (stamp t (scroff_volctr_key s).2).1 = some (t + repeat_period c)
      ∧ Held (scroff_volctr_key s).1 c := by
  obtain ⟨hs, ht, hl, hctl⟩ := h
  cases c <;> first | exact absurd rfl hc | skip
  all_goals
    cases hh : s.CONFIG_QPNP_HAPTIC <;>
    simp [scroff_volctr_key, scroff_volctr_key_delayed_trigger, key_pulse, stamp, next_due,
      pulse_starts, Held, repeat_period, hs, ht, hl, hctl, hh, SOVC_KEY_PRESS_DUR,
      SOVC_VOL_REEXEC_DELAY, SOVC_TRACK_REEXEC_DELAY, add_assoc]

theorem key_runs_starts (c : CONTROL) (hc : c ≠ CONTROL.NO_CONTROL) :
    ∀ (n : Nat) (s : State) (t : Int), Held s c →
      pulse_starts (key_runs n s t)
        = (List.range n).map fun (i : Nat) => t + (i : Int) * repeat_period c := by
  intro n
  induction n with
  | zero => intro s t _; simp [key_runs, pulse_starts]
  | succ n ih =>
    intro s t h
    obtain ⟨h1, h2, h3⟩ := key_run_held s c t h hc
    simp only [key_runs, h2, pulse_starts_append, h1, ih _ _ h3]
    rw [List.range_succ_eq_map]
    simp only [List.map_cons, List.map_map, Nat.cast_zero, zero_mul, add_zero,
      List.singleton_append, List.cons.injEq, true_and]
    apply List.map_congr_left
    intro i _
    simp only [Function.comp, Nat.cast_succ]
    ring

theorem countP_window (k : Nat) :
    ∀ n : Nat, (List.range n).countP (fun i => decide (1 ≤ i ∧ i ≤ k)) = min (n - 1) k := by
  intro n
  induction n with
  | zero => simp
  | succ n ih =>
    rw [List.range_succ, List.countP_append, ih]
    by_cases h : 1 ≤ n ∧ n ≤ k
    · simp [List.countP_cons, h]
      omega
    · simp [List.countP_cons, h]
      omega

theorem repeat_period_pos (c : CONTROL) (hc : c ≠ CONTROL.NO_CONTROL) : 0 < repeat_period c := by
  cases c <;> first | exact absurd rfl hc | decide

/-- C16, as stated, fails: after a volume-up swipe has fired at time 0 and the
contact is held, the key-downs start at 0, 350, 700, 1050: 350 ms apart, not
250 ms, so holding for 1 * 250 ms produces no additional pulse and holding for
4 * 250 ms produces two, not four. -/
theorem repeat_period_exceeds_delay :
    Held volume_held CONTROL.VOL_UP
      ∧ pulse_starts (key_runs 4 volume_held 0) = [0, 350, 700, 1050]
      ∧ additional_pulses 4 volume_held 0 (1 * SOVC_VOL_REEXEC_DELAY) = 0
      ∧ additional_pulses 8 volume_held 0 (4 * SOVC_VOL_REEXEC_DELAY) = 2 := by
  decide

/-- C16 (amended): hold-to-repeat cadence. With the ideal clock and timer,
after a swipe has fired at `t0` and while the contact is held (screen suspended,
dispatch lock free), the key work emits its key-downs at `t0`, `t0 + P`,
`t0 + 2 P`, ... where the period `P` is the press duration plus the re-exec delay
(100 + 250 = 350 ms for volume, 100 + 4000 = 4100 ms for track); hence holding
for `k * P` produces exactly `k` additional pulses, for every `k ≥ 0` and every
number `n > k` of runs considered. -/
theorem hold_to_repeat_cadence (s : State) (c : CONTROL) (t0 : Int) (n k : Nat)
    (h : Held s c) (hc : c ≠ CONTROL.NO_CONTROL) (hn : k < n) :
    pulse_starts (key_runs n s t0)
        = (List.range n).map (fun (i : Nat) => t0 + (i : Int) * repeat_period c)
      ∧ additional_pulses n s t0 ((k : Int) * repeat_period c) = k
      ∧ (c = CONTROL.VOL_UP ∨ c = CONTROL.VOL_DOWN → repeat_period c = 350)
      ∧ (c = CONTROL.TRACK_NEXT ∨ c = CONTROL.TRACK_PREVIOUS → repeat_period c = 4100) := by
  have hP := repeat_period_pos c hc
  refine ⟨key_runs_starts c hc n s t0 h, ?_, ?_, ?_⟩
  · unfold additional_pulses
    rw [key_runs_starts c hc n s t0 h, List.countP_map]
    have hcongr : (List.range n).countP
          ((fun start => decide (t0 < start ∧ start ≤ t0 + (k : Int) * repeat_period c))
            ∘ fun (i : Nat) => t0 + (i : Int) * repeat_period c)
        = (List.range n).countP (fun i => decide (1 ≤ i ∧ i ≤ k)) := by
      apply List.countP_congr
      intro i _
      simp only [Function.comp, decide_eq_true_eq]
      constructor
      · rintro ⟨h1, h2⟩
        have h1' : 0 < (i : Int) * repeat_period c := by linarith
        have h2' : (i : Int) * repeat_period c ≤ (k : Int) * repeat_period c := by linarith
        have hi : 0 < (i : Int) := pos_of_mul_pos_left h1' hP.le
        have hk : (i : Int) ≤ k := le_of_mul_le_mul_right h2' hP
        exact ⟨by exact_mod_cast hi, by exact_mod_cast hk⟩
      · rintro ⟨h1, h2⟩
        have hi : 0 < (i : Int) := by exact_mod_cast h1
        have hk : (i : Int) ≤ k := by exact_mod_cast h2
        exact ⟨by nlinarith, by nlinarith⟩
    rw [hcongr, countP_window]
    omega
  · rintro (h1 | h1) <;> subst h1 <;> decide
  · rintro (h1 | h1) <;> subst h1 <;> decide

/-- The cadence at `volume_held`: holding for 3 periods gives 3 additional pulses. -/
theorem hold_to_repeat_cadence_witness :
    pulse_starts (key_runs 5 volume_held 0)
        = (List.range 5).map (fun (i : Nat) => (0 : Int) + (i : Int) * repeat_period CONTROL.VOL_UP)
      ∧ additional_pulses 5 volume_held 0 (((3 : Nat) : Int) * repeat_period CONTROL.VOL_UP) = 3 :=
  ⟨(hold_to_repeat_cadence volume_held CONTROL.VOL_UP 0 5 3 (by decide) (by decide)
      (by decide)).1,
   (hold_to_repeat_cadence volume_held CONTROL.VOL_UP 0 5 3 (by decide) (by decide)
      (by decide)).2.1⟩

theorem scroff_volctr_key_dropped (s : State)
    (h : s.is_touching = false ∨ s.sovc_scr_suspended = false ∨ s.keyworklock = true) :
    scroff_volctr_key s = (s, []) := by
  rcases h with h | h | h
  · simp [scroff_volctr_key, h]
  · simp [scroff_volctr_key, h]
  · cases h1 : s.sovc_scr_suspended <;> cases h2 : s.is_touching <;>
      simp [scroff_volctr_key, h, h1, h2]

theorem key_runs_dropped (s : State)
    (h : s.is_touching = false ∨ s.sovc_scr_suspended = false ∨ s.keyworklock = true) :
    ∀ (n : Nat) (t : Int), key_runs n s t = [] := by
  intro n t
  cases n with
  | zero => rfl
  | succ n => simp [key_runs, scroff_volctr_key_dropped s h, stamp, next_due]

theorem scroff_volctr_key_lock (s : State) :
    (scroff_volctr_key s).1.keyworklock = s.keyworklock := by
  cases hc : s.control <;> simp only [scroff_volctr_key, hc] <;> split_ifs <;> rfl

end Sovc

/-- C17: dispatch guard. A run of `scroff_volctr_key` whose contact has been
lifted (`is_touching` false), or whose screen is not suspended, or whose
`keyworklock` is held makes no call (no key event, no re-dispatch scheduled) and
leaves the whole state as it was, so no further run follows; a run of
`doubletap2wake_presspwr` whose `pwrkeyworklock` is held makes no call and
changes nothing; and after a run that is not dropped the lock is free again. -/
theorem dispatch_guard (v : Sovc.State) (d : Dt2w.State) :
    (v.is_touching = false ∨ v.sovc_scr_suspended = false ∨ v.keyworklock = true →
        Sovc.scroff_volctr_key v = (v, [])
          ∧ ∀ (n : Nat) (t : Int), Sovc.key_runs n v t = [])
      ∧ (d.pwrkeyworklock = true → Dt2w.doubletap2wake_presspwr d = (d, []))
      ∧ (v.is_touching = true → v.sovc_scr_suspended = true → v.keyworklock = false →
          (Sovc.scroff_volctr_key v).1.keyworklock = false)
      ∧ (d.pwrkeyworklock = false →
          (Dt2w.doubletap2wake_presspwr d).1.pwrkeyworklock = false) := by
  refine ⟨fun h => ⟨Sovc.scroff_volctr_key_dropped v h, Sovc.key_runs_dropped v h⟩, ?_, ?_, ?_⟩
  · intro h
    simp [Dt2w.doubletap2wake_presspwr, h]
  · intro _ _ hl
    rw [Sovc.scroff_volctr_key_lock, hl]
  · intro h
    simp [Dt2w.doubletap2wake_presspwr, h]

/-- The guard after a lift, with the wake lock held, and the lock after a pulse. -/
theorem dispatch_guard_witness :
    Sovc.scroff_volctr_key volume_lifted = (volume_lifted, [])
      ∧ Dt2w.doubletap2wake_presspwr pulse_in_progress = (pulse_in_progress, [])
      ∧ (Sovc.scroff_volctr_key Sovc.volume_held).1.keyworklock = false :=
  ⟨((dispatch_guard volume_lifted pulse_in_progress).1 (Or.inl (by decide))).1,
   (dispatch_guard volume_lifted pulse_in_progress).2.1 (by decide),
   (dispatch_guard Sovc.volume_held pulse_in_progress).2.2.1 (by decide) (by decide)
     (by decide)⟩

/-- C18 (defect): in `stopped_while_held` the swipe group is not registered and
holds no workqueue and no subscription, yet a run of `scroff_volctr_key` emits a
volume-up pulse and arms the timer again, and so does every later run: the
callback tests `sovc_scr_suspended` and `is_touching` only, and `unregister_sovc`
neither clears `is_touching` nor cancels the key work. -/
theorem key_pulse_after_stop :
    stopped_while_held.registered = false
      ∧ stopped_while_held.sovc_volume_input_handler.subs = 0
      ∧ stopped_while_held.sovc_track_input_handler.subs = 0
      ∧ stopped_while_held.sovc_volume_input_wq.live = 0
      ∧ Sovc.scroff_volctr_key stopped_while_held
        = (stopped_while_held,
           [Call.input_key Key.KEY_VOLUMEUP 1, Call.input_syn, Call.msleep 100,
            Call.input_key Key.KEY_VOLUMEUP 0, Call.input_syn,
            Call.schedule_key_work (some 250)])
      ∧ Sovc.pulse_starts (Sovc.key_runs 3 stopped_while_held 2000) = [2000, 2350, 2700] := by
  decide

/-- C19: pulse shape and key mapping. A run of `scroff_volctr_key` that is not
dropped, with control `VOL_UP`, `VOL_DOWN`, `TRACK_NEXT` or `TRACK_PREVIOUS`
stored, calls in this order: key-down and sync of `KEY_VOLUMEUP`,
`KEY_VOLUMEDOWN`, `KEY_NEXTSONG` or `KEY_PREVIOUSSONG`, `msleep(100)`, key-up and
sync of the same key, then the vibrator (if built in) and the re-dispatch; these
are its only key events; `track_changed` is true afterwards for the two track
controls and nothing else changes, and nothing at all changes for the two volume
controls. A run of `doubletap2wake_presspwr` that is not dropped calls key-down,
sync, key-up, sync of `KEY_POWER`, then the vibrator (if built in), and changes
no state. -/
theorem pulse_shape (v : Sovc.State) (d : Dt2w.State)
    (hs : v.sovc_scr_suspended = true) (ht : v.is_touching = true)
    (hl : v.keyworklock = false) (hd : d.pwrkeyworklock = false) :
    (v.control = Sovc.CONTROL.VOL_UP →
        Sovc.scroff_volctr_key v
            = (v, [Call.input_key Key.KEY_VOLUMEUP 1, Call.input_syn, Call.msleep 100,
                   Call.input_key Key.KEY_VOLUMEUP 0, Call.input_syn]
                  ++ (if v.CONFIG_QPNP_HAPTIC then [Call.qpnp_hap_td_enable 20] else [])
                  ++ [Call.schedule_key_work (some 250)])
          ∧ Sovc.key_events (Sovc.scroff_volctr_key v).2
            = [(Key.KEY_VOLUMEUP, 1), (Key.KEY_VOLUMEUP, 0)])
      ∧ (v.control = Sovc.CONTROL.VOL_DOWN →
        Sovc.scroff_volctr_key v
            = (v, [Call.input_key Key.KEY_VOLUMEDOWN 1, Call.input_syn, Call.msleep 100,
                   Call.input_key Key.KEY_VOLUMEDOWN 0, Call.input_syn]
                  ++ (if v.CONFIG_QPNP_HAPTIC then [Call.qpnp_hap_td_enable 20] else [])
                  ++ [Call.schedule_key_work (some 250)])
          ∧ Sovc.key_events (Sovc.scroff_volctr_key v).2
            = [(Key.KEY_VOLUMEDOWN, 1), (Key.KEY_VOLUMEDOWN, 0)])
      ∧ (v.control = Sovc.CONTROL.TRACK_NEXT →
        Sovc.scroff_volctr_key v
            = ({ v with track_changed := true },
               [Call.input_key Key.KEY_NEXTSONG 1, Call.input_syn, Call.msleep 100,
                Call.input_key Key.KEY_NEXTSONG 0, Call.input_syn]
                  ++ (if v.CONFIG_QPNP_HAPTIC then [Call.qpnp_hap_td_enable 20] else [])
                  ++ [Call.schedule_key_work (some 4000)])
          ∧ Sovc.key_events (Sovc.scroff_volctr_key v).2
            = [(Key.KEY_NEXTSONG, 1), (Key.KEY_NEXTSONG, 0)])
      ∧ (v.control = Sovc.CONTROL.TRACK_PREVIOUS →
        Sovc.scroff_volctr_key v
            = ({ v with track_changed := true },
               [Call.input_key Key.KEY_PREVIOUSSONG 1, Call.input_syn, Call.msleep 100,
                Call.input_key Key.KEY_PREVIOUSSONG 0, Call.input_syn]
                  ++ (if v.CONFIG_QPNP_HAPTIC then [Call.qpnp_hap_td_enable 20] else [])
                  ++ [Call.schedule_key_work (some 4000)])
          ∧ Sovc.key_events (Sovc.scroff_volctr_key v).2
            = [(Key.KEY_PREVIOUSSONG, 1), (Key.KEY_PREVIOUSSONG, 0)])
      ∧ Dt2w.doubletap2wake_presspwr d
          = (d, [Call.input_key Key.KEY_POWER 1, Call.input_syn,
                 Call.input_key Key.KEY_POWER 0, Call.input_syn]
                ++ (if d.CONFIG_QPNP_HAPTIC then [Call.qpnp_hap_td_enable 20] else []))
      ∧ Sovc.key_events (Dt2w.doubletap2wake_presspwr d).2
          = [(Key.KEY_POWER, 1), (Key.KEY_POWER, 0)] := by
  refine ⟨?_, ?_, ?_, ?_, ?_, ?_⟩
  · intro hc
    cases hh : v.CONFIG_QPNP_HAPTIC <;>
      simp [Sovc.scroff_volctr_key, Sovc.scroff_volctr_key_delayed_trigger, Sovc.key_pulse,
        Sovc.key_events, hs, ht, hl, hc, hh, Sovc.SOVC_KEY_PRESS_DUR, Sovc.SOVC_VIB_STRENGTH,
        Sovc.SOVC_VOL_REEXEC_DELAY]
  · intro hc
    cases hh : v.CONFIG_QPNP_HAPTIC <;>
      simp [Sovc.scroff_volctr_key, Sovc.scroff_volctr_key_delayed_trigger, Sovc.key_pulse,
        Sovc.key_events, hs, ht, hl, hc, hh, Sovc.SOVC_KEY_PRESS_DUR, Sovc.SOVC_VIB_STRENGTH,
        Sovc.SOVC_VOL_REEXEC_DELAY]
  · intro hc
    cases hh : v.CONFIG_QPNP_HAPTIC <;>
      simp [Sovc.scroff_volctr_key, Sovc.scroff_volctr_key_delayed_trigger, Sovc.key_pulse,
        Sovc.key_events, hs, ht, hl, hc, hh, Sovc.SOVC_KEY_PRESS_DUR, Sovc.SOVC_VIB_STRENGTH,
        Sovc.SOVC_TRACK_REEXEC_DELAY]
  · intro hc
    cases hh : v.CONFIG_QPNP_HAPTIC <;>
      simp [Sovc.scroff_volctr_key, Sovc.scroff_volctr_key_delayed_trigger, Sovc.key_pulse,
        Sovc.key_events, hs, ht, hl, hc, hh, Sovc.SOVC_KEY_PRESS_DUR, Sovc.SOVC_VIB_STRENGTH,
        Sovc.SOVC_TRACK_REEXEC_DELAY]
  · cases hh : d.CONFIG_QPNP_HAPTIC <;>
      simp [Dt2w.doubletap2wake_presspwr, hd, hh, Dt2w.DT2W_VIB_STRENGTH]
  · cases hh : d.CONFIG_QPNP_HAPTIC <;>
      simp [Dt2w.doubletap2wake_presspwr, Sovc.key_events, hd, hh]

/-- The pulse at `volume_held` and the wake pulse at the initial tap state. -/
theorem pulse_shape_witness :
    Sovc.key_events (Sovc.scroff_volctr_key Sovc.volume_held).2
        = [(Key.KEY_VOLUMEUP, 1), (Key.KEY_VOLUMEUP, 0)]
      ∧ Sovc.key_events (Dt2w.doubletap2wake_presspwr (Dt2w.init false)).2
        = [(Key.KEY_POWER, 1), (Key.KEY_POWER, 0)] :=
  ⟨((pulse_shape Sovc.volume_held (Dt2w.init false) (by decide) (by decide) (by decide)
      (by decide)).1 (by decide)).2,
   (pulse_shape Sovc.volume_held (Dt2w.init false) (by decide) (by decide) (by decide)
      (by decide)).2.2.2.2.2⟩

/-! ## Theorems for: Display-power handlers: forced-off (C20) -/

/-- C20, as stated, fails: with `sovc_force_off` set, `sovc_switch` and the
temporary switch on and mic clear, the display-off handling unregisters the swipe
group and registers it again, so the group is registered when the handler
returns. -/
theorem forced_off_restarts :
    forced_off_swipe.sovc_force_off = true ∧ forced_off_swipe.sovc_switch = 1
      ∧ forced_off_swipe.sovc_tmp_onoff = 1 ∧ forced_off_swipe.sovc_mic_detected = false
      ∧ (Sovc.sovc_fb_notifier_callback forced_off_swipe
          (FbEvent.FB_EVENT_BLANK Blank.FB_BLANK_POWERDOWN) true true 0 0).1.registered = true := by
  decide

/-- C20 (amended): forced-off at display off. Whenever `sovc_force_off` is set
when the swipe group's display-off handling runs with `sovc_switch` non-zero,
the handler does what it does on the stopped group (it unregisters first); so
the group is not registered when the handler returns if `sovc_mic_detected` is
set or neither `track_changed` nor `sovc_tmp_onoff` holds, and it is registered
again (when the start succeeds) if `track_changed` or `sovc_tmp_onoff` holds and
`sovc_mic_detected` is clear. With `sovc_switch` at 0 the handler changes nothing. -/
theorem forced_off_display_off (v : Sovc.State) (hf : v.sovc_force_off = true) :
    (v.sovc_switch ≠ 0 →
        (∀ (ok1 ok2 : Bool) (rc1 rc2 : Int),
          Sovc.sovc_fb_notifier_callback v (FbEvent.FB_EVENT_BLANK Blank.FB_BLANK_POWERDOWN)
              ok1 ok2 rc1 rc2
            = Sovc.sovc_fb_notifier_callback (Sovc.unregister_sovc v)
                (FbEvent.FB_EVENT_BLANK Blank.FB_BLANK_POWERDOWN) ok1 ok2 rc1 rc2)
          ∧ (v.sovc_mic_detected = true ∨ (v.track_changed = false ∧ v.sovc_tmp_onoff = 0) →
              ∀ (ok1 ok2 : Bool) (rc1 rc2 : Int),
                (Sovc.sovc_fb_notifier_callback v
                  (FbEvent.FB_EVENT_BLANK Blank.FB_BLANK_POWERDOWN) ok1 ok2 rc1 rc2).1.registered
                  = false)
          ∧ (v.sovc_mic_detected = false → (v.track_changed = true ∨ v.sovc_tmp_onoff ≠ 0) →
              (Sovc.sovc_fb_notifier_callback v
                (FbEvent.FB_EVENT_BLANK Blank.FB_BLANK_POWERDOWN) true true 0 0).1.registered
                = true))
      ∧ (v.sovc_switch = 0 →
          ∀ (ok1 ok2 : Bool) (rc1 rc2 : Int),
            Sovc.sovc_fb_notifier_callback v (FbEvent.FB_EVENT_BLANK Blank.FB_BLANK_POWERDOWN)
              ok1 ok2 rc1 rc2 = (v, 0)) := by
  refine ⟨?_, ?_⟩
  · intro hsw
    refine ⟨?_, ?_, ?_⟩
    · intro ok1 ok2 rc1 rc2
      cases hr : v.registered <;>
        simp [Sovc.sovc_fb_notifier_callback, Sovc.unregister_sovc, hsw, hf, hr]
    · intro hcond ok1 ok2 rc1 rc2
      rcases hcond with hmic | ⟨htc, htmp⟩
      · cases hr : v.registered <;>
          by_cases hc : v.track_changed = true ∨ ¬ v.sovc_tmp_onoff = 0 <;>
          simp [Sovc.sovc_fb_notifier_callback, Sovc.unregister_sovc, hsw, hf, hr, hmic, hc]
      · cases hr : v.registered <;>
          simp [Sovc.sovc_fb_notifier_callback, Sovc.unregister_sovc, hsw, hf, hr, htc, htmp]
    · intro hmic hcond
      have hc : v.track_changed = true ∨ ¬ v.sovc_tmp_onoff = 0 := hcond
      cases hr : v.registered <;>
        simp [Sovc.sovc_fb_notifier_callback, Sovc.unregister_sovc, Sovc.register_sovc,
          create_workqueue, Sovc.scroff_volctr_reset, hsw, hf, hr, hmic, hc]
  · intro hsw ok1 ok2 rc1 rc2
    simp [Sovc.sovc_fb_notifier_callback, hsw]

/-- Forced-off display-off handling with the mic detected stops the group. -/
theorem forced_off_display_off_witness :
    (Sovc.sovc_fb_notifier_callback forced_off_mic_swipe
        (FbEvent.FB_EVENT_BLANK Blank.FB_BLANK_POWERDOWN) true true 0 0).1.registered = false :=
  ((forced_off_display_off forced_off_mic_swipe (by decide)).1 (by decide)).2.1
    (Or.inl (by decide)) true true 0 0

/-! ## Theorems for: Lifecycle: start and the detector state (C21) -/

/-- A successful start of the swipe group leaves its detector state reset. -/
theorem register_sovc_start_resets (v : Sovc.State) (hun : v.registered = false) :
    (Sovc.register_sovc v true true 0 0).2 = 0
      ∧ (Sovc.register_sovc v true true 0 0).1.registered = true
      ∧ (Sovc.register_sovc v true true 0 0).1.is_touching = false
      ∧ (Sovc.register_sovc v true true 0 0).1.is_new_touch_x = false
      ∧ (Sovc.register_sovc v true true 0 0).1.is_new_touch_y = false
      ∧ (Sovc.register_sovc v true true 0 0).1.control = Sovc.CONTROL.NO_CONTROL := by
  simp [Sovc.register_sovc, hun, create_workqueue, Sovc.scroff_volctr_reset]

/-- A successful start of the tap group changes the registration and its
resources only: the tap state is what it was. -/
theorem register_dt2w_start_keeps_tap_state (d : Dt2w.State) (hun : d.registered = false) :
    (Dt2w.register_dt2w d true 0).2 = 0
      ∧ (Dt2w.register_dt2w d true 0).1
        = { d with dt2w_input_wq := create_workqueue d.dt2w_input_wq true,
                   dt2w_input_handler := input_register_handler d.dt2w_input_handler 0,
                   registered := true } := by
  simp [Dt2w.register_dt2w, hun, create_workqueue]

/-- C21 (defect in `register_dt2w`): the tap group is not registered in
`tapped_then_stopped`; `register_dt2w` succeeds on it and registers the group,
but the tap state is not reset: the count is still 1 and the reference is still
the tap at (100, 100) of 1000 ms. So after the display-off that starts the group
again, a single tap evaluated at 1150 ms schedules the power-key work. -/
theorem start_keeps_tap_count :
    tapped_then_stopped.registered = false
      ∧ (Dt2w.register_dt2w tapped_then_stopped true 0).2 = 0
      ∧ (Dt2w.register_dt2w tapped_then_stopped true 0).1.registered = true
      ∧ (Dt2w.register_dt2w tapped_then_stopped true 0).1.touch_nr = 1
      ∧ (Dt2w.register_dt2w tapped_then_stopped true 0).1.tap_time_pre = 1000
      ∧ (Dt2w.register_dt2w tapped_then_stopped true 0).1.x_pre = 100
      ∧ (Dt2w.register_dt2w tapped_then_stopped true 0).1.y_pre = 100
      ∧ tapped_then_restarted.registered = true ∧ tapped_then_restarted.touch_nr = 1
      ∧ tapped_then_restarted.dt2w_switch = 1
      ∧ (Dt2w.dt2w_input_callback tapped_then_restarted 1150).2
          = [Call.schedule_presspwr_work] := by
  decide

/-! ## Theorems for: Swipe detector: first sample (C22), shared actuation (C25), event gate (C26) -/

namespace Sovc

/-- C22: the first swipe sample only records the reference. On an axis with no
reference recorded and no gesture fired, evaluating the stored sample at `now`
records it, with `now`, as the reference of that axis and makes no call at all
(no key action, no touch-power-off request), for every coordinate and every
auto-off delay from 0 upwards, so for every delay in 1000..60000. -/
theorem first_sample_records_reference (s : State) (now : Int)
    (hfree : s.is_touching = false) (hdelay : 0 ≤ s.sovc_auto_off_delay) :
    (s.is_new_touch_y = false →
        sovc_volume_input_callback s now
          = ({ s with touch_time_pre_y := now, is_new_touch_y := true, prev_y := s.touch_y },
             []))
      ∧ (s.is_new_touch_x = false →
        sovc_track_input_callback s now
          = ({ s with touch_time_pre_x := now, is_new_touch_x := true, prev_x := s.touch_x },
             [])) := by
  have hnot : ¬ (0 : Int) > s.sovc_auto_off_delay := by omega
  refine ⟨?_, ?_⟩
  · intro hnew
    simp [sovc_volume_input_callback, new_touch_y, hfree, hnew, hnot]
  · intro hnew
    simp [sovc_track_input_callback, new_touch_x, hfree, hnew, hnot]

/-- The first sample of each axis at `first_sample_state`, evaluated at 5000 ms. -/
theorem first_sample_records_reference_witness :
    sovc_volume_input_callback first_sample_state 5000
        = ({ first_sample_state with
              touch_time_pre_y := 5000, is_new_touch_y := true, prev_y := 1200 }, [])
      ∧ sovc_track_input_callback first_sample_state 5000
        = ({ first_sample_state with
              touch_time_pre_x := 5000, is_new_touch_x := true, prev_x := 300 }, []) :=
  ⟨(first_sample_records_reference first_sample_state 5000 (by decide) (by decide)).1
      (by decide),
   (first_sample_records_reference first_sample_state 5000 (by decide) (by decide)).2
      (by decide)⟩

theorem evaluate_actuating (s : State) (a : Axis) (now : Int) (h : s.is_touching = true) :
    evaluate s a now = (s, []) := by
  cases a <;> simp [evaluate, sovc_volume_input_callback, sovc_track_input_callback, h]

theorem run_evaluations_actuating (evals : List (Axis × Int)) :
    ∀ s : State, s.is_touching = true → run_evaluations s evals = (s, []) := by
  induction evals with
  | nil => intro s _; rfl
  | cons e rest ih =>
    intro s h
    simp [run_evaluations, evaluate_actuating s e.1 e.2 h, ih s h]

theorem key_triggers_touch_off (s : State) : key_triggers (touch_off s).2 = 0 := by
  cases hf : s.sovc_force_off <;> cases hh : s.CONFIG_QPNP_HAPTIC <;>
    simp [touch_off, key_triggers, hf, hh]

theorem touch_off_idle (s : State) (h : Idle s) : Idle (touch_off s).1 := by
  obtain ⟨h1, h2⟩ := h
  cases hf : s.sovc_force_off <;> simp [touch_off, Idle, hf, h1, h2]

/-- One evaluation from an idle detector either leaves it idle without a call of
`exec_key`, or fires with exactly one. -/
theorem evaluate_idle (s : State) (a : Axis) (now : Int) (h : Idle s) :
    (Idle (evaluate s a now).1 ∧ key_triggers (evaluate s a now).2 = 0)
      ∨ (Fired (evaluate s a now).1 ∧ key_triggers (evaluate s a now).2 = 1) := by
  obtain ⟨h1, h2⟩ := h
  cases a
  · simp only [evaluate, sovc_volume_input_callback, h1]
    simp only [Bool.not_false, if_true]
    split_ifs
    all_goals first
      | (right; simp [exec_key, Fired, key_triggers, scroff_volctr_key_trigger]; done)
      | (left; exact ⟨touch_off_idle _ (by simp [Idle, new_touch_y, h1, h2]),
          key_triggers_touch_off _⟩)
      | (left; exact ⟨by simp [Idle, new_touch_y, h1, h2], by simp [key_triggers]⟩)
  · simp only [evaluate, sovc_track_input_callback, h1]
    simp only [Bool.not_false, if_true]
    split_ifs
    all_goals first
      | (right; simp [exec_key, Fired, key_triggers, scroff_volctr_key_trigger]; done)
      | (left; exact ⟨touch_off_idle _ (by simp [Idle, new_touch_x, h1, h2]),
          key_triggers_touch_off _⟩)
      | (left; exact ⟨by simp [Idle, new_touch_x, h1, h2], by simp [key_triggers]⟩)

theorem key_triggers_append (a b : List Call) :
    key_triggers (a ++ b) = key_triggers a + key_triggers b := by
  simp [key_triggers, List.countP_append]

theorem key_triggers_key_work (s : State) : key_triggers (scroff_volctr_key s).2 = 0 := by
  cases h1 : s.sovc_scr_suspended <;> cases h2 : s.is_touching <;> cases h3 : s.keyworklock <;>
    cases h4 : s.control <;> cases h5 : s.CONFIG_QPNP_HAPTIC <;>
    simp [scroff_volctr_key, key_triggers, key_pulse, scroff_volctr_key_delayed_trigger,
      SOVC_VOL_REEXEC_DELAY, SOVC_TRACK_REEXEC_DELAY, h1, h2, h3, h4, h5]

theorem touch_off_requests_key_work (s : State) :
    touch_off_requests (scroff_volctr_key s).2 = 0 := by
  cases h1 : s.sovc_scr_suspended <;> cases h2 : s.is_touching <;> cases h3 : s.keyworklock <;>
    cases h4 : s.control <;> cases h5 : s.CONFIG_QPNP_HAPTIC <;>
    simp [scroff_volctr_key, touch_off_requests, key_pulse, scroff_volctr_key_delayed_trigger,
      h1, h2, h3, h4, h5]

theorem key_work_keeps_control (s : State) :
    (scroff_volctr_key s).1.is_touching = s.is_touching
      ∧ (scroff_volctr_key s).1.control = s.control := by
  unfold scroff_volctr_key
  cases hc : s.control <;> simp only [] <;> split_ifs <;>
    first | exact ⟨rfl, hc⟩ | exact ⟨rfl, rfl⟩

theorem common_event_no_reset (s : State) (code : EvCode) (value : Int)
    (h : code ≠ EvCode.ABS_MT_SLOT
      ∧ ¬ (code = EvCode.ABS_MT_TRACKING_ID ∧ value % 4294967296 = 4294967295)) :
    (sovc_input_common_event s code value).1 = s := by
  obtain ⟨h1, h2⟩ := h
  unfold sovc_input_common_event
  cases code <;> simp only [] <;> split_ifs <;> first | rfl | exact absurd rfl h1 | simp_all

/-- An item that cannot reset leaves `is_touching` and the stored control as they
are unless it is an evaluation, and calls neither `exec_key` nor `touch_off`. -/
theorem input_no_reset (s : State) (i : Input) (h : NoReset (Feed.input i)) :
    (deliver s i).1.is_touching = s.is_touching
      ∧ (deliver s i).1.control = s.control
      ∧ key_triggers (deliver s i).2 = 0
      ∧ touch_off_requests (deliver s i).2 = 0 := by
  cases i with
  | volume_event code value =>
    have hc := common_event_no_reset s code value h
    simp only [deliver, sovc_volume_input_event, hc]
    cases code <;> simp only [] <;> split_ifs <;>
      simp [key_triggers, touch_off_requests]
  | track_event code value =>
    have hc := common_event_no_reset s code value h
    simp only [deliver, sovc_track_input_event, hc]
    cases code <;> simp only [] <;> split_ifs <;>
      simp [key_triggers, touch_off_requests]
  | key_work =>
    exact ⟨(key_work_keeps_control s).1, (key_work_keeps_control s).2,
      key_triggers_key_work s, touch_off_requests_key_work s⟩

theorem feed_actuating (s : State) (f : Feed) (hn : NoReset f) (h : s.is_touching = true) :
    (feed s f).1.is_touching = true
      ∧ (feed s f).1.control = s.control
      ∧ key_triggers (feed s f).2 = 0
      ∧ touch_off_requests (feed s f).2 = 0 := by
  cases f with
  | input i =>
    obtain ⟨a, b, c, d⟩ := input_no_reset s i hn
    exact ⟨by rw [feed, a, h], b, c, d⟩
  | evaluation a now =>
    simp [feed, evaluate_actuating s a now h, h, key_triggers, touch_off_requests]

theorem touch_off_requests_append (a b : List Call) :
    touch_off_requests (a ++ b) = touch_off_requests a + touch_off_requests b := by
  simp [touch_off_requests, List.countP_append]

theorem run_feed_actuating (feeds : List Feed) :
    ∀ s : State, (∀ f ∈ feeds, NoReset f) → s.is_touching = true →
      (run_feed s feeds).1.is_touching = true
        ∧ (run_feed s feeds).1.control = s.control
        ∧ key_triggers (run_feed s feeds).2 = 0
        ∧ touch_off_requests (run_feed s feeds).2 = 0 := by
  induction feeds with
  | nil => intro s _ h; exact ⟨h, rfl, rfl, rfl⟩
  | cons f rest ih =>
    intro s hn h
    obtain ⟨a, b, c, d⟩ := feed_actuating s f (hn f (List.mem_cons_self _ _)) h
    obtain ⟨a2, b2, c2, d2⟩ := ih (feed s f).1 (fun g hg => hn g (List.mem_cons_of_mem _ hg)) a
    simp only [run_feed, key_triggers_append, touch_off_requests_append]
    exact ⟨a2, by rw [b2, b], by omega, by omega⟩

theorem feed_idle (s : State) (f : Feed) (hn : NoReset f) (h : Idle s) :
    (Idle (feed s f).1 ∧ key_triggers (feed s f).2 = 0)
      ∨ (Fired (feed s f).1 ∧ key_triggers (feed s f).2 = 1) := by
  cases f with
  | input i =>
    obtain ⟨a, b, c, _⟩ := input_no_reset s i hn
    left
    exact ⟨⟨by rw [feed, a, h.1], by rw [feed, b, h.2]⟩, c⟩
  | evaluation a now => exact evaluate_idle s a now h

theorem run_feed_idle (feeds : List Feed) :
    ∀ s : State, (∀ f ∈ feeds, NoReset f) → Idle s →
      (Idle (run_feed s feeds).1 ∧ key_triggers (run_feed s feeds).2 = 0)
        ∨ (Fired (run_feed s feeds).1 ∧ key_triggers (run_feed s feeds).2 = 1) := by
  induction feeds with
  | nil => intro s _ h; left; exact ⟨h, rfl⟩
  | cons f rest ih =>
    intro s hn h
    have hrest : ∀ g ∈ rest, NoReset g := fun g hg => hn g (List.mem_cons_of_mem _ hg)
    simp only [run_feed, key_triggers_append]
    rcases feed_idle s f (hn f (List.mem_cons_self _ _)) h with ⟨hi, h0⟩ | ⟨hf, h1⟩
    · rcases ih _ hrest hi with ⟨hi2, h02⟩ | ⟨hf2, h12⟩
      · left; exact ⟨hi2, by omega⟩
      · right; exact ⟨hf2, by omega⟩
    · right
      obtain ⟨a, b, c, _⟩ := run_feed_actuating rest _ hrest hf.1
      exact ⟨⟨a, by rw [b]; exact hf.2⟩, by omega⟩

/-- C25: actuation is shared by both swipe axes. Once either axis has fired
(`is_touching` set), every evaluation of the volume callback and of the track
callback, and every sequence of them, makes no call and leaves the whole state
as it was; and over every feed of events, evaluations and runs of the key work
in which nothing runs `scroff_volctr_reset`, the detector stays actuating with
the same control stored and neither `exec_key` nor `touch_off` is called. Hence
over every such feed after a reset `exec_key` is called at most once; it was
called exactly once iff the detector is actuating at the end, and then one of
the four controls is stored; otherwise `NO_CONTROL` is. -/
theorem actuation_shared (s : State) (evals : List (Axis × Int)) (feeds : List Feed) :
    (s.is_touching = true →
        (∀ (a : Axis) (now : Int), evaluate s a now = (s, []))
          ∧ run_evaluations s evals = (s, [])
          ∧ ((∀ f ∈ feeds, NoReset f) →
              (run_feed s feeds).1.is_touching = true
                ∧ (run_feed s feeds).1.control = s.control
                ∧ key_triggers (run_feed s feeds).2 = 0
                ∧ touch_off_requests (run_feed s feeds).2 = 0))
      ∧ ((∀ f ∈ feeds, NoReset f) →
          key_triggers (run_feed (scroff_volctr_reset s) feeds).2 ≤ 1
            ∧ (key_triggers (run_feed (scroff_volctr_reset s) feeds).2 = 1
                ↔ (run_feed (scroff_volctr_reset s) feeds).1.is_touching = true)
            ∧ ((run_feed (scroff_volctr_reset s) feeds).1.is_touching = true →
                Fired (run_feed (scroff_volctr_reset s) feeds).1)
            ∧ ((run_feed (scroff_volctr_reset s) feeds).1.is_touching = false →
                (run_feed (scroff_volctr_reset s) feeds).1.control = CONTROL.NO_CONTROL)) := by
  have hidle : Idle (scroff_volctr_reset s) := ⟨rfl, rfl⟩
  refine ⟨fun h => ⟨fun a now => evaluate_actuating s a now h,
    run_evaluations_actuating evals s h, fun hn => run_feed_actuating feeds s hn h⟩, ?_⟩
  intro hn
  rcases run_feed_idle feeds _ hn hidle with ⟨hi, h0⟩ | ⟨hf, h1⟩
  · refine ⟨by omega, ?_, ?_, ?_⟩
    · rw [h0, hi.1]; simp
    · intro ht; rw [hi.1] at ht; exact absurd ht (by decide)
    · intro _; exact hi.2
  · refine ⟨by omega, ?_, ?_, ?_⟩
    · rw [h1, hf.1]; simp
    · intro _; exact hf
    · intro ht; rw [hf.1] at ht; exact absurd ht (by decide)

/-- The feed `two_axis_feed` after a reset of the started swipe group: the upward
swipe fires `VOL_UP`, and the later leftward swipe on the track axis fires
nothing more, so `exec_key` is called exactly once. -/
theorem actuation_shared_witness :
    (run_feed (scroff_volctr_reset enabled_swipe) two_axis_feed).1.control = CONTROL.VOL_UP
      ∧ key_triggers (run_feed (scroff_volctr_reset enabled_swipe) two_axis_feed).2 = 1
      ∧ Fired (run_feed (scroff_volctr_reset enabled_swipe) two_axis_feed).1
      ∧ run_evaluations (exec_key swipe_state CONTROL.VOL_UP).1 [(Axis.track, 5200)]
        = ((exec_key swipe_state CONTROL.VOL_UP).1, []) :=
  ⟨by decide,
   ((actuation_shared enabled_swipe [] two_axis_feed).2 (by decide)).2.1.mpr (by decide),
   ((actuation_shared enabled_swipe [] two_axis_feed).2 (by decide)).2.2.1 (by decide),
   ((actuation_shared (exec_key swipe_state CONTROL.VOL_UP).1 [(Axis.track, 5200)] []).1
      (by decide)).2.1⟩

theorem deliver_gated (s : State) (i : Input) (hi : i ≠ Input.key_work)
    (h : s.sovc_switch = 0 ∨ s.sovc_scr_suspended = false ∨ s.sovc_tmp_onoff = 0) :
    deliver s i = (s, []) := by
  cases i with
  | key_work => exact absurd rfl hi
  | volume_event code value =>
    by_cases hsw : s.sovc_switch = 0
    · simp [deliver, sovc_volume_input_event, sovc_input_common_event, hsw]
    · rcases h with h | h | h
      · exact absurd h hsw
      · simp [deliver, sovc_volume_input_event, sovc_input_common_event, hsw, h]
      · simp [deliver, sovc_volume_input_event, sovc_input_common_event, hsw, h]
  | track_event code value =>
    by_cases hsw : s.sovc_switch = 0
    · simp [deliver, sovc_track_input_event, sovc_input_common_event, hsw]
    · rcases h with h | h | h
      · exact absurd h hsw
      · simp [deliver, sovc_track_input_event, sovc_input_common_event, hsw, h]
      · simp [deliver, sovc_track_input_event, sovc_input_common_event, hsw, h]

theorem run_inputs_gated (inputs : List Input) :
    ∀ s : State, (∀ i ∈ inputs, i ≠ Input.key_work) →
      (s.sovc_switch = 0 ∨ s.sovc_scr_suspended = false ∨ s.sovc_tmp_onoff = 0) →
      run_inputs s inputs = (s, []) := by
  induction inputs with
  | nil => intro s _ _; rfl
  | cons i rest ih =>
    intro s hall h
    have h1 := deliver_gated s i (hall i (List.mem_cons_self _ _)) h
    have h2 := ih s (fun j hj => hall j (List.mem_cons_of_mem _ hj)) h
    simp [run_inputs, h1, h2]

/-- C26: swipe events need the temporary switch. An event to the volume handler
or to the track handler is ignored (no call, whole state unchanged) whenever
`sovc_switch` is 0, or the screen is not suspended, or `sovc_tmp_onoff` is 0, and
so is every stream of such events; hence a handler acts on an event (changes the
state or queues an evaluation) only if all three hold. This does not depend on
the registration: it holds when the group is registered. -/
theorem swipe_events_need_temp_switch (s : State) (code : EvCode) (value : Int)
    (inputs : List Input) :
    (s.sovc_switch = 0 ∨ s.sovc_scr_suspended = false ∨ s.sovc_tmp_onoff = 0 →
        sovc_volume_input_event s code value = (s, [])
          ∧ sovc_track_input_event s code value = (s, [])
          ∧ ((∀ i ∈ inputs, i ≠ Input.key_work) → run_inputs s inputs = (s, [])))
      ∧ (sovc_volume_input_event s code value ≠ (s, []) →
          s.sovc_switch ≠ 0 ∧ s.sovc_scr_suspended = true ∧ s.sovc_tmp_onoff ≠ 0)
      ∧ (sovc_track_input_event s code value ≠ (s, []) →
          s.sovc_switch ≠ 0 ∧ s.sovc_scr_suspended = true ∧ s.sovc_tmp_onoff ≠ 0) := by
  have hgate : s.sovc_switch = 0 ∨ s.sovc_scr_suspended = false ∨ s.sovc_tmp_onoff = 0 →
      sovc_volume_input_event s code value = (s, [])
        ∧ sovc_track_input_event s code value = (s, []) := by
    intro h
    exact ⟨deliver_gated s (Input.volume_event code value) (by simp) h,
      deliver_gated s (Input.track_event code value) (by simp) h⟩
  have hconv : ¬ (s.sovc_switch = 0 ∨ s.sovc_scr_suspended = false ∨ s.sovc_tmp_onoff = 0) →
      s.sovc_switch ≠ 0 ∧ s.sovc_scr_suspended = true ∧ s.sovc_tmp_onoff ≠ 0 := by
    intro h
    refine ⟨fun h0 => h (Or.inl h0), ?_, fun h0 => h (Or.inr (Or.inr h0))⟩
    cases hs : s.sovc_scr_suspended
    · exact absurd (Or.inr (Or.inl hs)) h
    · rfl
  refine ⟨fun h => ⟨(hgate h).1, (hgate h).2, fun hall => run_inputs_gated inputs s hall h⟩,
    ?_, ?_⟩
  · intro hne
    apply hconv
    intro h
    exact hne (hgate h).1
  · intro hne
    apply hconv
    intro h
    exact hne (hgate h).2

/-- At `track_started_swipe` the group is registered and the screen suspended,
and a position event is ignored by both handlers. -/
theorem swipe_events_need_temp_switch_witness :
    track_started_swipe.registered = true ∧ track_started_swipe.sovc_scr_suspended = true
      ∧ sovc_volume_input_event track_started_swipe EvCode.ABS_MT_POSITION_Y 500
        = (track_started_swipe, [])
      ∧ sovc_track_input_event track_started_swipe EvCode.ABS_MT_POSITION_Y 500
        = (track_started_swipe, []) :=
  ⟨by decide, by decide,
   ((swipe_events_need_temp_switch track_started_swipe EvCode.ABS_MT_POSITION_Y 500 []).1
      (Or.inr (Or.inr (by decide)))).1,
   ((swipe_events_need_temp_switch track_started_swipe EvCode.ABS_MT_POSITION_Y 500 []).1
      (Or.inr (Or.inr (by decide)))).2.1⟩

end Sovc

/-! ## Theorems for: Tap detector: one tap per contact (C23), temporary switch (C24) -/

namespace Dt2w

theorem detect_touching (s : State) (x y now : Int) (h : s.is_touching = true) :
    detect_doubletap2wake s x y now = (s, []) := by
  cases hs : s.scr_suspended <;> simp [detect_doubletap2wake, h, hs]

theorem detect_count_step_flags (s : State) (x y now : Int) :
    (detect_count_step s x y now).is_touching = s.is_touching
      ∧ (detect_count_step s x y now).scr_suspended = s.scr_suspended := by
  unfold detect_count_step new_touch doubletap2wake_reset
  split_ifs <;> exact ⟨rfl, rfl⟩

theorem detect_fire_step_flags (s : State) :
    (detect_fire_step s).1.is_touching = s.is_touching
      ∧ (detect_fire_step s).1.scr_suspended = s.scr_suspended := by
  unfold detect_fire_step doubletap2wake_reset
  split_ifs <;> exact ⟨rfl, rfl⟩

theorem detect_sets_touching (s : State) (x y now : Int)
    (hs : s.scr_suspended = true) (hf : s.is_touching = false) :
    (detect_doubletap2wake s x y now).1.is_touching = true
      ∧ (detect_doubletap2wake s x y now).1.scr_suspended = true := by
  rw [(detect_eq_fire_counted s x y now hs hf).2]
  simp only [(detect_fire_step_flags _).1, (detect_fire_step_flags _).2, counted,
    (detect_count_step_flags _ _ _ _).1, (detect_count_step_flags _ _ _ _).2, hs, and_self]

/-- While a contact is tracked, position events and evaluations leave the count,
the reference and `is_touching` as they were and only queue the evaluation. -/
theorem deliver_touching (s : State) (i : Input) (h : s.is_touching = true)
    (hi : ∀ value, i ≠ Input.event EvCode.ABS_MT_TRACKING_ID value)
    (hj : ∀ value, i ≠ Input.event EvCode.ABS_MT_SLOT value) :
    (deliver s i).1.is_touching = true
      ∧ (deliver s i).1.touch_nr = s.touch_nr
      ∧ (deliver s i).1.tap_time_pre = s.tap_time_pre
      ∧ (deliver s i).1.x_pre = s.x_pre
      ∧ (deliver s i).1.y_pre = s.y_pre
      ∧ Call.schedule_presspwr_work ∉ (deliver s i).2 := by
  cases i with
  | evaluate now => simp [deliver, dt2w_input_callback, detect_touching _ _ _ _ h, h]
  | sample x y now => simp [deliver, detect_touching _ _ _ _ h, h]
  | event code value =>
    cases code with
    | ABS_MT_TRACKING_ID => exact absurd rfl (hi value)
    | ABS_MT_SLOT => exact absurd rfl (hj value)
    | ABS_MT_POSITION_X =>
      simp only [deliver, dt2w_input_event]
      split_ifs <;> simp [h]
    | ABS_MT_POSITION_Y =>
      simp only [deliver, dt2w_input_event]
      split_ifs <;> simp [h]
    | other =>
      simp only [deliver, dt2w_input_event]
      split_ifs <;> simp [h]

/-- C23: at most one counted tap per contact. `detect_doubletap2wake` with
`is_touching` set makes no call and changes nothing; when it does change the
state, `is_touching` was clear before and is set after; so a second sample
evaluated after any first one, whatever its coordinates and time, makes no call
and changes nothing more: two samples of a contact give the state and the
trigger of the first alone. Position events in between only store the coordinate
and queue the evaluation. -/
theorem one_tap_per_contact (s : State) (x y now x2 y2 now2 : Int) (i : Input) :
    (s.is_touching = true → detect_doubletap2wake s x y now = (s, []))
      ∧ ((detect_doubletap2wake s x y now).1 ≠ s →
          s.is_touching = false ∧ (detect_doubletap2wake s x y now).1.is_touching = true)
      ∧ detect_doubletap2wake (detect_doubletap2wake s x y now).1 x2 y2 now2
          = ((detect_doubletap2wake s x y now).1, [])
      ∧ (s.is_touching = true →
          (∀ value, i ≠ Input.event EvCode.ABS_MT_TRACKING_ID value) →
          (∀ value, i ≠ Input.event EvCode.ABS_MT_SLOT value) →
          (deliver s i).1.is_touching = true
            ∧ (deliver s i).1.touch_nr = s.touch_nr
            ∧ (deliver s i).1.tap_time_pre = s.tap_time_pre
            ∧ (deliver s i).1.x_pre = s.x_pre
            ∧ (deliver s i).1.y_pre = s.y_pre
            ∧ Call.schedule_presspwr_work ∉ (deliver s i).2) := by
  refine ⟨detect_touching s x y now, ?_, ?_, fun h hi hj => deliver_touching s i h hi hj⟩
  · intro hne
    cases ht : s.is_touching
    · cases hs : s.scr_suspended
      · exact absurd (by simp [detect_doubletap2wake, hs]) hne
      · exact ⟨rfl, (detect_sets_touching s x y now hs ht).1⟩
    · exact absurd (by rw [detect_touching s x y now ht]) hne
  · cases ht : s.is_touching
    · cases hs : s.scr_suspended
      · have h0 : detect_doubletap2wake s x y now = (s, []) := by
          simp [detect_doubletap2wake, hs]
        rw [h0]
        simp [detect_doubletap2wake, hs]
      · exact detect_touching _ _ _ _ (detect_sets_touching s x y now hs ht).1
    · rw [detect_touching s x y now ht]
      exact detect_touching s x2 y2 now2 ht

/-- Two samples of one contact at `counting_state`: the second changes nothing. -/
theorem one_tap_per_contact_witness :
    detect_doubletap2wake (detect_doubletap2wake counting_state 150 500 1100).1 160 510 1110
        = ((detect_doubletap2wake counting_state 150 500 1100).1, [])
      ∧ (detect_doubletap2wake counting_state 150 500 1100).1.is_touching = true :=
  ⟨(one_tap_per_contact counting_state 150 500 1100 160 510 1110 (Input.evaluate 0)).2.2.1,
   ((one_tap_per_contact counting_state 150 500 1100 160 510 1110 (Input.evaluate 0)).2.1
      (by decide)).2⟩

theorem detect_keeps_dt2w_switch (s : State) (x y now : Int) :
    (detect_doubletap2wake s x y now).1.dt2w_switch = s.dt2w_switch := by
  cases hs : s.scr_suspended
  · simp [detect_doubletap2wake, hs]
  · cases ht : s.is_touching
    · rw [(detect_eq_fire_counted s x y now hs ht).2]
    · rw [detect_touching s x y now ht]

theorem tmp_tap_first (s : State) (t : Tap) (hs : s.scr_suspended = true)
    (htmp : s.dt2w_switch_tmp ≠ 0) (hf : s.is_touching = false) (hc : s.touch_nr = 0) :
    (tap_contact s t).2 = []
      ∧ (tap_contact s t).1.scr_suspended = true
      ∧ (tap_contact s t).1.dt2w_switch_tmp = s.dt2w_switch_tmp
      ∧ (tap_contact s t).1.is_touching = false
      ∧ (tap_contact s t).1.touch_nr = 1
      ∧ (tap_contact s t).1.x_pre = t.x
      ∧ (tap_contact s t).1.y_pre = t.y
      ∧ (tap_contact s t).1.tap_time_pre = t.now := by
  refine ⟨?_, ?_, ?_, ?_, ?_, ?_, ?_, ?_⟩ <;>
    simp [tap_contact, detect_doubletap2wake, detect_count_step, detect_fire_step,
      dt2w_input_event, new_touch, hs, htmp, hf, hc]

theorem tmp_tap_second (s : State) (t : Tap) (rx ry pt : Int) (hs : s.scr_suspended = true)
    (htmp : s.dt2w_switch_tmp ≠ 0) (hf : s.is_touching = false) (hc : s.touch_nr = 1)
    (hx : s.x_pre = rx) (hy : s.y_pre = ry) (hp : s.tap_time_pre = pt)
    (hq : (|t.x - rx| < DT2W_FEATHER ∨ |t.y - ry| < DT2W_FEATHER)
      ∧ t.now - pt < DT2W_TIME_GAP) :
    (tap_contact s t).2 = [Call.schedule_presspwr_work] ∧ (tap_contact s t).1.touch_nr = 0 := by
  have hq2 : (calc_feather t.x rx < DT2W_FEATHER ∨ calc_feather t.y ry < DT2W_FEATHER)
      ∧ t.now - pt < DT2W_TIME_GAP :=
    ⟨hq.1.imp (calc_feather_near _ _) (calc_feather_near _ _), hq.2⟩
  refine ⟨?_, ?_⟩ <;>
    simp [tap_contact, detect_doubletap2wake, detect_count_step, detect_fire_step,
      dt2w_input_event, doubletap2wake_reset, doubletap2wake_pwrtrigger, hs, htmp, hf, hc, hx,
      hy, hp, hq2]

theorem tap_contact_keeps_dt2w_switch (s : State) (t : Tap) :
    (tap_contact s t).1.dt2w_switch = s.dt2w_switch := by
  have h : ∀ r : State, (dt2w_input_event r EvCode.ABS_MT_TRACKING_ID (-1)).1.dt2w_switch
      = r.dt2w_switch := by
    intro r
    unfold dt2w_input_event
    split_ifs <;> rfl
  simp only [tap_contact, h, detect_keeps_dt2w_switch]

/-- C24: the temporary override forces a double-tap threshold and is
transparent. After every evaluation `dt2w_switch` has the value it had before.
With `dt2w_switch_tmp` non-zero an evaluation uses threshold 1 whatever
`dt2w_switch` holds: its calls and its resulting state (apart from the field
`dt2w_switch` itself) are the same for every value of `dt2w_switch`, and from a
count of 0 the wake trigger fires on the second of two qualifying taps. With
`dt2w_switch_tmp = 0` the threshold used is `dt2w_switch`. -/
theorem temporary_switch_transparent (s : State) (x y now n : Int) (t1 t2 : Tap) :
    (detect_doubletap2wake s x y now).1.dt2w_switch = s.dt2w_switch
      ∧ (s.dt2w_switch_tmp ≠ 0 → s.scr_suspended = true → s.is_touching = false →
          threshold_in_effect s = 1
            ∧ (detect_doubletap2wake s x y now).2
              = (detect_fire_step (detect_count_step
                  { s with is_touching := true, dt2w_switch := 1 } x y now)).2
            ∧ (detect_doubletap2wake { s with dt2w_switch := n } x y now).2
              = (detect_doubletap2wake s x y now).2
            ∧ (detect_doubletap2wake { s with dt2w_switch := n } x y now).1
              = { (detect_doubletap2wake s x y now).1 with dt2w_switch := n })
      ∧ (s.dt2w_switch_tmp ≠ 0 → s.scr_suspended = true → s.is_touching = false →
          s.touch_nr = 0 → Qualify t1.x t1.y t1.now [t2] →
          (run_taps s [t1, t2]).2 = [[], [Call.schedule_presspwr_work]]
            ∧ (run_taps s [t1, t2]).1.touch_nr = 0
            ∧ (run_taps s [t1, t2]).1.dt2w_switch = s.dt2w_switch)
      ∧ (s.dt2w_switch_tmp = 0 → s.scr_suspended = true → s.is_touching = false →
          threshold_in_effect s = s.dt2w_switch
            ∧ detect_doubletap2wake s x y now
              = detect_fire_step (detect_count_step { s with is_touching := true } x y now)) := by
  refine ⟨detect_keeps_dt2w_switch s x y now, ?_, ?_, ?_⟩
  · intro htmp hs hf
    have hth : threshold_in_effect s = 1 := by simp [threshold_in_effect, htmp]
    have hth2 : threshold_in_effect { s with dt2w_switch := n } = 1 := by
      simp [threshold_in_effect, htmp]
    have hcnt : counted { s with dt2w_switch := n } x y now = counted s x y now := by
      simp only [counted, hth, hth2]
    obtain ⟨a1, a2⟩ := detect_eq_fire_counted s x y now hs hf
    obtain ⟨b1, b2⟩ := detect_eq_fire_counted { s with dt2w_switch := n } x y now hs hf
    refine ⟨hth, ?_, ?_, ?_⟩
    · rw [a1]; simp only [counted, hth]
    · rw [a1, b1, hcnt]
    · rw [a2, b2, hcnt]
  · intro htmp hs hf hc hq
    obtain ⟨hq1, _⟩ := hq
    obtain ⟨o1, f1, f2, f3, f4, f5, f6, f7⟩ := tmp_tap_first s t1 hs htmp hf hc
    obtain ⟨o2, g2⟩ := tmp_tap_second (tap_contact s t1).1 t2 t1.x t1.y t1.now f1
      (by rw [f2]; exact htmp) f3 f4 f5 f6 f7 hq1
    refine ⟨by simp [run_taps, o1, o2], by simp [run_taps, g2], ?_⟩
    simp only [run_taps, tap_contact_keeps_dt2w_switch]
  · intro htmp hs hf
    refine ⟨by simp [threshold_in_effect, htmp], ?_⟩
    simp [detect_doubletap2wake, hs, hf, htmp]

theorem temporary_switch_transparent_witness :
    (detect_doubletap2wake tmp_only_state 100 100 1000).1.dt2w_switch = 0
      ∧ (run_taps tmp_only_state [⟨100, 100, 1000⟩, ⟨120, 90, 1150⟩]).2
        = [[], [Call.schedule_presspwr_work]] :=
  ⟨(temporary_switch_transparent tmp_only_state 100 100 1000 0
      ⟨100, 100, 1000⟩ ⟨120, 90, 1150⟩).1,
    ((temporary_switch_transparent tmp_only_state 100 100 1000 0
      ⟨100, 100, 1000⟩ ⟨120, 90, 1150⟩).2.2.1 (by decide) (by decide) (by decide) (by decide)
      (by decide)).1⟩

end Dt2w

/-! ## Theorems for: Display-power events while disabled (C27), Active implies enabled (C28) -/

/-- C27: display-power events are ignored while disabled. When both tap
switches are 0 the tap display-power handler returns the state it was given for
every event (so `scr_suspended` and the registration are unchanged), and when
`sovc_switch` is 0 so does the swipe handler. So the suspended flag need not
equal the latest display transition: after enable, display off, disable, display
on, enable, the last transition was to on and the flag is still true, for both
drivers. -/
theorem display_events_ignored_while_disabled (d : Dt2w.State) (v : Sovc.State)
    (event : FbEvent) (force_off : Option Bool) (ok ok1 ok2 : Bool) (rc rc1 rc2 : Int)
    (sscanf_d : List Char → Option Int) :
    (d.dt2w_switch = 0 ∧ d.dt2w_switch_tmp = 0 →
        Dt2w.dt2w_fb_notifier_callback d event force_off ok rc = (d, 0))
      ∧ (v.sovc_switch = 0 →
        Sovc.sovc_fb_notifier_callback v event ok1 ok2 rc1 rc2 = (v, 0))
      ∧ (Dt2w.run (Dt2w.boot false none) tap_disabled_while_off).scr_suspended = true
      ∧ (Dt2w.run (Dt2w.boot false none) tap_disabled_while_off).dt2w_switch = 1
      ∧ (Sovc.run sscanf_d (Sovc.boot false none) swipe_disabled_while_off).sovc_scr_suspended
          = true
      ∧ (Sovc.run sscanf_d (Sovc.boot false none) swipe_disabled_while_off).sovc_switch = 1 := by
  refine ⟨?_, ?_, by decide, by decide, ?_, ?_⟩
  · intro h
    simp [Dt2w.dt2w_fb_notifier_callback, h]
  · intro h
    simp [Sovc.sovc_fb_notifier_callback, h]
  · simp only [Sovc.run, swipe_disabled_while_off, List.foldl, Sovc.step]
    decide
  · simp only [Sovc.run, swipe_disabled_while_off, List.foldl, Sovc.step]
    decide

namespace Dt2w

end Dt2w

namespace Sovc

end Sovc

